import Mathlib

/-
  Shallow embedding of the M80-compatible Intel 8080 cross-assembler
  (src/include/assembler.h, src/src/Assembler.cpp) and proofs about it.

  Modelling conventions:
  * `std::string` is `String`; scanning loops work on `List Char`.
  * C `int` is `Int` (signed overflow never occurs on the inputs reasoned
    about here); `uint16_t`/`uint8_t` conversions take `% 65536` / `% 256`
    exactly where the C++ performs an integral conversion or masking.
  * `std::map` is an association list; `mapAssign` implements the
    insert-or-assign semantics of `operator[]`.  The core never iterates
    over `symbol_table`, `macros` or `cross_reference_data` (only the
    report writers do, and those are out of scope), so the list order of
    those three maps is irrelevant; the one map the core does iterate,
    the local-label map of the macro expander, is kept sorted by key to
    mirror the ordered iteration of `std::map`.
  * fallible code returns `Except AsmErr`; `report_error` (which prints
    and calls `exit(1)`) is the `AsmErr.reported` constructor, an
    exception that escapes `Assembler::assemble` uncaught (there is no
    try/catch around the `assemble` call in src/src/main.cpp, so
    `std::terminate` ends the process) is `AsmErr.uncaught`, and the
    undefined behaviour of `result /= rhs` with `rhs == 0` is the
    distinguished outcome `AsmErr.divByZero`.
  * the unbounded loops of the C++ (recursive macro expansion and the
    substring-replacement loop, both of which can genuinely diverge) are
    given explicit fuel; running out of fuel is `AsmErr.fuel`.
  * the listing stream and octal listing mode only affect the textual
    listing output, which the spec puts out of scope; they are not
    modelled.
-/

set_option maxRecDepth 200000
set_option maxHeartbeats 2000000

namespace M80

/-! ### C character classification (ASCII, as used by the C++ helpers) -/

/-- C `isspace`. -/
def isSpaceC (c : Char) : Bool :=
  c = ' ' || c = '\t' || c = '\n' || c = '\x0b' || c = '\x0c' || c = '\r'

/-- C `tolower` on ASCII. -/
def tolowerC (c : Char) : Char :=
  if 65 ≤ c.toNat ∧ c.toNat ≤ 90 then Char.ofNat (c.toNat + 32) else c

/-- C `isdigit`. -/
def isdigitC (c : Char) : Bool := decide (48 ≤ c.toNat ∧ c.toNat ≤ 57)

/-- C `isalpha` on ASCII. -/
def isalphaC (c : Char) : Bool :=
  decide ((97 ≤ c.toNat ∧ c.toNat ≤ 122) ∨ (65 ≤ c.toNat ∧ c.toNat ≤ 90))

/-- C `isalnum` on ASCII. -/
def isalnumC (c : Char) : Bool := isalphaC c || isdigitC c

/-! ### The lexical helpers of Assembler.cpp -/

/-- `ltrim`: drop leading whitespace. -/
def ltrimL (s : List Char) : List Char := s.dropWhile isSpaceC

/-- `rtrim`: drop trailing whitespace. -/
def rtrimL (s : List Char) : List Char := (s.reverse.dropWhile isSpaceC).reverse

/-- `trim`: drop both. -/
def trimL (s : List Char) : List Char := rtrimL (ltrimL s)

/-- `trim` on `String`. -/
def trimS (s : String) : String := String.mk (trimL s.data)

/-- `to_lower`: case-fold a string (ASCII). -/
def to_lower (s : String) : String := String.mk (s.data.map tolowerC)

/-- `std::stringstream` extraction `>>` of one whitespace-delimited word:
returns the word and the unconsumed remainder of the stream. -/
def extractWord (s : List Char) : String × List Char :=
  let t := s.dropWhile isSpaceC
  (String.mk (t.takeWhile (fun c => !isSpaceC c)), t.dropWhile (fun c => !isSpaceC c))

/-- Loop of `split_args`: walks the characters keeping the quote flag and
the angle-bracket depth, splitting on the delimiter at top level. -/
def splitArgsAux (delimiter : Char) : List Char → Int → Bool → List Char → List String → List String
  | [], _, _, cur, acc => acc ++ [String.mk (trimL cur)]
  | c :: cs, bl, inq, cur, acc =>
    let inq := if c = '\'' ∨ c = '"' then !inq else inq
    let bl := if c = '<' then bl + 1 else bl
    let bl := if c = '>' then bl - 1 else bl
    if c = delimiter ∧ inq = false ∧ bl = 0 then
      splitArgsAux delimiter cs bl inq [] (acc ++ [String.mk (trimL cur)])
    else
      splitArgsAux delimiter cs bl inq (cur ++ [c]) acc

/-- `split_args`: strip the `;` comment, then split on the delimiter
outside quotes and angle brackets; every token is trimmed, and even an
empty input yields one (empty) token. -/
def split_args (s : String) (delimiter : Char) : List String :=
  splitArgsAux delimiter (s.data.takeWhile (fun c => c ≠ ';')) 0 false [] []

/-! ### The number parser (`Assembler::get_number`) and its libc models -/

/-- Value of a character as a digit, letters taken case-insensitively
(as `strtoul` does). -/
def digitValC (c : Char) : Option Nat :=
  if 48 ≤ c.toNat ∧ c.toNat ≤ 57 then some (c.toNat - 48)
  else if 97 ≤ c.toNat ∧ c.toNat ≤ 122 then some (c.toNat - 87)
  else if 65 ≤ c.toNat ∧ c.toNat ≤ 90 then some (c.toNat - 55)
  else none

/-- A digit valid in the given base. -/
def digitInBase (base : Nat) (c : Char) : Option Nat :=
  match digitValC c with
  | some v => if v < base then some v else none
  | none => none

/-- Longest-prefix digit accumulation of `strtoul`; the Bool records
whether at least one digit was consumed. -/
def parseDigitsAux (base : Nat) : List Char → Nat → Bool → Nat × Bool
  | [], acc, seen => (acc, seen)
  | c :: cs, acc, seen =>
    match digitInBase base c with
    | some v => parseDigitsAux base cs (acc * base + v) true
    | none => (acc, seen)

/-- `strtoul` skips an optional `0x`/`0X` when the base is 16 and a hex
digit follows. -/
def strip0x (base : Nat) (s : List Char) : List Char :=
  if base = 16 then
    match s with
    | c0 :: x :: rest =>
      if c0 == '0' && (x == 'x' || x == 'X') &&
          (match rest with
           | c :: _ => (digitInBase 16 c).isSome
           | [] => false) then rest
      else c0 :: x :: rest
    | other => other
  else s

/-- Model of `std::stoul(s, nullptr, base)`: skip leading whitespace and
an optional plus sign, then take the longest run of valid digits; `none`
models the `std::invalid_argument` thrown when no digit is consumed and
also the `std::out_of_range` thrown past `ULONG_MAX` (both are caught by
the same handler in `get_number`).  Trailing garbage after a valid digit
is silently ignored, exactly as `std::stoul` ignores it. -/
def stoulOpt (s : List Char) (base : Nat) : Option Nat :=
  let s1 := s.dropWhile isSpaceC
  let s2 := match s1 with
    | c :: rest => if c = '+' then rest else c :: rest
    | [] => []
  let s3 := strip0x base s2
  match parseDigitsAux base s3 0 false with
  | (_, false) => none
  | (v, true) => if v ≤ 18446744073709551615 then some v else none

/-- Model of `std::stoi(s, nullptr, 10)`: `none` models the exception
thrown when no decimal digit follows the optional sign (or the value
leaves `int` range) — `get_number` calls `std::stoi` outside its
`try` block, so that exception is never caught. -/
def stoiOpt (s : List Char) : Option Int :=
  let s1 := s.dropWhile isSpaceC
  let p : Bool × List Char := match s1 with
    | '-' :: rest => (true, rest)
    | '+' :: rest => (false, rest)
    | _ => (false, s1)
  match parseDigitsAux 10 p.2 0 false with
  | (_, false) => none
  | (v, true) =>
    let n : Int := if p.1 then -(v : Int) else (v : Int)
    if -2147483648 ≤ n ∧ n ≤ 2147483647 then some n else none

/-- The implementation-defined (gcc) conversion `unsigned long → int`:
wrap modulo 2^32 and reinterpret as signed. -/
def toInt32 (n : Nat) : Int :=
  let m := n % 4294967296
  if m < 2147483648 then (m : Int) else (m : Int) - 4294967296

/-- Errors and abnormal outcomes of the assembler. -/
inductive AsmErr where
  /-- `Assembler::report_error`: prints `asm80> line <n+1>: <msg>` to
  `std::cerr` and calls `exit(1)`.  The stored line number is the raw
  zero-indexed `line_num` argument. -/
  | reported (line_num : Nat) (msg : String)
  /-- A C++ exception that escapes `Assembler::assemble`; nothing catches
  it in src/src/main.cpp, so `std::terminate` aborts the process. -/
  | uncaught (msg : String)
  /-- Undefined behaviour: `result /= rhs` with a zero divisor in
  `Assembler::parse_expr_term`. -/
  | divByZero
  /-- Fuel exhaustion of the embedding (models the genuinely divergent
  loops of the C++). -/
  | fuel
deriving Repr, DecidableEq

/-- The diagnostic text `report_error` prints before exiting. -/
def renderErr : AsmErr → String
  | .reported l m => "asm80> line " ++ toString (l + 1) ++ ": " ++ m
  | .uncaught m => "terminate called after throwing an instance of " ++ m
  | .divByZero => "floating point exception"
  | .fuel => "<fuel exhausted>"

/-- Whether the outcome ends the process with exit code 1 after printing
a `line <1-indexed>: <message>` diagnostic (true exactly for
`report_error`; an uncaught exception aborts instead). -/
def exitsWithCode1 : AsmErr → Bool
  | .reported _ _ => true
  | _ => false

/-- `Assembler::get_number` (`lineno` is the member used by
`report_error`).  Trim; empty is 0; a leading `-` goes to `std::stoi`
outside the `try`; otherwise the final character selects the base
(case-insensitively), is dropped for `h`/`q`/`b`, and the rest goes to
`std::stoul` inside the `try`. -/
def get_number (lineno : Nat) (input : String) : Except AsmErr Int :=
  let t := trimL input.data
  match t with
  | [] => .ok 0
  | c :: _ =>
    if c = '-' then
      match stoiOpt t with
      | some v => .ok v
      | none => .error (.uncaught "std::invalid_argument (stoi)")
    else
      let last := tolowerC (t.getLastD ' ')
      let base : Nat := if last = 'h' then 16 else if last = 'q' then 8 else if last = 'b' then 2 else 10
      let body := if last = 'h' ∨ last = 'q' ∨ last = 'b' then t.dropLast else t
      match stoulOpt body base with
      | some v => .ok (toInt32 v)
      | none => .error (.reported lineno ("invalid number format: " ++ String.mk body))

/-- The base `get_number` selects for a trimmed input (projection of the
logic above, used to state properties about it). -/
def numBase (t : List Char) : Nat :=
  let last := tolowerC (t.getLastD ' ')
  if last = 'h' then 16 else if last = 'q' then 8 else if last = 'b' then 2 else 10

/-- The digit body `get_number` hands to `std::stoul`. -/
def numBody (t : List Char) : List Char :=
  let last := tolowerC (t.getLastD ' ')
  if last = 'h' ∨ last = 'q' ∨ last = 'b' then t.dropLast else t

/-! ### `std::map` model -/

/-- `map.count(k) != 0`. -/
def mapContains {α : Type} : List (String × α) → String → Bool
  | [], _ => false
  | p :: rest, k => if p.1 = k then true else mapContains rest k

/-- `map.at(k)` / lookup. -/
def mapFind {α : Type} : List (String × α) → String → Option α
  | [], _ => none
  | p :: rest, k => if p.1 = k then some p.2 else mapFind rest k

/-- `map[k] = v` (insert or assign). -/
def mapAssign {α : Type} : List (String × α) → String → α → List (String × α)
  | [], k, v => [(k, v)]
  | p :: rest, k, v => if p.1 = k then (k, v) :: rest else p :: mapAssign rest k v

/-- `cross_reference_data[k].push_back(v)` (`operator[]`
default-constructs an empty vector when the key is new). -/
def crPush (m : List (String × List Int)) (k : String) (v : Int) : List (String × List Int) :=
  mapAssign m k ((mapFind m k).getD [] ++ [v])

/-- Lexicographic byte order of `std::string operator<` (ASCII). -/
def strLtB : List Char → List Char → Bool
  | [], [] => false
  | [], _ :: _ => true
  | _ :: _, [] => false
  | a :: as, b :: bs =>
    if a.toNat < b.toNat then true else if b.toNat < a.toNat then false else strLtB as bs

/-- Insert-or-assign keeping the list sorted by key, mirroring the
ordered iteration of `std::map` (used for the local-label map, the one
map the core iterates over). -/
def insertSorted : List (String × String) → String → String → List (String × String)
  | [], k, v => [(k, v)]
  | p :: rest, k, v =>
    if strLtB k.data p.1.data then (k, v) :: p :: rest
    else if p.1 = k then (k, v) :: rest
    else p :: insertSorted rest k v

/-! ### Data model (assembler.h) -/

/-- A user-defined macro: name, parameter names, raw body lines. -/
structure Macro where
  name : String
  params : List String
  body_lines : List String
deriving Repr, DecidableEq, Inhabited

/-- The state variables of class `Assembler` (the listing stream and
octal mode, which only affect the out-of-scope listing text, are
omitted). -/
structure AsmState where
  lineno : Nat
  address : Nat
  source_pass : Nat
  assembly_finished : Bool
  macro_expansion_counter : Nat
  output : List Nat
  symbol_table : List (String × Nat)
  macros : List (String × Macro)
  if_stack : List Bool
  cross_reference_data : List (String × List Int)
  label : String
  mnemonic : String
  operand1 : String
  operand2 : String
  comment : String
deriving Repr, DecidableEq

/-- A freshly constructed `Assembler` (the constructor runs
`reset_state` on value-initialized members). -/
def initState : AsmState :=
  { lineno := 0, address := 0, source_pass := 1, assembly_finished := false,
    macro_expansion_counter := 0, output := [], symbol_table := [], macros := [],
    if_stack := [], cross_reference_data := [],
    label := "", mnemonic := "", operand1 := "", operand2 := "", comment := "" }

/-! ### Expression evaluation engine -/

/-- `Assembler::get_token`: skip whitespace; an identifier token
(`alpha|$|_` then `alnum|$|_`), a numeric token (digit, or `-` followed
by a digit, then alphanumerics), or a single character. -/
def get_token : List Char → String × List Char
  | [] => ("", [])
  | c :: cs =>
    if isSpaceC c then get_token cs
    else if isalphaC c || c = '$' || c = '_' then
      let tl := (c :: cs).takeWhile (fun x => isalnumC x || x = '$' || x = '_')
      (String.mk tl, (c :: cs).dropWhile (fun x => isalnumC x || x = '$' || x = '_'))
    else if isdigitC c || (c = '-' && (match cs with | d :: _ => isdigitC d | [] => false)) then
      (String.mk (c :: cs.takeWhile isalnumC), cs.dropWhile isalnumC)
    else
      (String.mk [c], cs)

/-- `Assembler::is_quote_delimited`. -/
def is_quote_delimited (s : String) : Bool :=
  if s.length < 2 then false
  else
    let first := s.data.headD ' '
    let last := s.data.getLastD ' '
    (first = '"' && last = '"') || (first = '\'' && last = '\'')

/-- `Assembler::is_char_constant`. -/
def is_char_constant (s : String) : Bool :=
  s.length = 3 && s.data.headD ' ' = '\'' && s.data.getLastD ' ' = '\''

/-- Substring search of `std::string::find` (`none` is `npos`;
searching for the empty string succeeds at position 0). -/
def leadsWith : List Char → List Char → Bool
  | [], _ => true
  | _ :: _, [] => false
  | p :: ps, c :: cs => p = c && leadsWith ps cs

/-- First occurrence index of a pattern. -/
def findSub (pat : List Char) : List Char → Option Nat
  | [] => if pat = [] then some 0 else none
  | c :: cs => if leadsWith pat (c :: cs) then some 0 else (findSub pat cs).map (· + 1)

/-- `Assembler::evaluate_single_term`.  Trim; empty is 0; a character
constant is its middle byte; after case-folding, `$` is the location
counter, `low `/`high ` prefixes extract address bytes, a digit-leading
or `-`-leading term goes to `get_number`, and otherwise the term is a
symbol-table lookup that records a cross reference; an unknown symbol is
0 in pass 1 and fatal in pass 2. -/
def evaluate_single_term (st : AsmState) (term_str : String) : Except AsmErr (Int × AsmState) :=
  let term := trimL term_str.data
  match term with
  | [] => .ok (0, st)
  | c0 :: rest0 =>
    if is_char_constant (String.mk term) then
      .ok (((term.getD 1 ' ').toNat % 256 : Nat), st)
    else
      let t := String.mk ((c0 :: rest0).map tolowerC)
      if t = "$" then .ok ((st.address : Int), st)
      else if leadsWith "low ".data t.data then
        let lbl := String.mk (trimL (t.data.drop 4))
        match mapFind st.symbol_table lbl with
        | some v => .ok (((v % 256 : Nat) : Int), st)
        | none =>
          if st.source_pass = 2 then
            .error (.reported st.lineno ("undefined label in LOW operator: " ++ lbl))
          else .ok (0, st)
      else if leadsWith "high ".data t.data then
        let lbl := String.mk (trimL (t.data.drop 5))
        match mapFind st.symbol_table lbl with
        | some v => .ok (((v / 256 % 256 : Nat) : Int), st)
        | none =>
          if st.source_pass = 2 then
            .error (.reported st.lineno ("undefined label in HIGH operator: " ++ lbl))
          else .ok (0, st)
      else if isdigitC (t.data.headD ' ') || (1 < t.length ∧ t.data.headD ' ' = '-') then
        match get_number st.lineno t with
        | .ok v => .ok (v, st)
        | .error e => .error e
      else
        match mapFind st.symbol_table t with
        | some v =>
          .ok ((v : Int),
            { st with cross_reference_data :=
                crPush st.cross_reference_data t ((st.lineno : Int) + 1) })
        | none =>
          if st.source_pass = 2 then
            .error (.reported st.lineno ("undefined label in expression: " ++ t))
          else .ok (0, st)

mutual

/-- Iterator form of `Assembler::evaluate_expression`: a term, then a
left-associative loop over `+ - or xor`. -/
def evaluate_expression_it : Nat → AsmState → List Char → Except AsmErr (Int × List Char × AsmState)
  | 0, _, _ => .error .fuel
  | fuel + 1, st, cs => do
    let (v, cs, st) ← parse_expr_term fuel st cs
    expr_loop fuel v st cs

/-- The `while (true)` loop of `evaluate_expression`. -/
def expr_loop : Nat → Int → AsmState → List Char → Except AsmErr (Int × List Char × AsmState)
  | 0, _, _, _ => .error .fuel
  | fuel + 1, acc, st, cs =>
    let current_pos := cs
    let (tok, cs1) := get_token cs
    let op := to_lower tok
    if op = "+" ∨ op = "-" ∨ op = "or" ∨ op = "xor" then do
      let (rhs, cs2, st) ← parse_expr_term fuel st cs1
      let acc := if op = "+" then acc + rhs
        else if op = "-" then acc - rhs
        else if op = "or" then Int.lor acc rhs
        else Int.xor acc rhs
      expr_loop fuel acc st cs2
    else
      .ok (acc, current_pos, st)

/-- `Assembler::parse_expr_term`: a factor, then a left-associative loop
over `* / and`. -/
def parse_expr_term : Nat → AsmState → List Char → Except AsmErr (Int × List Char × AsmState)
  | 0, _, _ => .error .fuel
  | fuel + 1, st, cs => do
    let (v, cs, st) ← parse_expr_factor fuel st cs
    term_loop fuel v st cs

/-- The `while (true)` loop of `parse_expr_term`.  `result /= rhs` with
a zero divisor is undefined behaviour in the C++ (no check exists);
it is modelled as the distinguished outcome `AsmErr.divByZero`. -/
def term_loop : Nat → Int → AsmState → List Char → Except AsmErr (Int × List Char × AsmState)
  | 0, _, _, _ => .error .fuel
  | fuel + 1, acc, st, cs =>
    let current_pos := cs
    let (tok, cs1) := get_token cs
    let op := to_lower tok
    if op = "*" ∨ op = "/" ∨ op = "and" then do
      let (rhs, cs2, st) ← parse_expr_factor fuel st cs1
      if op = "/" ∧ rhs = 0 then .error .divByZero
      else
        let acc := if op = "*" then acc * rhs
          else if op = "/" then Int.tdiv acc rhs
          else Int.land acc rhs
        term_loop fuel acc st cs2
    else
      .ok (acc, current_pos, st)

/-- `Assembler::parse_expr_factor`: a parenthesized expression or a
single term. -/
def parse_expr_factor : Nat → AsmState → List Char → Except AsmErr (Int × List Char × AsmState)
  | 0, _, _ => .error .fuel
  | fuel + 1, st, cs =>
    let (tok, cs1) := get_token cs
    if tok = "(" then do
      let (v, cs2, st) ← evaluate_expression_it fuel st cs1
      let (closing, cs3) := get_token cs2
      if closing = ")" then .ok (v, cs3, st)
      else .error (.reported st.lineno "mismatched parentheses in expression")
    else do
      let (v, st) ← evaluate_single_term st tok
      .ok (v, cs1, st)

end

/-- String form of `Assembler::evaluate_expression`: run the iterator
form and discard the unconsumed remainder. -/
def evaluate_expression (fuel : Nat) (st : AsmState) (expr : String) : Except AsmErr (Int × AsmState) := do
  let (v, _, st) ← evaluate_expression_it fuel st expr.data
  .ok (v, st)

/-- The relational-operator table of `Assembler::evaluate_conditional`,
in its search priority order (word form tried before symbolic form for
each pair). -/
def condOps : List (String × String) :=
  [("ne", "!="), ("eq", "="), ("ge", ">="), ("le", "<="), ("gt", ">"), ("lt", "<")]

/-- The operator search loop: for each pair, `find` the word form, then
the symbolic form, breaking at the first hit.  The search is a plain
case-sensitive substring `std::string::find` on the raw operand text. -/
def findCondOp : List (String × String) → String → Option (String × Nat)
  | [], _ => none
  | (w, s) :: rest, expr =>
    match findSub w.data expr.data with
    | some p => some (w, p)
    | none =>
      match findSub s.data expr.data with
      | some p => some (s, p)
      | none => findCondOp rest expr

/-- `Assembler::evaluate_conditional`: split on the located operator and
apply the relation, or compare the whole expression against zero. -/
def evaluate_conditional (fuel : Nat) (st : AsmState) (expr : String) : Except AsmErr (Bool × AsmState) :=
  match findCondOp condOps expr with
  | some (op_str, op_pos) => do
    let lhs_str := String.mk (expr.data.take op_pos)
    let rhs_str := String.mk (expr.data.drop (op_pos + op_str.length))
    let (lhs_val, st) ← evaluate_expression fuel st lhs_str
    let (rhs_val, st) ← evaluate_expression fuel st rhs_str
    let r : Bool :=
      if op_str = "eq" ∨ op_str = "=" then lhs_val = rhs_val
      else if op_str = "ne" ∨ op_str = "!=" then lhs_val ≠ rhs_val
      else if op_str = "gt" ∨ op_str = ">" then rhs_val < lhs_val
      else if op_str = "lt" ∨ op_str = "<" then lhs_val < rhs_val
      else if op_str = "ge" ∨ op_str = ">=" then rhs_val ≤ lhs_val
      else if op_str = "le" ∨ op_str = "<=" then lhs_val ≤ rhs_val
      else false
    .ok (r, st)
  | none => do
    let (v, st) ← evaluate_expression fuel st expr
    .ok (v ≠ 0, st)

/-- `Assembler::should_skip`: any false entry on the IF stack suppresses
the line. -/
def should_skip (st : AsmState) : Bool := st.if_stack.contains false

/-! ### Line parser (`Assembler::parse`) -/

/-- Scan of `Assembler::parse` for the first comma outside quotes and
angle brackets. -/
def findTopComma : List Char → Bool → Int → Nat → Option Nat
  | [], _, _, _ => none
  | c :: cs, inq, bl, i =>
    let inq := if c = '\'' ∨ c = '"' then !inq else inq
    let bl := if c = '<' then bl + 1 else bl
    let bl := if c = '>' then bl - 1 else bl
    if c = ',' ∧ inq = false ∧ bl = 0 then some i
    else findTopComma cs inq bl (i + 1)

/-- `Assembler::parse`: split a raw line into label, mnemonic, operand1,
operand2 and comment (stored in the member fields). -/
def parse (st0 : AsmState) (line0 : String) : AsmState :=
  let st := { st0 with label := "", mnemonic := "", operand1 := "", operand2 := "", comment := "" }
  let line1 := line0.data.map (fun c => if c = '\t' then ' ' else c)
  let cp := findSub [';'] line1
  let st := match cp with
    | some p => { st with comment := String.mk (trimL (line1.drop (p + 1))) }
    | none => st
  let line2 := match cp with
    | some p => line1.take p
    | none => line1
  let line := trimL line2
  if line = [] then st
  else
    let temp_upper := line.map tolowerC
    match findSub " equ ".data temp_upper with
    | some equ_pos =>
      { st with label := to_lower (String.mk (trimL (line.take equ_pos))),
                mnemonic := "equ",
                operand1 := String.mk (trimL (line.drop (equ_pos + 5))) }
    | none =>
      let lp := findSub [':'] line
      let lbl := match lp with
        | some p => trimL (line.take p)
        | none => []
      let line := match lp with
        | some p => trimL (line.drop (p + 1))
        | none => line
      let (mn, afterMn) := extractWord line
      let operands_part := trimL afterMn
      let (op1, op2) :=
        match findTopComma operands_part false 0 0 with
        | some p => (String.mk (trimL (operands_part.take p)),
                     String.mk (trimL (operands_part.drop (p + 1))))
        | none => (String.mk operands_part, "")
      let (mn, op1) := if mn = "" ∧ op1 ≠ "" then (op1, "") else (mn, op1)
      { st with label := to_lower (String.mk lbl), mnemonic := to_lower mn,
                operand1 := op1, operand2 := op2 }

/-! ### Pass logic -/

/-- `Assembler::check_operands`. -/
def check_operands (st : AsmState) (valid : Prop) [Decidable valid] (mnemonic_name : String) : Except AsmErr Unit :=
  if valid then .ok ()
  else .error (.reported st.lineno ("invalid operands for mnemonic \"" ++ mnemonic_name ++ "\""))

/-- `Assembler::add_label`: duplicate is fatal; otherwise record the
label at the current address and a negative (definition) cross-reference
entry. -/
def add_label (st : AsmState) : Except AsmErr AsmState :=
  if mapContains st.symbol_table st.label then
    .error (.reported st.lineno ("duplicate label: \"" ++ st.label ++ "\""))
  else
    .ok { st with symbol_table := mapAssign st.symbol_table st.label st.address,
                  cross_reference_data := crPush st.cross_reference_data st.label (-((st.lineno : Int) + 1)) }

/-- `Assembler::pass_action`: pass 1 registers the label, pass 2 appends
the bytes; both advance the 16-bit location counter by the size. -/
def pass_action (st : AsmState) (instruction_size : Nat) (output_bytes : List Nat) (should_add_label : Bool) : Except AsmErr AsmState := do
  let st ← (if st.source_pass = 1 then
      (if st.label ≠ "" ∧ should_add_label then add_label st else .ok st)
    else .ok { st with output := st.output ++ output_bytes })
  .ok { st with address := (st.address + instruction_size) % 65536 }

/-- `Assembler::register_offset8`. -/
def register_offset8 (st : AsmState) (raw_register : String) : Except AsmErr Nat :=
  let r := to_lower raw_register
  if r = "b" then .ok 0 else if r = "c" then .ok 1 else if r = "d" then .ok 2
  else if r = "e" then .ok 3 else if r = "h" then .ok 4 else if r = "l" then .ok 5
  else if r = "m" then .ok 6 else if r = "a" then .ok 7
  else .error (.reported st.lineno ("invalid 8-bit register \"" ++ r ++ "\""))

/-- `Assembler::register_offset16`. -/
def register_offset16 (st : AsmState) : Except AsmErr Nat :=
  let op := to_lower st.operand1
  if op = "b" ∨ op = "bc" then .ok 0x00
  else if op = "d" ∨ op = "de" then .ok 0x10
  else if op = "h" ∨ op = "hl" then .ok 0x20
  else if op = "psw" then
    (if st.mnemonic = "push" ∨ st.mnemonic = "pop" then .ok 0x30
     else .error (.reported st.lineno ("\"psw\" cannot be used with instruction \"" ++ st.mnemonic ++ "\"")))
  else if op = "sp" then
    (if st.mnemonic ≠ "push" ∧ st.mnemonic ≠ "pop" then .ok 0x30
     else .error (.reported st.lineno ("\"sp\" cannot be used with instruction \"" ++ st.mnemonic ++ "\"")))
  else .error (.reported st.lineno ("invalid 16-bit register \"" ++ st.operand1 ++ "\" for instruction \"" ++ st.mnemonic ++ "\""))

/-- C++ `int & 0xFF` (two's complement low byte). -/
def byteLow (n : Int) : Nat := (Int.emod n 256).toNat

/-- C++ `(int >> 8) & 0xFF` (arithmetic shift, gcc semantics, then
mask). -/
def byteHigh (n : Int) : Nat := (Int.emod (Int.fdiv n 256) 256).toNat

/-- The integral conversion `int → uint16_t`. -/
def toUint16 (n : Int) : Nat := (Int.emod n 65536).toNat

/-- `Assembler::immediate_operand`: pass 2 only; `lxi`/`mvi` take the
value from operand2, everything else from operand1. -/
def immediate_operand (fuel : Nat) (st : AsmState) (is16 : Bool) : Except AsmErr AsmState :=
  if st.source_pass ≠ 2 then .ok st
  else do
    let operand := if st.mnemonic = "lxi" ∨ st.mnemonic = "mvi" then st.operand2 else st.operand1
    let (number, st) ← evaluate_expression fuel st operand
    if is16 then .ok { st with output := st.output ++ [byteLow number, byteHigh number] }
    else .ok { st with output := st.output ++ [byteLow number] }

/-- `Assembler::address16`: pass 2 only; emit the evaluated operand as a
16-bit little-endian address. -/
def address16 (fuel : Nat) (st : AsmState) (operand : String) : Except AsmErr AsmState :=
  if st.source_pass ≠ 2 then .ok st
  else do
    let (v, st) ← evaluate_expression fuel st operand
    let number := toUint16 v
    .ok { st with output := st.output ++ [number % 256, number / 256 % 256] }

/-! ### Instruction and directive handlers -/

/-- Type of a mnemonic handler (fuel feeds the expression engine). -/
def Handler : Type := Nat → AsmState → Except AsmErr AsmState

def nop : Handler := fun _ st => do
  let _ ← check_operands st (st.operand1 = "" ∧ st.operand2 = "") "nop"
  pass_action st 1 [0x00] true

def lxi : Handler := fun fuel st => do
  let _ ← check_operands st (st.operand1 ≠ "" ∧ st.operand2 ≠ "") "lxi"
  let off ← register_offset16 st
  let st ← pass_action st 3 [(0x01 + off) % 256] true
  immediate_operand fuel st true

def stax : Handler := fun _ st => do
  let _ ← check_operands st (st.operand1 ≠ "" ∧ st.operand2 = "") "stax"
  let op := to_lower st.operand1
  if op = "b" then pass_action st 1 [0x02] true
  else if op = "d" then pass_action st 1 [0x12] true
  else .error (.reported st.lineno "\"stax\" only takes \"b\" or \"d\"")

def inx : Handler := fun _ st => do
  let _ ← check_operands st (st.operand1 ≠ "" ∧ st.operand2 = "") "inx"
  let off ← register_offset16 st
  pass_action st 1 [(0x03 + off) % 256] true

def inr : Handler := fun _ st => do
  let _ ← check_operands st (st.operand1 ≠ "" ∧ st.operand2 = "") "inr"
  let r ← register_offset8 st st.operand1
  pass_action st 1 [(0x04 + r * 8) % 256] true

def dcr : Handler := fun _ st => do
  let _ ← check_operands st (st.operand1 ≠ "" ∧ st.operand2 = "") "dcr"
  let r ← register_offset8 st st.operand1
  pass_action st 1 [(0x05 + r * 8) % 256] true

def mvi : Handler := fun fuel st => do
  let _ ← check_operands st (st.operand1 ≠ "" ∧ st.operand2 ≠ "") "mvi"
  let r ← register_offset8 st st.operand1
  let st ← pass_action st 2 [(0x06 + r * 8) % 256] true
  immediate_operand fuel st false

def rlc : Handler := fun _ st => do
  let _ ← check_operands st (st.operand1 = "" ∧ st.operand2 = "") "rlc"
  pass_action st 1 [0x07] true

def dad : Handler := fun _ st => do
  let _ ← check_operands st (st.operand1 ≠ "" ∧ st.operand2 = "") "dad"
  let off ← register_offset16 st
  pass_action st 1 [(0x09 + off) % 256] true

def ldax : Handler := fun _ st => do
  let _ ← check_operands st (st.operand1 ≠ "" ∧ st.operand2 = "") "ldax"
  let op := to_lower st.operand1
  if op = "b" then pass_action st 1 [0x0A] true
  else if op = "d" then pass_action st 1 [0x1A] true
  else .error (.reported st.lineno "\"ldax\" only takes \"b\" or \"d\"")

def dcx : Handler := fun _ st => do
  let _ ← check_operands st (st.operand1 ≠ "" ∧ st.operand2 = "") "dcx"
  let off ← register_offset16 st
  pass_action st 1 [(0x0B + off) % 256] true

def rrc : Handler := fun _ st => do
  let _ ← check_operands st (st.operand1 = "" ∧ st.operand2 = "") "rrc"
  pass_action st 1 [0x0F] true

def ral : Handler := fun _ st => do
  let _ ← check_operands st (st.operand1 = "" ∧ st.operand2 = "") "ral"
  pass_action st 1 [0x17] true

def rar : Handler := fun _ st => do
  let _ ← check_operands st (st.operand1 = "" ∧ st.operand2 = "") "rar"
  pass_action st 1 [0x1F] true

def shld : Handler := fun fuel st => do
  let _ ← check_operands st (st.operand1 ≠ "" ∧ st.operand2 = "") "shld"
  let st ← pass_action st 3 [0x22] true
  address16 fuel st st.operand1

def daa : Handler := fun _ st => do
  let _ ← check_operands st (st.operand1 = "" ∧ st.operand2 = "") "daa"
  pass_action st 1 [0x27] true

def lhld : Handler := fun fuel st => do
  let _ ← check_operands st (st.operand1 ≠ "" ∧ st.operand2 = "") "lhld"
  let st ← pass_action st 3 [0x2A] true
  address16 fuel st st.operand1

def cma : Handler := fun _ st => do
  let _ ← check_operands st (st.operand1 = "" ∧ st.operand2 = "") "cma"
  pass_action st 1 [0x2F] true

def sta : Handler := fun fuel st => do
  let _ ← check_operands st (st.operand1 ≠ "" ∧ st.operand2 = "") "sta"
  let st ← pass_action st 3 [0x32] true
  address16 fuel st st.operand1

def stc : Handler := fun _ st => do
  let _ ← check_operands st (st.operand1 = "" ∧ st.operand2 = "") "stc"
  pass_action st 1 [0x37] true

def lda : Handler := fun fuel st => do
  let _ ← check_operands st (st.operand1 ≠ "" ∧ st.operand2 = "") "lda"
  let st ← pass_action st 3 [0x3A] true
  address16 fuel st st.operand1

def cmc : Handler := fun _ st => do
  let _ ← check_operands st (st.operand1 = "" ∧ st.operand2 = "") "cmc"
  pass_action st 1 [0x3F] true

def mov : Handler := fun _ st => do
  let _ ← check_operands st (st.operand1 ≠ "" ∧ st.operand2 ≠ "") "mov"
  let d ← register_offset8 st st.operand1
  let s ← register_offset8 st st.operand2
  pass_action st 1 [(0x40 + d * 8 + s) % 256] true

def hlt : Handler := fun _ st => do
  let _ ← check_operands st (st.operand1 = "" ∧ st.operand2 = "") "hlt"
  pass_action st 1 [0x76] true

def add : Handler := fun _ st => do
  let _ ← check_operands st (st.operand1 ≠ "" ∧ st.operand2 = "") "add"
  let r ← register_offset8 st st.operand1
  pass_action st 1 [(0x80 + r) % 256] true

def adc : Handler := fun _ st => do
  let _ ← check_operands st (st.operand1 ≠ "" ∧ st.operand2 = "") "adc"
  let r ← register_offset8 st st.operand1
  pass_action st 1 [(0x88 + r) % 256] true

def sub : Handler := fun _ st => do
  let _ ← check_operands st (st.operand1 ≠ "" ∧ st.operand2 = "") "sub"
  let r ← register_offset8 st st.operand1
  pass_action st 1 [(0x90 + r) % 256] true

def sbb : Handler := fun _ st => do
  let _ ← check_operands st (st.operand1 ≠ "" ∧ st.operand2 = "") "sbb"
  let r ← register_offset8 st st.operand1
  pass_action st 1 [(0x98 + r) % 256] true

def ana : Handler := fun _ st => do
  let _ ← check_operands st (st.operand1 ≠ "" ∧ st.operand2 = "") "ana"
  let r ← register_offset8 st st.operand1
  pass_action st 1 [(0xA0 + r) % 256] true

def xra : Handler := fun _ st => do
  let _ ← check_operands st (st.operand1 ≠ "" ∧ st.operand2 = "") "xra"
  let r ← register_offset8 st st.operand1
  pass_action st 1 [(0xA8 + r) % 256] true

def ora : Handler := fun _ st => do
  let _ ← check_operands st (st.operand1 ≠ "" ∧ st.operand2 = "") "ora"
  let r ← register_offset8 st st.operand1
  pass_action st 1 [(0xB0 + r) % 256] true

def cmp : Handler := fun _ st => do
  let _ ← check_operands st (st.operand1 ≠ "" ∧ st.operand2 = "") "cmp"
  let r ← register_offset8 st st.operand1
  pass_action st 1 [(0xB8 + r) % 256] true

def rnz : Handler := fun _ st => do
  let _ ← check_operands st (st.operand1 = "" ∧ st.operand2 = "") "rnz"
  pass_action st 1 [0xC0] true

def pop : Handler := fun _ st => do
  let _ ← check_operands st (st.operand1 ≠ "" ∧ st.operand2 = "") "pop"
  let off ← register_offset16 st
  pass_action st 1 [(0xC1 + off) % 256] true

def jnz : Handler := fun fuel st => do
  let _ ← check_operands st (st.operand1 ≠ "" ∧ st.operand2 = "") "jnz"
  let st ← pass_action st 3 [0xC2] true
  address16 fuel st st.operand1

def jmp : Handler := fun fuel st => do
  let _ ← check_operands st (st.operand1 ≠ "" ∧ st.operand2 = "") "jmp"
  let st ← pass_action st 3 [0xC3] true
  address16 fuel st st.operand1

def cnz : Handler := fun fuel st => do
  let _ ← check_operands st (st.operand1 ≠ "" ∧ st.operand2 = "") "cnz"
  let st ← pass_action st 3 [0xC4] true
  address16 fuel st st.operand1

def push : Handler := fun _ st => do
  let _ ← check_operands st (st.operand1 ≠ "" ∧ st.operand2 = "") "push"
  let off ← register_offset16 st
  pass_action st 1 [(0xC5 + off) % 256] true

def adi : Handler := fun fuel st => do
  let _ ← check_operands st (st.operand1 ≠ "" ∧ st.operand2 = "") "adi"
  let st ← pass_action st 2 [0xC6] true
  immediate_operand fuel st false

def rst : Handler := fun _ st => do
  let _ ← check_operands st (st.operand1 ≠ "" ∧ st.operand2 = "") "rst"
  match get_number st.lineno st.operand1 with
  | .error e => .error e
  | .ok offset =>
    if 0 ≤ offset ∧ offset ≤ 7 then
      pass_action st 1 [(0xC7 + offset.toNat * 8) % 256] true
    else .error (.reported st.lineno "invalid restart vector")

def rz : Handler := fun _ st => do
  let _ ← check_operands st (st.operand1 = "" ∧ st.operand2 = "") "rz"
  pass_action st 1 [0xC8] true

def ret : Handler := fun _ st => do
  let _ ← check_operands st (st.operand1 = "" ∧ st.operand2 = "") "ret"
  pass_action st 1 [0xC9] true

def jz : Handler := fun fuel st => do
  let _ ← check_operands st (st.operand1 ≠ "" ∧ st.operand2 = "") "jz"
  let st ← pass_action st 3 [0xCA] true
  address16 fuel st st.operand1

def cz : Handler := fun fuel st => do
  let _ ← check_operands st (st.operand1 ≠ "" ∧ st.operand2 = "") "cz"
  let st ← pass_action st 3 [0xCC] true
  address16 fuel st st.operand1

def call : Handler := fun fuel st => do
  let _ ← check_operands st (st.operand1 ≠ "" ∧ st.operand2 = "") "call"
  let st ← pass_action st 3 [0xCD] true
  address16 fuel st st.operand1

def aci : Handler := fun fuel st => do
  let _ ← check_operands st (st.operand1 ≠ "" ∧ st.operand2 = "") "aci"
  let st ← pass_action st 2 [0xCE] true
  immediate_operand fuel st false

def rnc : Handler := fun _ st => do
  let _ ← check_operands st (st.operand1 = "" ∧ st.operand2 = "") "rnc"
  pass_action st 1 [0xD0] true

def jnc : Handler := fun fuel st => do
  let _ ← check_operands st (st.operand1 ≠ "" ∧ st.operand2 = "") "jnc"
  let st ← pass_action st 3 [0xD2] true
  address16 fuel st st.operand1

def i80_out : Handler := fun fuel st => do
  let _ ← check_operands st (st.operand1 ≠ "" ∧ st.operand2 = "") "out"
  let st ← pass_action st 2 [0xD3] true
  immediate_operand fuel st false

def cnc : Handler := fun fuel st => do
  let _ ← check_operands st (st.operand1 ≠ "" ∧ st.operand2 = "") "cnc"
  let st ← pass_action st 3 [0xD4] true
  address16 fuel st st.operand1

def sui : Handler := fun fuel st => do
  let _ ← check_operands st (st.operand1 ≠ "" ∧ st.operand2 = "") "sui"
  let st ← pass_action st 2 [0xD6] true
  immediate_operand fuel st false

def rc : Handler := fun _ st => do
  let _ ← check_operands st (st.operand1 = "" ∧ st.operand2 = "") "rc"
  pass_action st 1 [0xD8] true

def jc : Handler := fun fuel st => do
  let _ ← check_operands st (st.operand1 ≠ "" ∧ st.operand2 = "") "jc"
  let st ← pass_action st 3 [0xDA] true
  address16 fuel st st.operand1

def i80_in : Handler := fun fuel st => do
  let _ ← check_operands st (st.operand1 ≠ "" ∧ st.operand2 = "") "in"
  let st ← pass_action st 2 [0xDB] true
  immediate_operand fuel st false

def cc : Handler := fun fuel st => do
  let _ ← check_operands st (st.operand1 ≠ "" ∧ st.operand2 = "") "cc"
  let st ← pass_action st 3 [0xDC] true
  address16 fuel st st.operand1

def sbi : Handler := fun fuel st => do
  let _ ← check_operands st (st.operand1 ≠ "" ∧ st.operand2 = "") "sbi"
  let st ← pass_action st 2 [0xDE] true
  immediate_operand fuel st false

def rpo : Handler := fun _ st => do
  let _ ← check_operands st (st.operand1 = "" ∧ st.operand2 = "") "rpo"
  pass_action st 1 [0xE0] true

def jpo : Handler := fun fuel st => do
  let _ ← check_operands st (st.operand1 ≠ "" ∧ st.operand2 = "") "jpo"
  let st ← pass_action st 3 [0xE2] true
  address16 fuel st st.operand1

def xthl : Handler := fun _ st => do
  let _ ← check_operands st (st.operand1 = "" ∧ st.operand2 = "") "xthl"
  pass_action st 1 [0xE3] true

def cpo : Handler := fun fuel st => do
  let _ ← check_operands st (st.operand1 ≠ "" ∧ st.operand2 = "") "cpo"
  let st ← pass_action st 3 [0xE4] true
  address16 fuel st st.operand1

def ani : Handler := fun fuel st => do
  let _ ← check_operands st (st.operand1 ≠ "" ∧ st.operand2 = "") "ani"
  let st ← pass_action st 2 [0xE6] true
  immediate_operand fuel st false

def rpe : Handler := fun _ st => do
  let _ ← check_operands st (st.operand1 = "" ∧ st.operand2 = "") "rpe"
  pass_action st 1 [0xE8] true

def pchl : Handler := fun _ st => do
  let _ ← check_operands st (st.operand1 = "" ∧ st.operand2 = "") "pchl"
  pass_action st 1 [0xE9] true

def jpe : Handler := fun fuel st => do
  let _ ← check_operands st (st.operand1 ≠ "" ∧ st.operand2 = "") "jpe"
  let st ← pass_action st 3 [0xEA] true
  address16 fuel st st.operand1

def xchg : Handler := fun _ st => do
  let _ ← check_operands st (st.operand1 = "" ∧ st.operand2 = "") "xchg"
  pass_action st 1 [0xEB] true

def cpe : Handler := fun fuel st => do
  let _ ← check_operands st (st.operand1 ≠ "" ∧ st.operand2 = "") "cpe"
  let st ← pass_action st 3 [0xEC] true
  address16 fuel st st.operand1

def xri : Handler := fun fuel st => do
  let _ ← check_operands st (st.operand1 ≠ "" ∧ st.operand2 = "") "xri"
  let st ← pass_action st 2 [0xEE] true
  immediate_operand fuel st false

def rp : Handler := fun _ st => do
  let _ ← check_operands st (st.operand1 = "" ∧ st.operand2 = "") "rp"
  pass_action st 1 [0xF0] true

def jp : Handler := fun fuel st => do
  let _ ← check_operands st (st.operand1 ≠ "" ∧ st.operand2 = "") "jp"
  let st ← pass_action st 3 [0xF2] true
  address16 fuel st st.operand1

def di : Handler := fun _ st => do
  let _ ← check_operands st (st.operand1 = "" ∧ st.operand2 = "") "di"
  pass_action st 1 [0xF3] true

def cp : Handler := fun fuel st => do
  let _ ← check_operands st (st.operand1 ≠ "" ∧ st.operand2 = "") "cp"
  let st ← pass_action st 3 [0xF4] true
  address16 fuel st st.operand1

def ori : Handler := fun fuel st => do
  let _ ← check_operands st (st.operand1 ≠ "" ∧ st.operand2 = "") "ori"
  let st ← pass_action st 2 [0xF6] true
  immediate_operand fuel st false

def rm : Handler := fun _ st => do
  let _ ← check_operands st (st.operand1 = "" ∧ st.operand2 = "") "rm"
  pass_action st 1 [0xF8] true

def sphl : Handler := fun _ st => do
  let _ ← check_operands st (st.operand1 = "" ∧ st.operand2 = "") "sphl"
  pass_action st 1 [0xF9] true

def jm : Handler := fun fuel st => do
  let _ ← check_operands st (st.operand1 ≠ "" ∧ st.operand2 = "") "jm"
  let st ← pass_action st 3 [0xFA] true
  address16 fuel st st.operand1

def ei : Handler := fun _ st => do
  let _ ← check_operands st (st.operand1 = "" ∧ st.operand2 = "") "ei"
  pass_action st 1 [0xFB] true

def cm : Handler := fun fuel st => do
  let _ ← check_operands st (st.operand1 ≠ "" ∧ st.operand2 = "") "cm"
  let st ← pass_action st 3 [0xFC] true
  address16 fuel st st.operand1

def cpi : Handler := fun fuel st => do
  let _ ← check_operands st (st.operand1 ≠ "" ∧ st.operand2 = "") "cpi"
  let st ← pass_action st 2 [0xFE] true
  immediate_operand fuel st false

/-- Inner loop of `Assembler::db` for a `<...>` group. -/
def dbGroup (fuel : Nat) : AsmState → List String → Bool → Except AsmErr (AsmState × Bool)
  | st, [], flag => .ok (st, flag)
  | st, byte_str :: rest, flag => do
    let st ← pass_action st 1 [] (st.label ≠ "" ∧ flag)
    let st ← (if st.source_pass = 2 then do
        let (v, st) ← evaluate_expression fuel st byte_str
        .ok { st with output := st.output ++ [byteLow v] }
      else .ok st)
    dbGroup fuel st rest false

/-- Outer loop of `Assembler::db` over the comma-split operand list. -/
def dbArgs (fuel : Nat) : AsmState → List String → Bool → Except AsmErr AsmState
  | st, [], _ => .ok st
  | st, arg :: rest, flag => do
    let temp_arg := trimS arg
    if 2 < temp_arg.length ∧ temp_arg.data.headD ' ' = '<' ∧ temp_arg.data.getLastD ' ' = '>' then do
      let inner_content := String.mk ((temp_arg.data.drop 1).dropLast)
      let byte_args := split_args inner_content ','
      let (st, _) ← dbGroup fuel st byte_args flag
      dbArgs fuel st rest false
    else if is_quote_delimited temp_arg then do
      let str := (temp_arg.data.drop 1).dropLast
      let st ← pass_action st str.length [] (st.label ≠ "" ∧ flag)
      let st := if st.source_pass = 2 then
          { st with output := st.output ++ str.map (fun c => c.toNat % 256) } else st
      dbArgs fuel st rest false
    else if is_char_constant temp_arg then do
      let st ← pass_action st 1 [] (st.label ≠ "" ∧ flag)
      let st := if st.source_pass = 2 then
          { st with output := st.output ++ [(temp_arg.data.getD 1 ' ').toNat % 256] } else st
      dbArgs fuel st rest false
    else do
      let st ← pass_action st 1 [] (st.label ≠ "" ∧ flag)
      let st ← (if st.source_pass = 2 then do
          let (v, st) ← evaluate_expression fuel st temp_arg
          .ok { st with output := st.output ++ [byteLow v] }
        else .ok st)
      dbArgs fuel st rest false

/-- `Assembler::db`. -/
def db : Handler := fun fuel st => do
  let all_operands := if st.operand2 ≠ "" then st.operand1 ++ "," ++ st.operand2 else st.operand1
  let _ ← check_operands st (all_operands ≠ "") "db"
  dbArgs fuel st (split_args all_operands ',') true

/-- Loop of `Assembler::dw`. -/
def dwArgs (fuel : Nat) : AsmState → List String → Except AsmErr AsmState
  | st, [] => .ok st
  | st, arg :: rest => do
    let temp_arg := trimS arg
    let st ← pass_action st 2 [] true
    let st ← (if st.source_pass = 2 then address16 fuel st temp_arg else .ok st)
    dwArgs fuel st rest

/-- `Assembler::dw`. -/
def dw : Handler := fun fuel st => do
  let all_operands := if st.operand2 ≠ "" then st.operand1 ++ "," ++ st.operand2 else st.operand1
  let _ ← check_operands st (all_operands ≠ "") "dw"
  dwArgs fuel st (split_args all_operands ',')

/-- `Assembler::ds`: the size operand is re-evaluated on each pass. -/
def ds : Handler := fun fuel st => do
  let _ ← check_operands st (st.operand1 ≠ "") "ds"
  let (size, st) ← evaluate_expression fuel st st.operand1
  if size < 0 then .error (.reported st.lineno "DS size cannot be negative")
  else do
    let (fill_value, st) ← (if st.operand2 ≠ "" then do
        let (v, st) ← evaluate_expression fuel st st.operand2
        .ok ((Int.emod v 256).toNat, st)
      else .ok ((0 : Nat), st))
    let st := if st.source_pass = 2 then
        { st with output := st.output ++ List.replicate size.toNat fill_value } else st
    pass_action st size.toNat [] true

/-- `Assembler::end` (named `end_directive` because `end` is reserved in
Lean). -/
def end_directive : Handler := fun _ st => do
  let _ ← check_operands st (st.label = "" ∧ st.operand1 = "" ∧ st.operand2 = "") "end"
  .ok { st with assembly_finished := true }

/-- `Assembler::equ`: evaluated on both passes; inserts the symbol in
pass 1 only (duplicate fatal); pass 2 does not touch the table. -/
def equ : Handler := fun fuel st => do
  if st.label = "" then .error (.reported st.lineno "missing 'equ' label")
  else do
    let _ ← check_operands st (st.operand1 ≠ "" ∧ st.operand2 = "") "equ"
    let (v, st) ← evaluate_expression fuel st st.operand1
    let value := toUint16 v
    if st.source_pass = 1 then
      (if mapContains st.symbol_table st.label then
        .error (.reported st.lineno ("duplicate label: \"" ++ st.label ++ "\""))
      else .ok { st with symbol_table := mapAssign st.symbol_table st.label value })
    else .ok st

/-- `Assembler::org`: the target is re-evaluated on each pass; in pass 2
a forward jump pads the output with zero bytes (counted from the current
location counter, which starts at 0). -/
def org : Handler := fun fuel st => do
  let _ ← check_operands st (st.operand1 ≠ "" ∧ st.label = "" ∧ st.operand2 = "") "org"
  let (v, st) ← evaluate_expression fuel st st.operand1
  let new_address := toUint16 v
  let st := if st.source_pass = 2 then
      (if st.address < new_address then
        { st with output := st.output ++ List.replicate (new_address - st.address) 0 }
      else st)
    else st
  .ok { st with address := new_address }

/-- `Assembler::name` (no effect). -/
def name : Handler := fun _ st => .ok st

/-- `Assembler::title` (no effect). -/
def title : Handler := fun _ st => .ok st

def sim : Handler := fun _ st => do
  let _ ← check_operands st (st.operand1 = "" ∧ st.operand2 = "") "sim"
  pass_action st 1 [0x30] true

def rim : Handler := fun _ st => do
  let _ ← check_operands st (st.operand1 = "" ∧ st.operand2 = "") "rim"
  pass_action st 1 [0x20] true

/-- `Assembler::initialize_mnemonic_handlers`: the dispatch table. -/
def mnemonic_handlers : List (String × Handler) :=
  [("nop", nop), ("lxi", lxi), ("stax", stax), ("inx", inx), ("inr", inr), ("dcr", dcr),
   ("mvi", mvi), ("rlc", rlc), ("dad", dad), ("ldax", ldax), ("dcx", dcx), ("rrc", rrc),
   ("ral", ral), ("rar", rar), ("shld", shld), ("daa", daa), ("lhld", lhld), ("cma", cma),
   ("sta", sta), ("stc", stc), ("lda", lda), ("cmc", cmc), ("mov", mov), ("hlt", hlt),
   ("add", add), ("adc", adc), ("sub", sub), ("sbb", sbb), ("ana", ana), ("xra", xra),
   ("ora", ora), ("cmp", cmp), ("rnz", rnz), ("pop", pop), ("jnz", jnz), ("jmp", jmp),
   ("cnz", cnz), ("push", push), ("adi", adi), ("rst", rst), ("rz", rz), ("ret", ret),
   ("jz", jz), ("cz", cz), ("call", call), ("aci", aci), ("rnc", rnc), ("jnc", jnc),
   ("out", i80_out), ("cnc", cnc), ("sui", sui), ("rc", rc), ("jc", jc), ("in", i80_in),
   ("cc", cc), ("sbi", sbi), ("jpe", jpe), ("rpo", rpo), ("jpo", jpo), ("xthl", xthl),
   ("cpo", cpo), ("ani", ani), ("rpe", rpe), ("pchl", pchl), ("xchg", xchg), ("cpe", cpe),
   ("xri", xri), ("rp", rp), ("jp", jp), ("di", di), ("cp", cp), ("ori", ori),
   ("rm", rm), ("sphl", sphl), ("jm", jm), ("ei", ei), ("cm", cm), ("cpi", cpi),
   ("db", db), ("ds", ds), ("dw", dw), ("end", end_directive), ("equ", equ), ("name", name),
   ("org", org), ("title", title), ("sim", sim), ("rim", rim)]

/-- `mnemonic_handlers.count(m)` / lookup. -/
def handlerOf (m : String) : Option Handler := mapFind mnemonic_handlers m

/-- `Assembler::process_instruction`: dispatch a parsed line. -/
def process_instruction (fuel : Nat) (st : AsmState) : Except AsmErr AsmState :=
  if st.mnemonic = "" ∧ st.label = "" then .ok st
  else match handlerOf st.mnemonic with
    | some h => h fuel st
    | none =>
      if st.mnemonic = "" ∧ st.label ≠ "" then pass_action st 0 [] true
      else .error (.reported st.lineno ("unknown mnemonic \"" ++ st.mnemonic ++ "\""))

/-! ### Macro expansion and the recursive line processor -/

/-- The C++ substring-replacement loop
`while ((pos = line.find(pat, pos)) != npos) { line.replace(pos, pat.size, repl); pos += repl.size; }`.
It genuinely diverges when `pat` is empty (which happens for a
parameterless macro and for a `LOCAL` list containing an empty name), so
it carries fuel. -/
def replaceLoop : Nat → List Char → List Char → List Char → List Char → Except AsmErr (List Char)
  | 0, _, _, _, _ => .error .fuel
  | fuel + 1, done, rest, pat, repl =>
    match findSub pat rest with
    | none => .ok (done ++ rest)
    | some i =>
      replaceLoop fuel (done ++ rest.take i ++ repl) (rest.drop (i + pat.length)) pat repl

/-- Apply a sequence of (pattern, replacement) substitutions in order. -/
def substituteAll (fuel : Nat) : List Char → List (String × String) → Except AsmErr (List Char)
  | line, [] => .ok line
  | line, (pat, repl) :: rest => do
    let line ← replaceLoop fuel [] line pat.data repl.data
    substituteAll fuel line rest

/-- The generated name for a `LOCAL` label at a given expansion-counter
value: `originalname_N`. -/
def localName (label_name : String) (counter : Nat) : String :=
  label_name ++ "_" ++ toString counter

/-- The local-label map built at a macro invocation: scan the body for
`LOCAL` lines; the name list is the *second whitespace-delimited token*
of the line (the `>>` extraction), comma-split. -/
def buildLocalMap (body_lines : List String) (counter : Nat) : List (String × String) :=
  body_lines.foldl (fun m body_line =>
    let temp_body := trimS body_line
    let (w1, rest1) := extractWord temp_body.data
    if to_lower w1 = "local" then
      let (local_args_part, _) := extractWord rest1
      let local_labels := split_args local_args_part ','
      local_labels.foldl (fun m label_name =>
        insertSorted m label_name (localName label_name counter)) m
    else m) []

mutual

/-- `Assembler::expand_and_process_line`: conditional directives, macro
expansion, or parse-and-dispatch. -/
def expand_and_process_line : Nat → AsmState → String → Nat → Except AsmErr AsmState
  | 0, _, _, _ => .error .fuel
  | fuel + 1, st, line, original_lineno =>
    let temp_line := trimS line
    if temp_line = "" ∨ temp_line.data.headD ' ' = ';' then .ok st
    else
      let first_word := (extractWord temp_line.data).1
      let rest := (extractWord temp_line.data).2
      let lower_first := to_lower first_word
      if lower_first = "if" then do
        let is_active := !should_skip st
        let condition_expr := String.mk rest
        let (condition_result, st) ←
          (if is_active then evaluate_conditional fuel st condition_expr else .ok (false, st))
        .ok { st with if_stack := st.if_stack ++ [condition_result] }
      else if lower_first = "endif" then
        (if st.if_stack = [] then .error (.reported original_lineno "ENDIF without IF")
         else .ok { st with if_stack := st.if_stack.dropLast })
      else if should_skip st then .ok st
      else if lower_first = "error" ∨ lower_first = "local" then .ok st
      else
        match mapFind st.macros lower_first with
        | some macro_def =>
          let st := { st with macro_expansion_counter := st.macro_expansion_counter + 1 }
          let args := split_args (String.mk rest) ','
          if args.length ≠ macro_def.params.length then
            .error (.reported original_lineno ("macro '" ++ macro_def.name ++ "' argument count mismatch"))
          else
            process_body_lines fuel st macro_def.body_lines (macro_def.params.zip args)
              (buildLocalMap macro_def.body_lines st.macro_expansion_counter) original_lineno
        | none => do
          let st := { st with lineno := original_lineno }
          let st := parse st line
          process_instruction fuel st

/-- The body loop of the macro-expansion branch of
`expand_and_process_line`: substitute parameters, then local labels,
then recursively process the line under the invocation-site line
number. -/
def process_body_lines : Nat → AsmState → List String → List (String × String) → List (String × String) → Nat → Except AsmErr AsmState
  | 0, _, _, _, _, _ => .error .fuel
  | _ + 1, st, [], _, _, _ => .ok st
  | fuel + 1, st, body_line :: rest, params_args, local_label_map, original_lineno => do
    let b1 ← substituteAll fuel body_line.data params_args
    let b2 ← substituteAll fuel b1 local_label_map
    let st ← expand_and_process_line fuel st (String.mk b2) original_lineno
    process_body_lines fuel st rest params_args local_label_map original_lineno

end

/-! ### Pass engine (`preprocess_macros`, `do_pass`, `assemble`) -/

/-- Scan loop of `Assembler::preprocess_macros`. -/
def preprocessAux : AsmState → List String → Nat → Bool → Macro → Except AsmErr AsmState
  | st, [], i, in_macro_def, _ =>
    if in_macro_def then .error (.reported i "MACRO definition not closed with ENDM")
    else .ok st
  | st, l :: ls, i, in_macro_def, current =>
    let temp_line := trimS l
    let w1 := (extractWord temp_line.data).1
    let r1 := (extractWord temp_line.data).2
    let w2 := (extractWord r1).1
    let r2 := (extractWord r1).2
    let first_word := to_lower w1
    let second_word := to_lower w2
    if second_word = "macro" then
      (if in_macro_def then .error (.reported i "nested macro definitions are not supported")
       else
        preprocessAux st ls (i + 1) true
          { name := first_word, params := split_args (String.mk r2) ',', body_lines := [] })
    else if first_word = "endm" ∨ first_word = "mend" then
      (if in_macro_def then
        preprocessAux { st with macros := mapAssign st.macros current.name current } ls (i + 1) false current
       else .error (.reported i "ENDM without MACRO"))
    else if in_macro_def then
      preprocessAux st ls (i + 1) true { current with body_lines := current.body_lines ++ [l] }
    else preprocessAux st ls (i + 1) false current

/-- `Assembler::preprocess_macros` (pass 0). -/
def preprocess_macros (st : AsmState) (lines : List String) : Except AsmErr AsmState :=
  preprocessAux st lines 0 false default

/-- Loop of `Assembler::do_pass`, additionally recording the location
counter after each line iteration (ghost instrumentation used to state
the pass-agreement properties; the C++ computes the same values). -/
def doPassAux (fuel : Nat) : AsmState → List String → Nat → Bool → List Nat → Except AsmErr (AsmState × List Nat)
  | st, [], _, _, trace => .ok (st, trace)
  | st, l :: ls, i, in_macro_def, trace =>
    if st.assembly_finished then .ok (st, trace)
    else
      let st := { st with lineno := i }
      let temp_line := trimS l
      if temp_line = "" then doPassAux fuel st ls (i + 1) in_macro_def (trace ++ [st.address])
      else
        let w1 := (extractWord temp_line.data).1
        let w2 := (extractWord (extractWord temp_line.data).2).1
        let second_word := to_lower w2
        let in_macro_def := if second_word = "macro" then true else in_macro_def
        if in_macro_def then
          let lower_first := to_lower w1
          let in_macro_def := if lower_first = "endm" ∨ lower_first = "mend" then false else in_macro_def
          doPassAux fuel st ls (i + 1) in_macro_def (trace ++ [st.address])
        else do
          let st ← expand_and_process_line fuel st l i
          doPassAux fuel st ls (i + 1) in_macro_def (trace ++ [st.address])

/-- `Assembler::do_pass`: clear the IF stack, run the loop, and require
the IF stack empty at end of file. -/
def do_pass (fuel : Nat) (st : AsmState) (lines : List String) : Except AsmErr (AsmState × List Nat) :=
  match doPassAux fuel { st with if_stack := [] } lines 0 false [] with
  | .error e => .error e
  | .ok (st, trace) =>
    if st.if_stack ≠ [] then .error (.reported lines.length "IF block not closed with ENDIF")
    else .ok (st, trace)

/-- `Assembler::reset_state`: note that `cross_reference_data` (and the
IF stack, which `do_pass` clears itself) are *not* reset. -/
def reset_state (st : AsmState) : AsmState :=
  { st with lineno := 0, address := 0, source_pass := 1, assembly_finished := false,
            macro_expansion_counter := 0, output := [], symbol_table := [], macros := [] }

/-- `Assembler::assemble`, also returning the two per-line location
counter traces. -/
def assembleT (fuel : Nat) (st : AsmState) (lines : List String) :
    Except AsmErr (AsmState × List Nat × List Nat) :=
  match preprocess_macros (reset_state st) lines with
  | .error e => .error e
  | .ok st =>
    match do_pass fuel { st with source_pass := 1 } lines with
    | .error e => .error e
    | .ok (st, trace1) =>
      match do_pass fuel { st with source_pass := 2, address := 0, output := [],
                                   assembly_finished := false, macro_expansion_counter := 0 } lines with
      | .error e => .error e
      | .ok (st, trace2) => .ok (st, trace1, trace2)

/-- `Assembler::assemble` on an existing assembler object. -/
def assemble (fuel : Nat) (st : AsmState) (lines : List String) : Except AsmErr AsmState :=
  match assembleT fuel st lines with
  | .error e => .error e
  | .ok r => .ok r.1

/-- Assemble with a freshly constructed `Assembler`. -/
def assembleFresh (fuel : Nat) (lines : List String) : Except AsmErr AsmState :=
  assemble fuel initState lines

/-! ### One-step unrolling lemmas for the pass loop

These let concrete runs be verified line by line, so that each proof
step only ever evaluates a single source line from an explicit state. -/

/-- Reduction of the `Except` monadic bind on a success value. -/
theorem exceptBindOk {A B : Type} (a : A) (f : A → Except AsmErr B) :
    (do let x ← Except.ok a; f x : Except AsmErr B) = f a := rfl

/-- Reduction of the `Except` monadic bind on an error value. -/
theorem exceptBindErr {A B : Type} (e : AsmErr) (f : A → Except AsmErr B) :
    (do let x ← Except.error e; f x : Except AsmErr B) = Except.error e := rfl

/-- Step lemma: a processed (non-blank, non-macro-definition) line. -/
theorem dpa_step_ok {fuel : Nat} {st stL st2 : AsmState} {l : String} {ls : List String} {i : Nat} {d : Bool} {tr tr2 : List Nat}
    (hfin : st.assembly_finished = false)
    (hblank : ¬ trimS l = "")
    (hd2 : (if to_lower (extractWord (extractWord (trimS l).data).2).1 = "macro" then true else d) = false)
    (hstL : ({ st with lineno := i, assembly_finished := false } : AsmState) = stL)
    (hexp : expand_and_process_line fuel stL l i = Except.ok st2)
    (htr : tr ++ [st2.address] = tr2) :
    doPassAux fuel st (l :: ls) i d tr = doPassAux fuel st2 ls (i + 1) false tr2 := by
  conv_lhs => rw [doPassAux]
  simp only [hfin, Bool.false_eq_true, if_false, if_neg hblank, hstL, hd2, hexp,
    exceptBindOk, htr]

/-- Step lemma: a blank line. -/
theorem dpa_step_blank {fuel : Nat} {st stL : AsmState} {l : String} {ls : List String} {i : Nat} {d : Bool} {tr tr2 : List Nat}
    (hfin : st.assembly_finished = false)
    (hblank : trimS l = "")
    (hstL : ({ st with lineno := i, assembly_finished := false } : AsmState) = stL)
    (htr : tr ++ [st.address] = tr2) :
    doPassAux fuel st (l :: ls) i d tr = doPassAux fuel stL ls (i + 1) d tr2 := by
  conv_lhs => rw [doPassAux]
  simp only [hfin, Bool.false_eq_true, if_false, hblank, if_true, hstL, htr]

/-- Step lemma: a line inside (or opening) a macro definition, skipped
by `do_pass`. -/
theorem dpa_step_skip {fuel : Nat} {st stL : AsmState} {l : String} {ls : List String} {i : Nat} {d d3 : Bool} {tr tr2 : List Nat}
    (hfin : st.assembly_finished = false)
    (hblank : ¬ trimS l = "")
    (hd2 : (if to_lower (extractWord (extractWord (trimS l).data).2).1 = "macro" then true else d) = true)
    (hd3 : (if to_lower (extractWord (trimS l).data).1 = "endm" ∨ to_lower (extractWord (trimS l).data).1 = "mend" then false
            else true) = d3)
    (hstL : ({ st with lineno := i, assembly_finished := false } : AsmState) = stL)
    (htr : tr ++ [st.address] = tr2) :
    doPassAux fuel st (l :: ls) i d tr = doPassAux fuel stL ls (i + 1) d3 tr2 := by
  conv_lhs => rw [doPassAux]
  simp only [hfin, Bool.false_eq_true, if_false, if_neg hblank, hd2, if_true, hd3, hstL, htr]

/-- Step lemma for one macro body line of `process_body_lines`. -/
theorem pbl_step {fuel : Nat} {st st2 : AsmState} {bl : String} {rest : List String}
    {pa lm : List (String × String)} {ln : Nat} {b1 b2 : List Char}
    (h1 : substituteAll fuel bl.data pa = Except.ok b1)
    (h2 : substituteAll fuel b1 lm = Except.ok b2)
    (hexp : expand_and_process_line fuel st (String.mk b2) ln = Except.ok st2) :
    process_body_lines (fuel + 1) st (bl :: rest) pa lm ln =
      process_body_lines fuel st2 rest pa lm ln := by
  conv_lhs => rw [process_body_lines]
  simp only [h1, h2, hexp, exceptBindOk]

/-- Step lemma: the `assembly_finished` break. -/
theorem dpa_fin {fuel : Nat} {st : AsmState} {l : String} {ls : List String} {i : Nat} {d : Bool} {tr : List Nat}
    (hfin : st.assembly_finished = true) :
    doPassAux fuel st (l :: ls) i d tr = Except.ok (st, tr) := by
  conv_lhs => rw [doPassAux]
  simp only [hfin, if_true]

/-- Step lemma: a line whose processing reports a fatal error. -/
theorem dpa_step_err {fuel : Nat} {st stL : AsmState} {l : String} {ls : List String} {i : Nat} {d : Bool} {tr : List Nat} {e : AsmErr}
    (hfin : st.assembly_finished = false)
    (hblank : ¬ trimS l = "")
    (hd2 : (if to_lower (extractWord (extractWord (trimS l).data).2).1 = "macro" then true else d) = false)
    (hstL : ({ st with lineno := i, assembly_finished := false } : AsmState) = stL)
    (hexp : expand_and_process_line fuel stL l i = Except.error e) :
    doPassAux fuel st (l :: ls) i d tr = Except.error e := by
  conv_lhs => rw [doPassAux]
  simp only [hfin, Bool.false_eq_true, if_false, if_neg hblank, hd2, hstL, hexp, exceptBindErr]


/-! ### Concrete programs used by the scenarios -/

/-- Source lines of Scenario A of the specification. -/
def scenarioA : List String :=
  ["ORG 100H", "MVI A,5", "MVI B,10", "ADD B", "STA RESULT", "HLT", "RESULT: DS 1", "END"]

/-- Source lines of Scenario D of the specification. -/
def scenarioD : List String := ["ORG 0", "VAL EQU 1234H", "DB LOW VAL, HIGH VAL"]

/-- Source lines of Scenario F of the specification. -/
def scenarioF : List String :=
  ["DEBUG EQU 1", "      ORG 0", "      IF DEBUG EQ 1", "      MVI A,0FFH", "      ENDIF",
   "      IF DEBUG EQ 0", "      MVI A,00H", "      ENDIF", "      HLT"]

/-- Source lines of Scenario E of the specification. -/
def scenarioE : List String :=
  ["DELAY MACRO COUNT", "      LOCAL LOOP", "      MVI B,COUNT", "LOOP: DCR B", "      JNZ LOOP",
   "      ENDM", "      ORG 0", "      DELAY 5", "      DELAY 3"]

/-- A program whose forward reference makes the two passes disagree on addresses. -/
def progX : List String := ["DS FOO", "FOO EQU 5"]

/-- A small program with a label, used to run the assembler twice on one state. -/
def progR : List String := ["L: NOP", "JMP L"]

/-- Result of the macro pre-pass on scenarioA. -/
def preA : AsmState :=
  { lineno := 0, address := 0, source_pass := 1, assembly_finished := false, macro_expansion_counter := 0, output := [], symbol_table := [], macros := [], if_stack := [], cross_reference_data := [], label := "", mnemonic := "", operand1 := "", operand2 := "", comment := "" }

/-- Checkpoint state 0 of pass run Ap1. -/
def stAp1_0 : AsmState :=
  { lineno := 0, address := 0, source_pass := 1, assembly_finished := false, macro_expansion_counter := 0, output := [], symbol_table := [], macros := [], if_stack := [], cross_reference_data := [], label := "", mnemonic := "", operand1 := "", operand2 := "", comment := "" }

/-- Checkpoint state 1 of pass run Ap1. -/
def stAp1_1 : AsmState :=
  { lineno := 0, address := 256, source_pass := 1, assembly_finished := false, macro_expansion_counter := 0, output := [], symbol_table := [], macros := [], if_stack := [], cross_reference_data := [], label := "", mnemonic := "org", operand1 := "100H", operand2 := "", comment := "" }

/-- Checkpoint state 2 of pass run Ap1. -/
def stAp1_2 : AsmState :=
  { lineno := 1, address := 258, source_pass := 1, assembly_finished := false, macro_expansion_counter := 0, output := [], symbol_table := [], macros := [], if_stack := [], cross_reference_data := [], label := "", mnemonic := "mvi", operand1 := "A", operand2 := "5", comment := "" }

/-- Checkpoint state 3 of pass run Ap1. -/
def stAp1_3 : AsmState :=
  { lineno := 2, address := 260, source_pass := 1, assembly_finished := false, macro_expansion_counter := 0, output := [], symbol_table := [], macros := [], if_stack := [], cross_reference_data := [], label := "", mnemonic := "mvi", operand1 := "B", operand2 := "10", comment := "" }

/-- Checkpoint state 4 of pass run Ap1. -/
def stAp1_4 : AsmState :=
  { lineno := 3, address := 261, source_pass := 1, assembly_finished := false, macro_expansion_counter := 0, output := [], symbol_table := [], macros := [], if_stack := [], cross_reference_data := [], label := "", mnemonic := "add", operand1 := "B", operand2 := "", comment := "" }

/-- Checkpoint state 5 of pass run Ap1. -/
def stAp1_5 : AsmState :=
  { lineno := 4, address := 264, source_pass := 1, assembly_finished := false, macro_expansion_counter := 0, output := [], symbol_table := [], macros := [], if_stack := [], cross_reference_data := [], label := "", mnemonic := "sta", operand1 := "RESULT", operand2 := "", comment := "" }

/-- Checkpoint state 6 of pass run Ap1. -/
def stAp1_6 : AsmState :=
  { lineno := 5, address := 265, source_pass := 1, assembly_finished := false, macro_expansion_counter := 0, output := [], symbol_table := [], macros := [], if_stack := [], cross_reference_data := [], label := "", mnemonic := "hlt", operand1 := "", operand2 := "", comment := "" }

/-- Checkpoint state 7 of pass run Ap1. -/
def stAp1_7 : AsmState :=
  { lineno := 6, address := 266, source_pass := 1, assembly_finished := false, macro_expansion_counter := 0, output := [], symbol_table := [("result", 265)], macros := [], if_stack := [], cross_reference_data := [("result", [-7])], label := "result", mnemonic := "ds", operand1 := "1", operand2 := "", comment := "" }

/-- Checkpoint state 8 of pass run Ap1. -/
def stAp1_8 : AsmState :=
  { lineno := 7, address := 266, source_pass := 1, assembly_finished := true, macro_expansion_counter := 0, output := [], symbol_table := [("result", 265)], macros := [], if_stack := [], cross_reference_data := [("result", [-7])], label := "", mnemonic := "end", operand1 := "", operand2 := "", comment := "" }

/-- Line-entry state for line 0 of pass run Ap1. -/
def stAp1_0L : AsmState :=
  { lineno := 0, address := 0, source_pass := 1, assembly_finished := false, macro_expansion_counter := 0, output := [], symbol_table := [], macros := [], if_stack := [], cross_reference_data := [], label := "", mnemonic := "", operand1 := "", operand2 := "", comment := "" }

/-- Processing of line 0 of pass run Ap1. -/
theorem lnAp1_0 : expand_and_process_line 30 stAp1_0L "ORG 100H" 0 = Except.ok stAp1_1 := by rfl

/-- Line-entry state for line 1 of pass run Ap1. -/
def stAp1_1L : AsmState :=
  { lineno := 1, address := 256, source_pass := 1, assembly_finished := false, macro_expansion_counter := 0, output := [], symbol_table := [], macros := [], if_stack := [], cross_reference_data := [], label := "", mnemonic := "org", operand1 := "100H", operand2 := "", comment := "" }

/-- Processing of line 1 of pass run Ap1. -/
theorem lnAp1_1 : expand_and_process_line 30 stAp1_1L "MVI A,5" 1 = Except.ok stAp1_2 := by rfl

/-- Line-entry state for line 2 of pass run Ap1. -/
def stAp1_2L : AsmState :=
  { lineno := 2, address := 258, source_pass := 1, assembly_finished := false, macro_expansion_counter := 0, output := [], symbol_table := [], macros := [], if_stack := [], cross_reference_data := [], label := "", mnemonic := "mvi", operand1 := "A", operand2 := "5", comment := "" }

/-- Processing of line 2 of pass run Ap1. -/
theorem lnAp1_2 : expand_and_process_line 30 stAp1_2L "MVI B,10" 2 = Except.ok stAp1_3 := by rfl

/-- Line-entry state for line 3 of pass run Ap1. -/
def stAp1_3L : AsmState :=
  { lineno := 3, address := 260, source_pass := 1, assembly_finished := false, macro_expansion_counter := 0, output := [], symbol_table := [], macros := [], if_stack := [], cross_reference_data := [], label := "", mnemonic := "mvi", operand1 := "B", operand2 := "10", comment := "" }

/-- Processing of line 3 of pass run Ap1. -/
theorem lnAp1_3 : expand_and_process_line 30 stAp1_3L "ADD B" 3 = Except.ok stAp1_4 := by rfl

/-- Line-entry state for line 4 of pass run Ap1. -/
def stAp1_4L : AsmState :=
  { lineno := 4, address := 261, source_pass := 1, assembly_finished := false, macro_expansion_counter := 0, output := [], symbol_table := [], macros := [], if_stack := [], cross_reference_data := [], label := "", mnemonic := "add", operand1 := "B", operand2 := "", comment := "" }

/-- Processing of line 4 of pass run Ap1. -/
theorem lnAp1_4 : expand_and_process_line 30 stAp1_4L "STA RESULT" 4 = Except.ok stAp1_5 := by rfl

/-- Line-entry state for line 5 of pass run Ap1. -/
def stAp1_5L : AsmState :=
  { lineno := 5, address := 264, source_pass := 1, assembly_finished := false, macro_expansion_counter := 0, output := [], symbol_table := [], macros := [], if_stack := [], cross_reference_data := [], label := "", mnemonic := "sta", operand1 := "RESULT", operand2 := "", comment := "" }

/-- Processing of line 5 of pass run Ap1. -/
theorem lnAp1_5 : expand_and_process_line 30 stAp1_5L "HLT" 5 = Except.ok stAp1_6 := by rfl

/-- Line-entry state for line 6 of pass run Ap1. -/
def stAp1_6L : AsmState :=
  { lineno := 6, address := 265, source_pass := 1, assembly_finished := false, macro_expansion_counter := 0, output := [], symbol_table := [], macros := [], if_stack := [], cross_reference_data := [], label := "", mnemonic := "hlt", operand1 := "", operand2 := "", comment := "" }

/-- Processing of line 6 of pass run Ap1. -/
theorem lnAp1_6 : expand_and_process_line 30 stAp1_6L "RESULT: DS 1" 6 = Except.ok stAp1_7 := by rfl

/-- Line-entry state for line 7 of pass run Ap1. -/
def stAp1_7L : AsmState :=
  { lineno := 7, address := 266, source_pass := 1, assembly_finished := false, macro_expansion_counter := 0, output := [], symbol_table := [("result", 265)], macros := [], if_stack := [], cross_reference_data := [("result", [-7])], label := "result", mnemonic := "ds", operand1 := "1", operand2 := "", comment := "" }

/-- Processing of line 7 of pass run Ap1. -/
theorem lnAp1_7 : expand_and_process_line 30 stAp1_7L "END" 7 = Except.ok stAp1_8 := by rfl

/-- Per-line evaluation chain of pass run Ap1. -/
theorem chainAp1 :
    doPassAux 30 stAp1_0 scenarioA 0 false [] = Except.ok (stAp1_8, [256, 258, 260, 261, 264, 265, 266, 266]) :=
  calc doPassAux 30 stAp1_0 scenarioA 0 false [] = doPassAux 30 stAp1_1 ["MVI A,5", "MVI B,10", "ADD B", "STA RESULT", "HLT", "RESULT: DS 1", "END"] 1 false [256] := dpa_step_ok (by rfl) (by decide) (by decide) (by rfl) lnAp1_0 (by rfl)
    _ = doPassAux 30 stAp1_2 ["MVI B,10", "ADD B", "STA RESULT", "HLT", "RESULT: DS 1", "END"] 2 false [256, 258] := dpa_step_ok (by rfl) (by decide) (by decide) (by rfl) lnAp1_1 (by rfl)
    _ = doPassAux 30 stAp1_3 ["ADD B", "STA RESULT", "HLT", "RESULT: DS 1", "END"] 3 false [256, 258, 260] := dpa_step_ok (by rfl) (by decide) (by decide) (by rfl) lnAp1_2 (by rfl)
    _ = doPassAux 30 stAp1_4 ["STA RESULT", "HLT", "RESULT: DS 1", "END"] 4 false [256, 258, 260, 261] := dpa_step_ok (by rfl) (by decide) (by decide) (by rfl) lnAp1_3 (by rfl)
    _ = doPassAux 30 stAp1_5 ["HLT", "RESULT: DS 1", "END"] 5 false [256, 258, 260, 261, 264] := dpa_step_ok (by rfl) (by decide) (by decide) (by rfl) lnAp1_4 (by rfl)
    _ = doPassAux 30 stAp1_6 ["RESULT: DS 1", "END"] 6 false [256, 258, 260, 261, 264, 265] := dpa_step_ok (by rfl) (by decide) (by decide) (by rfl) lnAp1_5 (by rfl)
    _ = doPassAux 30 stAp1_7 ["END"] 7 false [256, 258, 260, 261, 264, 265, 266] := dpa_step_ok (by rfl) (by decide) (by decide) (by rfl) lnAp1_6 (by rfl)
    _ = doPassAux 30 stAp1_8 [] 8 false [256, 258, 260, 261, 264, 265, 266, 266] := dpa_step_ok (by rfl) (by decide) (by decide) (by rfl) lnAp1_7 (by rfl)
    _ = Except.ok (stAp1_8, [256, 258, 260, 261, 264, 265, 266, 266]) := by rfl

/-- Pass 1 of scenarioA as a `do_pass` run. -/
theorem dpA1 : do_pass 30 { preA with source_pass := 1 } scenarioA = Except.ok (stAp1_8, [256, 258, 260, 261, 264, 265, 266, 266]) := by
  unfold do_pass
  rw [show ({ ({ preA with source_pass := 1 } : AsmState) with if_stack := [] } : AsmState) = stAp1_0 from by rfl]
  rw [chainAp1]
  try rfl

/-- Checkpoint state 0 of pass run Ap2. -/
def stAp2_0 : AsmState :=
  { lineno := 7, address := 0, source_pass := 2, assembly_finished := false, macro_expansion_counter := 0, output := [], symbol_table := [("result", 265)], macros := [], if_stack := [], cross_reference_data := [("result", [-7])], label := "", mnemonic := "end", operand1 := "", operand2 := "", comment := "" }

/-- Checkpoint state 1 of pass run Ap2. -/
def stAp2_1 : AsmState :=
  { lineno := 0, address := 256, source_pass := 2, assembly_finished := false, macro_expansion_counter := 0, output := [0, 0, 0, 0, 0, 0, 0, 0, 0, 0, 0, 0, 0, 0, 0, 0, 0, 0, 0, 0, 0, 0, 0, 0, 0, 0, 0, 0, 0, 0, 0, 0, 0, 0, 0, 0, 0, 0, 0, 0, 0, 0, 0, 0, 0, 0, 0, 0, 0, 0, 0, 0, 0, 0, 0, 0, 0, 0, 0, 0, 0, 0, 0, 0, 0, 0, 0, 0, 0, 0, 0, 0, 0, 0, 0, 0, 0, 0, 0, 0, 0, 0, 0, 0, 0, 0, 0, 0, 0, 0, 0, 0, 0, 0, 0, 0, 0, 0, 0, 0, 0, 0, 0, 0, 0, 0, 0, 0, 0, 0, 0, 0, 0, 0, 0, 0, 0, 0, 0, 0, 0, 0, 0, 0, 0, 0, 0, 0, 0, 0, 0, 0, 0, 0, 0, 0, 0, 0, 0, 0, 0, 0, 0, 0, 0, 0, 0, 0, 0, 0, 0, 0, 0, 0, 0, 0, 0, 0, 0, 0, 0, 0, 0, 0, 0, 0, 0, 0, 0, 0, 0, 0, 0, 0, 0, 0, 0, 0, 0, 0, 0, 0, 0, 0, 0, 0, 0, 0, 0, 0, 0, 0, 0, 0, 0, 0, 0, 0, 0, 0, 0, 0, 0, 0, 0, 0, 0, 0, 0, 0, 0, 0, 0, 0, 0, 0, 0, 0, 0, 0, 0, 0, 0, 0, 0, 0, 0, 0, 0, 0, 0, 0, 0, 0, 0, 0, 0, 0, 0, 0, 0, 0, 0, 0, 0, 0, 0, 0, 0, 0, 0, 0, 0, 0, 0, 0], symbol_table := [("result", 265)], macros := [], if_stack := [], cross_reference_data := [("result", [-7])], label := "", mnemonic := "org", operand1 := "100H", operand2 := "", comment := "" }

/-- Checkpoint state 2 of pass run Ap2. -/
def stAp2_2 : AsmState :=
  { lineno := 1, address := 258, source_pass := 2, assembly_finished := false, macro_expansion_counter := 0, output := [0, 0, 0, 0, 0, 0, 0, 0, 0, 0, 0, 0, 0, 0, 0, 0, 0, 0, 0, 0, 0, 0, 0, 0, 0, 0, 0, 0, 0, 0, 0, 0, 0, 0, 0, 0, 0, 0, 0, 0, 0, 0, 0, 0, 0, 0, 0, 0, 0, 0, 0, 0, 0, 0, 0, 0, 0, 0, 0, 0, 0, 0, 0, 0, 0, 0, 0, 0, 0, 0, 0, 0, 0, 0, 0, 0, 0, 0, 0, 0, 0, 0, 0, 0, 0, 0, 0, 0, 0, 0, 0, 0, 0, 0, 0, 0, 0, 0, 0, 0, 0, 0, 0, 0, 0, 0, 0, 0, 0, 0, 0, 0, 0, 0, 0, 0, 0, 0, 0, 0, 0, 0, 0, 0, 0, 0, 0, 0, 0, 0, 0, 0, 0, 0, 0, 0, 0, 0, 0, 0, 0, 0, 0, 0, 0, 0, 0, 0, 0, 0, 0, 0, 0, 0, 0, 0, 0, 0, 0, 0, 0, 0, 0, 0, 0, 0, 0, 0, 0, 0, 0, 0, 0, 0, 0, 0, 0, 0, 0, 0, 0, 0, 0, 0, 0, 0, 0, 0, 0, 0, 0, 0, 0, 0, 0, 0, 0, 0, 0, 0, 0, 0, 0, 0, 0, 0, 0, 0, 0, 0, 0, 0, 0, 0, 0, 0, 0, 0, 0, 0, 0, 0, 0, 0, 0, 0, 0, 0, 0, 0, 0, 0, 0, 0, 0, 0, 0, 0, 0, 0, 0, 0, 0, 0, 0, 0, 0, 0, 0, 0, 0, 0, 0, 0, 0, 0, 62, 5], symbol_table := [("result", 265)], macros := [], if_stack := [], cross_reference_data := [("result", [-7])], label := "", mnemonic := "mvi", operand1 := "A", operand2 := "5", comment := "" }

/-- Checkpoint state 3 of pass run Ap2. -/
def stAp2_3 : AsmState :=
  { lineno := 2, address := 260, source_pass := 2, assembly_finished := false, macro_expansion_counter := 0, output := [0, 0, 0, 0, 0, 0, 0, 0, 0, 0, 0, 0, 0, 0, 0, 0, 0, 0, 0, 0, 0, 0, 0, 0, 0, 0, 0, 0, 0, 0, 0, 0, 0, 0, 0, 0, 0, 0, 0, 0, 0, 0, 0, 0, 0, 0, 0, 0, 0, 0, 0, 0, 0, 0, 0, 0, 0, 0, 0, 0, 0, 0, 0, 0, 0, 0, 0, 0, 0, 0, 0, 0, 0, 0, 0, 0, 0, 0, 0, 0, 0, 0, 0, 0, 0, 0, 0, 0, 0, 0, 0, 0, 0, 0, 0, 0, 0, 0, 0, 0, 0, 0, 0, 0, 0, 0, 0, 0, 0, 0, 0, 0, 0, 0, 0, 0, 0, 0, 0, 0, 0, 0, 0, 0, 0, 0, 0, 0, 0, 0, 0, 0, 0, 0, 0, 0, 0, 0, 0, 0, 0, 0, 0, 0, 0, 0, 0, 0, 0, 0, 0, 0, 0, 0, 0, 0, 0, 0, 0, 0, 0, 0, 0, 0, 0, 0, 0, 0, 0, 0, 0, 0, 0, 0, 0, 0, 0, 0, 0, 0, 0, 0, 0, 0, 0, 0, 0, 0, 0, 0, 0, 0, 0, 0, 0, 0, 0, 0, 0, 0, 0, 0, 0, 0, 0, 0, 0, 0, 0, 0, 0, 0, 0, 0, 0, 0, 0, 0, 0, 0, 0, 0, 0, 0, 0, 0, 0, 0, 0, 0, 0, 0, 0, 0, 0, 0, 0, 0, 0, 0, 0, 0, 0, 0, 0, 0, 0, 0, 0, 0, 0, 0, 0, 0, 0, 0, 62, 5, 6, 10], symbol_table := [("result", 265)], macros := [], if_stack := [], cross_reference_data := [("result", [-7])], label := "", mnemonic := "mvi", operand1 := "B", operand2 := "10", comment := "" }

/-- Checkpoint state 4 of pass run Ap2. -/
def stAp2_4 : AsmState :=
  { lineno := 3, address := 261, source_pass := 2, assembly_finished := false, macro_expansion_counter := 0, output := [0, 0, 0, 0, 0, 0, 0, 0, 0, 0, 0, 0, 0, 0, 0, 0, 0, 0, 0, 0, 0, 0, 0, 0, 0, 0, 0, 0, 0, 0, 0, 0, 0, 0, 0, 0, 0, 0, 0, 0, 0, 0, 0, 0, 0, 0, 0, 0, 0, 0, 0, 0, 0, 0, 0, 0, 0, 0, 0, 0, 0, 0, 0, 0, 0, 0, 0, 0, 0, 0, 0, 0, 0, 0, 0, 0, 0, 0, 0, 0, 0, 0, 0, 0, 0, 0, 0, 0, 0, 0, 0, 0, 0, 0, 0, 0, 0, 0, 0, 0, 0, 0, 0, 0, 0, 0, 0, 0, 0, 0, 0, 0, 0, 0, 0, 0, 0, 0, 0, 0, 0, 0, 0, 0, 0, 0, 0, 0, 0, 0, 0, 0, 0, 0, 0, 0, 0, 0, 0, 0, 0, 0, 0, 0, 0, 0, 0, 0, 0, 0, 0, 0, 0, 0, 0, 0, 0, 0, 0, 0, 0, 0, 0, 0, 0, 0, 0, 0, 0, 0, 0, 0, 0, 0, 0, 0, 0, 0, 0, 0, 0, 0, 0, 0, 0, 0, 0, 0, 0, 0, 0, 0, 0, 0, 0, 0, 0, 0, 0, 0, 0, 0, 0, 0, 0, 0, 0, 0, 0, 0, 0, 0, 0, 0, 0, 0, 0, 0, 0, 0, 0, 0, 0, 0, 0, 0, 0, 0, 0, 0, 0, 0, 0, 0, 0, 0, 0, 0, 0, 0, 0, 0, 0, 0, 0, 0, 0, 0, 0, 0, 0, 0, 0, 0, 0, 0, 62, 5, 6, 10, 128], symbol_table := [("result", 265)], macros := [], if_stack := [], cross_reference_data := [("result", [-7])], label := "", mnemonic := "add", operand1 := "B", operand2 := "", comment := "" }

/-- Checkpoint state 5 of pass run Ap2. -/
def stAp2_5 : AsmState :=
  { lineno := 4, address := 264, source_pass := 2, assembly_finished := false, macro_expansion_counter := 0, output := [0, 0, 0, 0, 0, 0, 0, 0, 0, 0, 0, 0, 0, 0, 0, 0, 0, 0, 0, 0, 0, 0, 0, 0, 0, 0, 0, 0, 0, 0, 0, 0, 0, 0, 0, 0, 0, 0, 0, 0, 0, 0, 0, 0, 0, 0, 0, 0, 0, 0, 0, 0, 0, 0, 0, 0, 0, 0, 0, 0, 0, 0, 0, 0, 0, 0, 0, 0, 0, 0, 0, 0, 0, 0, 0, 0, 0, 0, 0, 0, 0, 0, 0, 0, 0, 0, 0, 0, 0, 0, 0, 0, 0, 0, 0, 0, 0, 0, 0, 0, 0, 0, 0, 0, 0, 0, 0, 0, 0, 0, 0, 0, 0, 0, 0, 0, 0, 0, 0, 0, 0, 0, 0, 0, 0, 0, 0, 0, 0, 0, 0, 0, 0, 0, 0, 0, 0, 0, 0, 0, 0, 0, 0, 0, 0, 0, 0, 0, 0, 0, 0, 0, 0, 0, 0, 0, 0, 0, 0, 0, 0, 0, 0, 0, 0, 0, 0, 0, 0, 0, 0, 0, 0, 0, 0, 0, 0, 0, 0, 0, 0, 0, 0, 0, 0, 0, 0, 0, 0, 0, 0, 0, 0, 0, 0, 0, 0, 0, 0, 0, 0, 0, 0, 0, 0, 0, 0, 0, 0, 0, 0, 0, 0, 0, 0, 0, 0, 0, 0, 0, 0, 0, 0, 0, 0, 0, 0, 0, 0, 0, 0, 0, 0, 0, 0, 0, 0, 0, 0, 0, 0, 0, 0, 0, 0, 0, 0, 0, 0, 0, 0, 0, 0, 0, 0, 0, 62, 5, 6, 10, 128, 50, 9, 1], symbol_table := [("result", 265)], macros := [], if_stack := [], cross_reference_data := [("result", [-7, 5])], label := "", mnemonic := "sta", operand1 := "RESULT", operand2 := "", comment := "" }

/-- Checkpoint state 6 of pass run Ap2. -/
def stAp2_6 : AsmState :=
  { lineno := 5, address := 265, source_pass := 2, assembly_finished := false, macro_expansion_counter := 0, output := [0, 0, 0, 0, 0, 0, 0, 0, 0, 0, 0, 0, 0, 0, 0, 0, 0, 0, 0, 0, 0, 0, 0, 0, 0, 0, 0, 0, 0, 0, 0, 0, 0, 0, 0, 0, 0, 0, 0, 0, 0, 0, 0, 0, 0, 0, 0, 0, 0, 0, 0, 0, 0, 0, 0, 0, 0, 0, 0, 0, 0, 0, 0, 0, 0, 0, 0, 0, 0, 0, 0, 0, 0, 0, 0, 0, 0, 0, 0, 0, 0, 0, 0, 0, 0, 0, 0, 0, 0, 0, 0, 0, 0, 0, 0, 0, 0, 0, 0, 0, 0, 0, 0, 0, 0, 0, 0, 0, 0, 0, 0, 0, 0, 0, 0, 0, 0, 0, 0, 0, 0, 0, 0, 0, 0, 0, 0, 0, 0, 0, 0, 0, 0, 0, 0, 0, 0, 0, 0, 0, 0, 0, 0, 0, 0, 0, 0, 0, 0, 0, 0, 0, 0, 0, 0, 0, 0, 0, 0, 0, 0, 0, 0, 0, 0, 0, 0, 0, 0, 0, 0, 0, 0, 0, 0, 0, 0, 0, 0, 0, 0, 0, 0, 0, 0, 0, 0, 0, 0, 0, 0, 0, 0, 0, 0, 0, 0, 0, 0, 0, 0, 0, 0, 0, 0, 0, 0, 0, 0, 0, 0, 0, 0, 0, 0, 0, 0, 0, 0, 0, 0, 0, 0, 0, 0, 0, 0, 0, 0, 0, 0, 0, 0, 0, 0, 0, 0, 0, 0, 0, 0, 0, 0, 0, 0, 0, 0, 0, 0, 0, 0, 0, 0, 0, 0, 0, 62, 5, 6, 10, 128, 50, 9, 1, 118], symbol_table := [("result", 265)], macros := [], if_stack := [], cross_reference_data := [("result", [-7, 5])], label := "", mnemonic := "hlt", operand1 := "", operand2 := "", comment := "" }

/-- Checkpoint state 7 of pass run Ap2. -/
def stAp2_7 : AsmState :=
  { lineno := 6, address := 266, source_pass := 2, assembly_finished := false, macro_expansion_counter := 0, output := [0, 0, 0, 0, 0, 0, 0, 0, 0, 0, 0, 0, 0, 0, 0, 0, 0, 0, 0, 0, 0, 0, 0, 0, 0, 0, 0, 0, 0, 0, 0, 0, 0, 0, 0, 0, 0, 0, 0, 0, 0, 0, 0, 0, 0, 0, 0, 0, 0, 0, 0, 0, 0, 0, 0, 0, 0, 0, 0, 0, 0, 0, 0, 0, 0, 0, 0, 0, 0, 0, 0, 0, 0, 0, 0, 0, 0, 0, 0, 0, 0, 0, 0, 0, 0, 0, 0, 0, 0, 0, 0, 0, 0, 0, 0, 0, 0, 0, 0, 0, 0, 0, 0, 0, 0, 0, 0, 0, 0, 0, 0, 0, 0, 0, 0, 0, 0, 0, 0, 0, 0, 0, 0, 0, 0, 0, 0, 0, 0, 0, 0, 0, 0, 0, 0, 0, 0, 0, 0, 0, 0, 0, 0, 0, 0, 0, 0, 0, 0, 0, 0, 0, 0, 0, 0, 0, 0, 0, 0, 0, 0, 0, 0, 0, 0, 0, 0, 0, 0, 0, 0, 0, 0, 0, 0, 0, 0, 0, 0, 0, 0, 0, 0, 0, 0, 0, 0, 0, 0, 0, 0, 0, 0, 0, 0, 0, 0, 0, 0, 0, 0, 0, 0, 0, 0, 0, 0, 0, 0, 0, 0, 0, 0, 0, 0, 0, 0, 0, 0, 0, 0, 0, 0, 0, 0, 0, 0, 0, 0, 0, 0, 0, 0, 0, 0, 0, 0, 0, 0, 0, 0, 0, 0, 0, 0, 0, 0, 0, 0, 0, 0, 0, 0, 0, 0, 0, 62, 5, 6, 10, 128, 50, 9, 1, 118, 0], symbol_table := [("result", 265)], macros := [], if_stack := [], cross_reference_data := [("result", [-7, 5])], label := "result", mnemonic := "ds", operand1 := "1", operand2 := "", comment := "" }

/-- Checkpoint state 8 of pass run Ap2. -/
def stAp2_8 : AsmState :=
  { lineno := 7, address := 266, source_pass := 2, assembly_finished := true, macro_expansion_counter := 0, output := [0, 0, 0, 0, 0, 0, 0, 0, 0, 0, 0, 0, 0, 0, 0, 0, 0, 0, 0, 0, 0, 0, 0, 0, 0, 0, 0, 0, 0, 0, 0, 0, 0, 0, 0, 0, 0, 0, 0, 0, 0, 0, 0, 0, 0, 0, 0, 0, 0, 0, 0, 0, 0, 0, 0, 0, 0, 0, 0, 0, 0, 0, 0, 0, 0, 0, 0, 0, 0, 0, 0, 0, 0, 0, 0, 0, 0, 0, 0, 0, 0, 0, 0, 0, 0, 0, 0, 0, 0, 0, 0, 0, 0, 0, 0, 0, 0, 0, 0, 0, 0, 0, 0, 0, 0, 0, 0, 0, 0, 0, 0, 0, 0, 0, 0, 0, 0, 0, 0, 0, 0, 0, 0, 0, 0, 0, 0, 0, 0, 0, 0, 0, 0, 0, 0, 0, 0, 0, 0, 0, 0, 0, 0, 0, 0, 0, 0, 0, 0, 0, 0, 0, 0, 0, 0, 0, 0, 0, 0, 0, 0, 0, 0, 0, 0, 0, 0, 0, 0, 0, 0, 0, 0, 0, 0, 0, 0, 0, 0, 0, 0, 0, 0, 0, 0, 0, 0, 0, 0, 0, 0, 0, 0, 0, 0, 0, 0, 0, 0, 0, 0, 0, 0, 0, 0, 0, 0, 0, 0, 0, 0, 0, 0, 0, 0, 0, 0, 0, 0, 0, 0, 0, 0, 0, 0, 0, 0, 0, 0, 0, 0, 0, 0, 0, 0, 0, 0, 0, 0, 0, 0, 0, 0, 0, 0, 0, 0, 0, 0, 0, 0, 0, 0, 0, 0, 0, 62, 5, 6, 10, 128, 50, 9, 1, 118, 0], symbol_table := [("result", 265)], macros := [], if_stack := [], cross_reference_data := [("result", [-7, 5])], label := "", mnemonic := "end", operand1 := "", operand2 := "", comment := "" }

/-- Line-entry state for line 0 of pass run Ap2. -/
def stAp2_0L : AsmState :=
  { lineno := 0, address := 0, source_pass := 2, assembly_finished := false, macro_expansion_counter := 0, output := [], symbol_table := [("result", 265)], macros := [], if_stack := [], cross_reference_data := [("result", [-7])], label := "", mnemonic := "end", operand1 := "", operand2 := "", comment := "" }

/-- Processing of line 0 of pass run Ap2. -/
theorem lnAp2_0 : expand_and_process_line 30 stAp2_0L "ORG 100H" 0 = Except.ok stAp2_1 := by rfl

/-- Line-entry state for line 1 of pass run Ap2. -/
def stAp2_1L : AsmState :=
  { lineno := 1, address := 256, source_pass := 2, assembly_finished := false, macro_expansion_counter := 0, output := [0, 0, 0, 0, 0, 0, 0, 0, 0, 0, 0, 0, 0, 0, 0, 0, 0, 0, 0, 0, 0, 0, 0, 0, 0, 0, 0, 0, 0, 0, 0, 0, 0, 0, 0, 0, 0, 0, 0, 0, 0, 0, 0, 0, 0, 0, 0, 0, 0, 0, 0, 0, 0, 0, 0, 0, 0, 0, 0, 0, 0, 0, 0, 0, 0, 0, 0, 0, 0, 0, 0, 0, 0, 0, 0, 0, 0, 0, 0, 0, 0, 0, 0, 0, 0, 0, 0, 0, 0, 0, 0, 0, 0, 0, 0, 0, 0, 0, 0, 0, 0, 0, 0, 0, 0, 0, 0, 0, 0, 0, 0, 0, 0, 0, 0, 0, 0, 0, 0, 0, 0, 0, 0, 0, 0, 0, 0, 0, 0, 0, 0, 0, 0, 0, 0, 0, 0, 0, 0, 0, 0, 0, 0, 0, 0, 0, 0, 0, 0, 0, 0, 0, 0, 0, 0, 0, 0, 0, 0, 0, 0, 0, 0, 0, 0, 0, 0, 0, 0, 0, 0, 0, 0, 0, 0, 0, 0, 0, 0, 0, 0, 0, 0, 0, 0, 0, 0, 0, 0, 0, 0, 0, 0, 0, 0, 0, 0, 0, 0, 0, 0, 0, 0, 0, 0, 0, 0, 0, 0, 0, 0, 0, 0, 0, 0, 0, 0, 0, 0, 0, 0, 0, 0, 0, 0, 0, 0, 0, 0, 0, 0, 0, 0, 0, 0, 0, 0, 0, 0, 0, 0, 0, 0, 0, 0, 0, 0, 0, 0, 0, 0, 0, 0, 0, 0, 0], symbol_table := [("result", 265)], macros := [], if_stack := [], cross_reference_data := [("result", [-7])], label := "", mnemonic := "org", operand1 := "100H", operand2 := "", comment := "" }

/-- Processing of line 1 of pass run Ap2. -/
theorem lnAp2_1 : expand_and_process_line 30 stAp2_1L "MVI A,5" 1 = Except.ok stAp2_2 := by rfl

/-- Line-entry state for line 2 of pass run Ap2. -/
def stAp2_2L : AsmState :=
  { lineno := 2, address := 258, source_pass := 2, assembly_finished := false, macro_expansion_counter := 0, output := [0, 0, 0, 0, 0, 0, 0, 0, 0, 0, 0, 0, 0, 0, 0, 0, 0, 0, 0, 0, 0, 0, 0, 0, 0, 0, 0, 0, 0, 0, 0, 0, 0, 0, 0, 0, 0, 0, 0, 0, 0, 0, 0, 0, 0, 0, 0, 0, 0, 0, 0, 0, 0, 0, 0, 0, 0, 0, 0, 0, 0, 0, 0, 0, 0, 0, 0, 0, 0, 0, 0, 0, 0, 0, 0, 0, 0, 0, 0, 0, 0, 0, 0, 0, 0, 0, 0, 0, 0, 0, 0, 0, 0, 0, 0, 0, 0, 0, 0, 0, 0, 0, 0, 0, 0, 0, 0, 0, 0, 0, 0, 0, 0, 0, 0, 0, 0, 0, 0, 0, 0, 0, 0, 0, 0, 0, 0, 0, 0, 0, 0, 0, 0, 0, 0, 0, 0, 0, 0, 0, 0, 0, 0, 0, 0, 0, 0, 0, 0, 0, 0, 0, 0, 0, 0, 0, 0, 0, 0, 0, 0, 0, 0, 0, 0, 0, 0, 0, 0, 0, 0, 0, 0, 0, 0, 0, 0, 0, 0, 0, 0, 0, 0, 0, 0, 0, 0, 0, 0, 0, 0, 0, 0, 0, 0, 0, 0, 0, 0, 0, 0, 0, 0, 0, 0, 0, 0, 0, 0, 0, 0, 0, 0, 0, 0, 0, 0, 0, 0, 0, 0, 0, 0, 0, 0, 0, 0, 0, 0, 0, 0, 0, 0, 0, 0, 0, 0, 0, 0, 0, 0, 0, 0, 0, 0, 0, 0, 0, 0, 0, 0, 0, 0, 0, 0, 0, 62, 5], symbol_table := [("result", 265)], macros := [], if_stack := [], cross_reference_data := [("result", [-7])], label := "", mnemonic := "mvi", operand1 := "A", operand2 := "5", comment := "" }

/-- Processing of line 2 of pass run Ap2. -/
theorem lnAp2_2 : expand_and_process_line 30 stAp2_2L "MVI B,10" 2 = Except.ok stAp2_3 := by rfl

/-- Line-entry state for line 3 of pass run Ap2. -/
def stAp2_3L : AsmState :=
  { lineno := 3, address := 260, source_pass := 2, assembly_finished := false, macro_expansion_counter := 0, output := [0, 0, 0, 0, 0, 0, 0, 0, 0, 0, 0, 0, 0, 0, 0, 0, 0, 0, 0, 0, 0, 0, 0, 0, 0, 0, 0, 0, 0, 0, 0, 0, 0, 0, 0, 0, 0, 0, 0, 0, 0, 0, 0, 0, 0, 0, 0, 0, 0, 0, 0, 0, 0, 0, 0, 0, 0, 0, 0, 0, 0, 0, 0, 0, 0, 0, 0, 0, 0, 0, 0, 0, 0, 0, 0, 0, 0, 0, 0, 0, 0, 0, 0, 0, 0, 0, 0, 0, 0, 0, 0, 0, 0, 0, 0, 0, 0, 0, 0, 0, 0, 0, 0, 0, 0, 0, 0, 0, 0, 0, 0, 0, 0, 0, 0, 0, 0, 0, 0, 0, 0, 0, 0, 0, 0, 0, 0, 0, 0, 0, 0, 0, 0, 0, 0, 0, 0, 0, 0, 0, 0, 0, 0, 0, 0, 0, 0, 0, 0, 0, 0, 0, 0, 0, 0, 0, 0, 0, 0, 0, 0, 0, 0, 0, 0, 0, 0, 0, 0, 0, 0, 0, 0, 0, 0, 0, 0, 0, 0, 0, 0, 0, 0, 0, 0, 0, 0, 0, 0, 0, 0, 0, 0, 0, 0, 0, 0, 0, 0, 0, 0, 0, 0, 0, 0, 0, 0, 0, 0, 0, 0, 0, 0, 0, 0, 0, 0, 0, 0, 0, 0, 0, 0, 0, 0, 0, 0, 0, 0, 0, 0, 0, 0, 0, 0, 0, 0, 0, 0, 0, 0, 0, 0, 0, 0, 0, 0, 0, 0, 0, 0, 0, 0, 0, 0, 0, 62, 5, 6, 10], symbol_table := [("result", 265)], macros := [], if_stack := [], cross_reference_data := [("result", [-7])], label := "", mnemonic := "mvi", operand1 := "B", operand2 := "10", comment := "" }

/-- Processing of line 3 of pass run Ap2. -/
theorem lnAp2_3 : expand_and_process_line 30 stAp2_3L "ADD B" 3 = Except.ok stAp2_4 := by rfl

/-- Line-entry state for line 4 of pass run Ap2. -/
def stAp2_4L : AsmState :=
  { lineno := 4, address := 261, source_pass := 2, assembly_finished := false, macro_expansion_counter := 0, output := [0, 0, 0, 0, 0, 0, 0, 0, 0, 0, 0, 0, 0, 0, 0, 0, 0, 0, 0, 0, 0, 0, 0, 0, 0, 0, 0, 0, 0, 0, 0, 0, 0, 0, 0, 0, 0, 0, 0, 0, 0, 0, 0, 0, 0, 0, 0, 0, 0, 0, 0, 0, 0, 0, 0, 0, 0, 0, 0, 0, 0, 0, 0, 0, 0, 0, 0, 0, 0, 0, 0, 0, 0, 0, 0, 0, 0, 0, 0, 0, 0, 0, 0, 0, 0, 0, 0, 0, 0, 0, 0, 0, 0, 0, 0, 0, 0, 0, 0, 0, 0, 0, 0, 0, 0, 0, 0, 0, 0, 0, 0, 0, 0, 0, 0, 0, 0, 0, 0, 0, 0, 0, 0, 0, 0, 0, 0, 0, 0, 0, 0, 0, 0, 0, 0, 0, 0, 0, 0, 0, 0, 0, 0, 0, 0, 0, 0, 0, 0, 0, 0, 0, 0, 0, 0, 0, 0, 0, 0, 0, 0, 0, 0, 0, 0, 0, 0, 0, 0, 0, 0, 0, 0, 0, 0, 0, 0, 0, 0, 0, 0, 0, 0, 0, 0, 0, 0, 0, 0, 0, 0, 0, 0, 0, 0, 0, 0, 0, 0, 0, 0, 0, 0, 0, 0, 0, 0, 0, 0, 0, 0, 0, 0, 0, 0, 0, 0, 0, 0, 0, 0, 0, 0, 0, 0, 0, 0, 0, 0, 0, 0, 0, 0, 0, 0, 0, 0, 0, 0, 0, 0, 0, 0, 0, 0, 0, 0, 0, 0, 0, 0, 0, 0, 0, 0, 0, 62, 5, 6, 10, 128], symbol_table := [("result", 265)], macros := [], if_stack := [], cross_reference_data := [("result", [-7])], label := "", mnemonic := "add", operand1 := "B", operand2 := "", comment := "" }

/-- Processing of line 4 of pass run Ap2. -/
theorem lnAp2_4 : expand_and_process_line 30 stAp2_4L "STA RESULT" 4 = Except.ok stAp2_5 := by rfl

/-- Line-entry state for line 5 of pass run Ap2. -/
def stAp2_5L : AsmState :=
  { lineno := 5, address := 264, source_pass := 2, assembly_finished := false, macro_expansion_counter := 0, output := [0, 0, 0, 0, 0, 0, 0, 0, 0, 0, 0, 0, 0, 0, 0, 0, 0, 0, 0, 0, 0, 0, 0, 0, 0, 0, 0, 0, 0, 0, 0, 0, 0, 0, 0, 0, 0, 0, 0, 0, 0, 0, 0, 0, 0, 0, 0, 0, 0, 0, 0, 0, 0, 0, 0, 0, 0, 0, 0, 0, 0, 0, 0, 0, 0, 0, 0, 0, 0, 0, 0, 0, 0, 0, 0, 0, 0, 0, 0, 0, 0, 0, 0, 0, 0, 0, 0, 0, 0, 0, 0, 0, 0, 0, 0, 0, 0, 0, 0, 0, 0, 0, 0, 0, 0, 0, 0, 0, 0, 0, 0, 0, 0, 0, 0, 0, 0, 0, 0, 0, 0, 0, 0, 0, 0, 0, 0, 0, 0, 0, 0, 0, 0, 0, 0, 0, 0, 0, 0, 0, 0, 0, 0, 0, 0, 0, 0, 0, 0, 0, 0, 0, 0, 0, 0, 0, 0, 0, 0, 0, 0, 0, 0, 0, 0, 0, 0, 0, 0, 0, 0, 0, 0, 0, 0, 0, 0, 0, 0, 0, 0, 0, 0, 0, 0, 0, 0, 0, 0, 0, 0, 0, 0, 0, 0, 0, 0, 0, 0, 0, 0, 0, 0, 0, 0, 0, 0, 0, 0, 0, 0, 0, 0, 0, 0, 0, 0, 0, 0, 0, 0, 0, 0, 0, 0, 0, 0, 0, 0, 0, 0, 0, 0, 0, 0, 0, 0, 0, 0, 0, 0, 0, 0, 0, 0, 0, 0, 0, 0, 0, 0, 0, 0, 0, 0, 0, 62, 5, 6, 10, 128, 50, 9, 1], symbol_table := [("result", 265)], macros := [], if_stack := [], cross_reference_data := [("result", [-7, 5])], label := "", mnemonic := "sta", operand1 := "RESULT", operand2 := "", comment := "" }

/-- Processing of line 5 of pass run Ap2. -/
theorem lnAp2_5 : expand_and_process_line 30 stAp2_5L "HLT" 5 = Except.ok stAp2_6 := by rfl

/-- Line-entry state for line 6 of pass run Ap2. -/
def stAp2_6L : AsmState :=
  { lineno := 6, address := 265, source_pass := 2, assembly_finished := false, macro_expansion_counter := 0, output := [0, 0, 0, 0, 0, 0, 0, 0, 0, 0, 0, 0, 0, 0, 0, 0, 0, 0, 0, 0, 0, 0, 0, 0, 0, 0, 0, 0, 0, 0, 0, 0, 0, 0, 0, 0, 0, 0, 0, 0, 0, 0, 0, 0, 0, 0, 0, 0, 0, 0, 0, 0, 0, 0, 0, 0, 0, 0, 0, 0, 0, 0, 0, 0, 0, 0, 0, 0, 0, 0, 0, 0, 0, 0, 0, 0, 0, 0, 0, 0, 0, 0, 0, 0, 0, 0, 0, 0, 0, 0, 0, 0, 0, 0, 0, 0, 0, 0, 0, 0, 0, 0, 0, 0, 0, 0, 0, 0, 0, 0, 0, 0, 0, 0, 0, 0, 0, 0, 0, 0, 0, 0, 0, 0, 0, 0, 0, 0, 0, 0, 0, 0, 0, 0, 0, 0, 0, 0, 0, 0, 0, 0, 0, 0, 0, 0, 0, 0, 0, 0, 0, 0, 0, 0, 0, 0, 0, 0, 0, 0, 0, 0, 0, 0, 0, 0, 0, 0, 0, 0, 0, 0, 0, 0, 0, 0, 0, 0, 0, 0, 0, 0, 0, 0, 0, 0, 0, 0, 0, 0, 0, 0, 0, 0, 0, 0, 0, 0, 0, 0, 0, 0, 0, 0, 0, 0, 0, 0, 0, 0, 0, 0, 0, 0, 0, 0, 0, 0, 0, 0, 0, 0, 0, 0, 0, 0, 0, 0, 0, 0, 0, 0, 0, 0, 0, 0, 0, 0, 0, 0, 0, 0, 0, 0, 0, 0, 0, 0, 0, 0, 0, 0, 0, 0, 0, 0, 62, 5, 6, 10, 128, 50, 9, 1, 118], symbol_table := [("result", 265)], macros := [], if_stack := [], cross_reference_data := [("result", [-7, 5])], label := "", mnemonic := "hlt", operand1 := "", operand2 := "", comment := "" }

/-- Processing of line 6 of pass run Ap2. -/
theorem lnAp2_6 : expand_and_process_line 30 stAp2_6L "RESULT: DS 1" 6 = Except.ok stAp2_7 := by rfl

/-- Line-entry state for line 7 of pass run Ap2. -/
def stAp2_7L : AsmState :=
  { lineno := 7, address := 266, source_pass := 2, assembly_finished := false, macro_expansion_counter := 0, output := [0, 0, 0, 0, 0, 0, 0, 0, 0, 0, 0, 0, 0, 0, 0, 0, 0, 0, 0, 0, 0, 0, 0, 0, 0, 0, 0, 0, 0, 0, 0, 0, 0, 0, 0, 0, 0, 0, 0, 0, 0, 0, 0, 0, 0, 0, 0, 0, 0, 0, 0, 0, 0, 0, 0, 0, 0, 0, 0, 0, 0, 0, 0, 0, 0, 0, 0, 0, 0, 0, 0, 0, 0, 0, 0, 0, 0, 0, 0, 0, 0, 0, 0, 0, 0, 0, 0, 0, 0, 0, 0, 0, 0, 0, 0, 0, 0, 0, 0, 0, 0, 0, 0, 0, 0, 0, 0, 0, 0, 0, 0, 0, 0, 0, 0, 0, 0, 0, 0, 0, 0, 0, 0, 0, 0, 0, 0, 0, 0, 0, 0, 0, 0, 0, 0, 0, 0, 0, 0, 0, 0, 0, 0, 0, 0, 0, 0, 0, 0, 0, 0, 0, 0, 0, 0, 0, 0, 0, 0, 0, 0, 0, 0, 0, 0, 0, 0, 0, 0, 0, 0, 0, 0, 0, 0, 0, 0, 0, 0, 0, 0, 0, 0, 0, 0, 0, 0, 0, 0, 0, 0, 0, 0, 0, 0, 0, 0, 0, 0, 0, 0, 0, 0, 0, 0, 0, 0, 0, 0, 0, 0, 0, 0, 0, 0, 0, 0, 0, 0, 0, 0, 0, 0, 0, 0, 0, 0, 0, 0, 0, 0, 0, 0, 0, 0, 0, 0, 0, 0, 0, 0, 0, 0, 0, 0, 0, 0, 0, 0, 0, 0, 0, 0, 0, 0, 0, 62, 5, 6, 10, 128, 50, 9, 1, 118, 0], symbol_table := [("result", 265)], macros := [], if_stack := [], cross_reference_data := [("result", [-7, 5])], label := "result", mnemonic := "ds", operand1 := "1", operand2 := "", comment := "" }

/-- Processing of line 7 of pass run Ap2. -/
theorem lnAp2_7 : expand_and_process_line 30 stAp2_7L "END" 7 = Except.ok stAp2_8 := by rfl

/-- Per-line evaluation chain of pass run Ap2. -/
theorem chainAp2 :
    doPassAux 30 stAp2_0 scenarioA 0 false [] = Except.ok (stAp2_8, [256, 258, 260, 261, 264, 265, 266, 266]) :=
  calc doPassAux 30 stAp2_0 scenarioA 0 false [] = doPassAux 30 stAp2_1 ["MVI A,5", "MVI B,10", "ADD B", "STA RESULT", "HLT", "RESULT: DS 1", "END"] 1 false [256] := dpa_step_ok (by rfl) (by decide) (by decide) (by rfl) lnAp2_0 (by rfl)
    _ = doPassAux 30 stAp2_2 ["MVI B,10", "ADD B", "STA RESULT", "HLT", "RESULT: DS 1", "END"] 2 false [256, 258] := dpa_step_ok (by rfl) (by decide) (by decide) (by rfl) lnAp2_1 (by rfl)
    _ = doPassAux 30 stAp2_3 ["ADD B", "STA RESULT", "HLT", "RESULT: DS 1", "END"] 3 false [256, 258, 260] := dpa_step_ok (by rfl) (by decide) (by decide) (by rfl) lnAp2_2 (by rfl)
    _ = doPassAux 30 stAp2_4 ["STA RESULT", "HLT", "RESULT: DS 1", "END"] 4 false [256, 258, 260, 261] := dpa_step_ok (by rfl) (by decide) (by decide) (by rfl) lnAp2_3 (by rfl)
    _ = doPassAux 30 stAp2_5 ["HLT", "RESULT: DS 1", "END"] 5 false [256, 258, 260, 261, 264] := dpa_step_ok (by rfl) (by decide) (by decide) (by rfl) lnAp2_4 (by rfl)
    _ = doPassAux 30 stAp2_6 ["RESULT: DS 1", "END"] 6 false [256, 258, 260, 261, 264, 265] := dpa_step_ok (by rfl) (by decide) (by decide) (by rfl) lnAp2_5 (by rfl)
    _ = doPassAux 30 stAp2_7 ["END"] 7 false [256, 258, 260, 261, 264, 265, 266] := dpa_step_ok (by rfl) (by decide) (by decide) (by rfl) lnAp2_6 (by rfl)
    _ = doPassAux 30 stAp2_8 [] 8 false [256, 258, 260, 261, 264, 265, 266, 266] := dpa_step_ok (by rfl) (by decide) (by decide) (by rfl) lnAp2_7 (by rfl)
    _ = Except.ok (stAp2_8, [256, 258, 260, 261, 264, 265, 266, 266]) := by rfl

/-- Pass 2 of scenarioA as a `do_pass` run. -/
theorem dpA2 : do_pass 30 { stAp1_8 with source_pass := 2, address := 0, output := [], assembly_finished := false, macro_expansion_counter := 0 } scenarioA = Except.ok (stAp2_8, [256, 258, 260, 261, 264, 265, 266, 266]) := by
  unfold do_pass
  rw [show ({ ({ stAp1_8 with source_pass := 2, address := 0, output := [], assembly_finished := false, macro_expansion_counter := 0 } : AsmState) with if_stack := [] } : AsmState) = stAp2_0 from by rfl]
  rw [chainAp2]
  try rfl

/-- The full two-pass run of scenarioA, with the per-line location counter traces. -/
theorem runA : assembleT 30 initState scenarioA = Except.ok (stAp2_8, [256, 258, 260, 261, 264, 265, 266, 266], [256, 258, 260, 261, 264, 265, 266, 266]) := by
  unfold assembleT
  rw [show preprocess_macros (reset_state initState) scenarioA = Except.ok preA from by rfl]
  dsimp only
  rw [dpA1]
  dsimp only
  rw [dpA2]
  try rfl

/-- `assemble` on scenarioA. -/
theorem asmA : assemble 30 initState scenarioA = Except.ok stAp2_8 := by
  unfold assemble
  rw [runA]
  try rfl
/-- Result of the macro pre-pass on scenarioD. -/
def preD : AsmState :=
  { lineno := 0, address := 0, source_pass := 1, assembly_finished := false, macro_expansion_counter := 0, output := [], symbol_table := [], macros := [], if_stack := [], cross_reference_data := [], label := "", mnemonic := "", operand1 := "", operand2 := "", comment := "" }

/-- Checkpoint state 0 of pass run Dp1. -/
def stDp1_0 : AsmState :=
  { lineno := 0, address := 0, source_pass := 1, assembly_finished := false, macro_expansion_counter := 0, output := [], symbol_table := [], macros := [], if_stack := [], cross_reference_data := [], label := "", mnemonic := "", operand1 := "", operand2 := "", comment := "" }

/-- Checkpoint state 1 of pass run Dp1. -/
def stDp1_1 : AsmState :=
  { lineno := 0, address := 0, source_pass := 1, assembly_finished := false, macro_expansion_counter := 0, output := [], symbol_table := [], macros := [], if_stack := [], cross_reference_data := [], label := "", mnemonic := "org", operand1 := "0", operand2 := "", comment := "" }

/-- Checkpoint state 2 of pass run Dp1. -/
def stDp1_2 : AsmState :=
  { lineno := 1, address := 0, source_pass := 1, assembly_finished := false, macro_expansion_counter := 0, output := [], symbol_table := [("val", 4660)], macros := [], if_stack := [], cross_reference_data := [], label := "val", mnemonic := "equ", operand1 := "1234H", operand2 := "", comment := "" }

/-- Checkpoint state 3 of pass run Dp1. -/
def stDp1_3 : AsmState :=
  { lineno := 2, address := 2, source_pass := 1, assembly_finished := false, macro_expansion_counter := 0, output := [], symbol_table := [("val", 4660)], macros := [], if_stack := [], cross_reference_data := [], label := "", mnemonic := "db", operand1 := "LOW VAL", operand2 := "HIGH VAL", comment := "" }

/-- Line-entry state for line 0 of pass run Dp1. -/
def stDp1_0L : AsmState :=
  { lineno := 0, address := 0, source_pass := 1, assembly_finished := false, macro_expansion_counter := 0, output := [], symbol_table := [], macros := [], if_stack := [], cross_reference_data := [], label := "", mnemonic := "", operand1 := "", operand2 := "", comment := "" }

/-- Processing of line 0 of pass run Dp1. -/
theorem lnDp1_0 : expand_and_process_line 30 stDp1_0L "ORG 0" 0 = Except.ok stDp1_1 := by rfl

/-- Line-entry state for line 1 of pass run Dp1. -/
def stDp1_1L : AsmState :=
  { lineno := 1, address := 0, source_pass := 1, assembly_finished := false, macro_expansion_counter := 0, output := [], symbol_table := [], macros := [], if_stack := [], cross_reference_data := [], label := "", mnemonic := "org", operand1 := "0", operand2 := "", comment := "" }

/-- Processing of line 1 of pass run Dp1. -/
theorem lnDp1_1 : expand_and_process_line 30 stDp1_1L "VAL EQU 1234H" 1 = Except.ok stDp1_2 := by rfl

/-- Line-entry state for line 2 of pass run Dp1. -/
def stDp1_2L : AsmState :=
  { lineno := 2, address := 0, source_pass := 1, assembly_finished := false, macro_expansion_counter := 0, output := [], symbol_table := [("val", 4660)], macros := [], if_stack := [], cross_reference_data := [], label := "val", mnemonic := "equ", operand1 := "1234H", operand2 := "", comment := "" }

/-- Processing of line 2 of pass run Dp1. -/
theorem lnDp1_2 : expand_and_process_line 30 stDp1_2L "DB LOW VAL, HIGH VAL" 2 = Except.ok stDp1_3 := by rfl

/-- Per-line evaluation chain of pass run Dp1. -/
theorem chainDp1 :
    doPassAux 30 stDp1_0 scenarioD 0 false [] = Except.ok (stDp1_3, [0, 0, 2]) :=
  calc doPassAux 30 stDp1_0 scenarioD 0 false [] = doPassAux 30 stDp1_1 ["VAL EQU 1234H", "DB LOW VAL, HIGH VAL"] 1 false [0] := dpa_step_ok (by rfl) (by decide) (by decide) (by rfl) lnDp1_0 (by rfl)
    _ = doPassAux 30 stDp1_2 ["DB LOW VAL, HIGH VAL"] 2 false [0, 0] := dpa_step_ok (by rfl) (by decide) (by decide) (by rfl) lnDp1_1 (by rfl)
    _ = doPassAux 30 stDp1_3 [] 3 false [0, 0, 2] := dpa_step_ok (by rfl) (by decide) (by decide) (by rfl) lnDp1_2 (by rfl)
    _ = Except.ok (stDp1_3, [0, 0, 2]) := by rfl

/-- Pass 1 of scenarioD as a `do_pass` run. -/
theorem dpD1 : do_pass 30 { preD with source_pass := 1 } scenarioD = Except.ok (stDp1_3, [0, 0, 2]) := by
  unfold do_pass
  rw [show ({ ({ preD with source_pass := 1 } : AsmState) with if_stack := [] } : AsmState) = stDp1_0 from by rfl]
  rw [chainDp1]
  try rfl

/-- Checkpoint state 0 of pass run Dp2. -/
def stDp2_0 : AsmState :=
  { lineno := 2, address := 0, source_pass := 2, assembly_finished := false, macro_expansion_counter := 0, output := [], symbol_table := [("val", 4660)], macros := [], if_stack := [], cross_reference_data := [], label := "", mnemonic := "db", operand1 := "LOW VAL", operand2 := "HIGH VAL", comment := "" }

/-- Checkpoint state 1 of pass run Dp2. -/
def stDp2_1 : AsmState :=
  { lineno := 0, address := 0, source_pass := 2, assembly_finished := false, macro_expansion_counter := 0, output := [], symbol_table := [("val", 4660)], macros := [], if_stack := [], cross_reference_data := [], label := "", mnemonic := "org", operand1 := "0", operand2 := "", comment := "" }

/-- Checkpoint state 2 of pass run Dp2. -/
def stDp2_2 : AsmState :=
  { lineno := 1, address := 0, source_pass := 2, assembly_finished := false, macro_expansion_counter := 0, output := [], symbol_table := [("val", 4660)], macros := [], if_stack := [], cross_reference_data := [], label := "val", mnemonic := "equ", operand1 := "1234H", operand2 := "", comment := "" }

/-- Line-entry state for line 0 of pass run Dp2. -/
def stDp2_0L : AsmState :=
  { lineno := 0, address := 0, source_pass := 2, assembly_finished := false, macro_expansion_counter := 0, output := [], symbol_table := [("val", 4660)], macros := [], if_stack := [], cross_reference_data := [], label := "", mnemonic := "db", operand1 := "LOW VAL", operand2 := "HIGH VAL", comment := "" }

/-- Processing of line 0 of pass run Dp2. -/
theorem lnDp2_0 : expand_and_process_line 30 stDp2_0L "ORG 0" 0 = Except.ok stDp2_1 := by rfl

/-- Line-entry state for line 1 of pass run Dp2. -/
def stDp2_1L : AsmState :=
  { lineno := 1, address := 0, source_pass := 2, assembly_finished := false, macro_expansion_counter := 0, output := [], symbol_table := [("val", 4660)], macros := [], if_stack := [], cross_reference_data := [], label := "", mnemonic := "org", operand1 := "0", operand2 := "", comment := "" }

/-- Processing of line 1 of pass run Dp2. -/
theorem lnDp2_1 : expand_and_process_line 30 stDp2_1L "VAL EQU 1234H" 1 = Except.ok stDp2_2 := by rfl

/-- Line-entry state for line 2 of pass run Dp2. -/
def stDp2_2L : AsmState :=
  { lineno := 2, address := 0, source_pass := 2, assembly_finished := false, macro_expansion_counter := 0, output := [], symbol_table := [("val", 4660)], macros := [], if_stack := [], cross_reference_data := [], label := "val", mnemonic := "equ", operand1 := "1234H", operand2 := "", comment := "" }

/-- Processing of line 2 of pass run Dp2 reports a fatal error. -/
theorem lnDp2_2 : expand_and_process_line 30 stDp2_2L "DB LOW VAL, HIGH VAL" 2 = Except.error (M80.AsmErr.reported 2 "undefined label in expression: low") := by rfl

/-- Per-line evaluation chain of pass run Dp2. -/
theorem chainDp2 :
    doPassAux 30 stDp2_0 scenarioD 0 false [] = Except.error (M80.AsmErr.reported 2 "undefined label in expression: low") :=
  calc doPassAux 30 stDp2_0 scenarioD 0 false [] = doPassAux 30 stDp2_1 ["VAL EQU 1234H", "DB LOW VAL, HIGH VAL"] 1 false [0] := dpa_step_ok (by rfl) (by decide) (by decide) (by rfl) lnDp2_0 (by rfl)
    _ = doPassAux 30 stDp2_2 ["DB LOW VAL, HIGH VAL"] 2 false [0, 0] := dpa_step_ok (by rfl) (by decide) (by decide) (by rfl) lnDp2_1 (by rfl)
    _ = Except.error (M80.AsmErr.reported 2 "undefined label in expression: low") := dpa_step_err (by rfl) (by decide) (by decide) (by rfl) lnDp2_2

/-- Pass 2 of scenarioD aborts. -/
theorem dpD2 : do_pass 30 { stDp1_3 with source_pass := 2, address := 0, output := [], assembly_finished := false, macro_expansion_counter := 0 } scenarioD = Except.error (M80.AsmErr.reported 2 "undefined label in expression: low") := by
  unfold do_pass
  rw [show ({ ({ stDp1_3 with source_pass := 2, address := 0, output := [], assembly_finished := false, macro_expansion_counter := 0 } : AsmState) with if_stack := [] } : AsmState) = stDp2_0 from by rfl]
  rw [chainDp2]
  try rfl

/-- The whole assembly of scenarioD aborts in pass 2. -/
theorem runD : assembleT 30 initState scenarioD = Except.error (M80.AsmErr.reported 2 "undefined label in expression: low") := by
  unfold assembleT
  rw [show preprocess_macros (reset_state initState) scenarioD = Except.ok preD from by rfl]
  dsimp only
  rw [dpD1]
  dsimp only
  rw [dpD2]
  try rfl

/-- `assemble` on scenarioD aborts. -/
theorem asmD : assemble 30 initState scenarioD = Except.error (M80.AsmErr.reported 2 "undefined label in expression: low") := by
  unfold assemble
  rw [runD]
  try rfl
/-- Result of the macro pre-pass on scenarioF. -/
def preF : AsmState :=
  { lineno := 0, address := 0, source_pass := 1, assembly_finished := false, macro_expansion_counter := 0, output := [], symbol_table := [], macros := [], if_stack := [], cross_reference_data := [], label := "", mnemonic := "", operand1 := "", operand2 := "", comment := "" }

/-- Checkpoint state 0 of pass run Fp1. -/
def stFp1_0 : AsmState :=
  { lineno := 0, address := 0, source_pass := 1, assembly_finished := false, macro_expansion_counter := 0, output := [], symbol_table := [], macros := [], if_stack := [], cross_reference_data := [], label := "", mnemonic := "", operand1 := "", operand2 := "", comment := "" }

/-- Checkpoint state 1 of pass run Fp1. -/
def stFp1_1 : AsmState :=
  { lineno := 0, address := 0, source_pass := 1, assembly_finished := false, macro_expansion_counter := 0, output := [], symbol_table := [("debug", 1)], macros := [], if_stack := [], cross_reference_data := [], label := "debug", mnemonic := "equ", operand1 := "1", operand2 := "", comment := "" }

/-- Checkpoint state 2 of pass run Fp1. -/
def stFp1_2 : AsmState :=
  { lineno := 1, address := 0, source_pass := 1, assembly_finished := false, macro_expansion_counter := 0, output := [], symbol_table := [("debug", 1)], macros := [], if_stack := [], cross_reference_data := [], label := "", mnemonic := "org", operand1 := "0", operand2 := "", comment := "" }

/-- Checkpoint state 3 of pass run Fp1. -/
def stFp1_3 : AsmState :=
  { lineno := 2, address := 0, source_pass := 1, assembly_finished := false, macro_expansion_counter := 0, output := [], symbol_table := [("debug", 1)], macros := [], if_stack := [true], cross_reference_data := [("debug", [3])], label := "", mnemonic := "org", operand1 := "0", operand2 := "", comment := "" }

/-- Checkpoint state 4 of pass run Fp1. -/
def stFp1_4 : AsmState :=
  { lineno := 3, address := 2, source_pass := 1, assembly_finished := false, macro_expansion_counter := 0, output := [], symbol_table := [("debug", 1)], macros := [], if_stack := [true], cross_reference_data := [("debug", [3])], label := "", mnemonic := "mvi", operand1 := "A", operand2 := "0FFH", comment := "" }

/-- Checkpoint state 5 of pass run Fp1. -/
def stFp1_5 : AsmState :=
  { lineno := 4, address := 2, source_pass := 1, assembly_finished := false, macro_expansion_counter := 0, output := [], symbol_table := [("debug", 1)], macros := [], if_stack := [], cross_reference_data := [("debug", [3])], label := "", mnemonic := "mvi", operand1 := "A", operand2 := "0FFH", comment := "" }

/-- Checkpoint state 6 of pass run Fp1. -/
def stFp1_6 : AsmState :=
  { lineno := 5, address := 2, source_pass := 1, assembly_finished := false, macro_expansion_counter := 0, output := [], symbol_table := [("debug", 1)], macros := [], if_stack := [true], cross_reference_data := [("debug", [3, 6])], label := "", mnemonic := "mvi", operand1 := "A", operand2 := "0FFH", comment := "" }

/-- Checkpoint state 7 of pass run Fp1. -/
def stFp1_7 : AsmState :=
  { lineno := 6, address := 4, source_pass := 1, assembly_finished := false, macro_expansion_counter := 0, output := [], symbol_table := [("debug", 1)], macros := [], if_stack := [true], cross_reference_data := [("debug", [3, 6])], label := "", mnemonic := "mvi", operand1 := "A", operand2 := "00H", comment := "" }

/-- Checkpoint state 8 of pass run Fp1. -/
def stFp1_8 : AsmState :=
  { lineno := 7, address := 4, source_pass := 1, assembly_finished := false, macro_expansion_counter := 0, output := [], symbol_table := [("debug", 1)], macros := [], if_stack := [], cross_reference_data := [("debug", [3, 6])], label := "", mnemonic := "mvi", operand1 := "A", operand2 := "00H", comment := "" }

/-- Checkpoint state 9 of pass run Fp1. -/
def stFp1_9 : AsmState :=
  { lineno := 8, address := 5, source_pass := 1, assembly_finished := false, macro_expansion_counter := 0, output := [], symbol_table := [("debug", 1)], macros := [], if_stack := [], cross_reference_data := [("debug", [3, 6])], label := "", mnemonic := "hlt", operand1 := "", operand2 := "", comment := "" }

/-- Line-entry state for line 0 of pass run Fp1. -/
def stFp1_0L : AsmState :=
  { lineno := 0, address := 0, source_pass := 1, assembly_finished := false, macro_expansion_counter := 0, output := [], symbol_table := [], macros := [], if_stack := [], cross_reference_data := [], label := "", mnemonic := "", operand1 := "", operand2 := "", comment := "" }

/-- Processing of line 0 of pass run Fp1. -/
theorem lnFp1_0 : expand_and_process_line 30 stFp1_0L "DEBUG EQU 1" 0 = Except.ok stFp1_1 := by rfl

/-- Line-entry state for line 1 of pass run Fp1. -/
def stFp1_1L : AsmState :=
  { lineno := 1, address := 0, source_pass := 1, assembly_finished := false, macro_expansion_counter := 0, output := [], symbol_table := [("debug", 1)], macros := [], if_stack := [], cross_reference_data := [], label := "debug", mnemonic := "equ", operand1 := "1", operand2 := "", comment := "" }

/-- Processing of line 1 of pass run Fp1. -/
theorem lnFp1_1 : expand_and_process_line 30 stFp1_1L "      ORG 0" 1 = Except.ok stFp1_2 := by rfl

/-- Line-entry state for line 2 of pass run Fp1. -/
def stFp1_2L : AsmState :=
  { lineno := 2, address := 0, source_pass := 1, assembly_finished := false, macro_expansion_counter := 0, output := [], symbol_table := [("debug", 1)], macros := [], if_stack := [], cross_reference_data := [], label := "", mnemonic := "org", operand1 := "0", operand2 := "", comment := "" }

/-- Processing of line 2 of pass run Fp1. -/
theorem lnFp1_2 : expand_and_process_line 30 stFp1_2L "      IF DEBUG EQ 1" 2 = Except.ok stFp1_3 := by rfl

/-- Line-entry state for line 3 of pass run Fp1. -/
def stFp1_3L : AsmState :=
  { lineno := 3, address := 0, source_pass := 1, assembly_finished := false, macro_expansion_counter := 0, output := [], symbol_table := [("debug", 1)], macros := [], if_stack := [true], cross_reference_data := [("debug", [3])], label := "", mnemonic := "org", operand1 := "0", operand2 := "", comment := "" }

/-- Processing of line 3 of pass run Fp1. -/
theorem lnFp1_3 : expand_and_process_line 30 stFp1_3L "      MVI A,0FFH" 3 = Except.ok stFp1_4 := by rfl

/-- Line-entry state for line 4 of pass run Fp1. -/
def stFp1_4L : AsmState :=
  { lineno := 4, address := 2, source_pass := 1, assembly_finished := false, macro_expansion_counter := 0, output := [], symbol_table := [("debug", 1)], macros := [], if_stack := [true], cross_reference_data := [("debug", [3])], label := "", mnemonic := "mvi", operand1 := "A", operand2 := "0FFH", comment := "" }

/-- Processing of line 4 of pass run Fp1. -/
theorem lnFp1_4 : expand_and_process_line 30 stFp1_4L "      ENDIF" 4 = Except.ok stFp1_5 := by rfl

/-- Line-entry state for line 5 of pass run Fp1. -/
def stFp1_5L : AsmState :=
  { lineno := 5, address := 2, source_pass := 1, assembly_finished := false, macro_expansion_counter := 0, output := [], symbol_table := [("debug", 1)], macros := [], if_stack := [], cross_reference_data := [("debug", [3])], label := "", mnemonic := "mvi", operand1 := "A", operand2 := "0FFH", comment := "" }

/-- Processing of line 5 of pass run Fp1. -/
theorem lnFp1_5 : expand_and_process_line 30 stFp1_5L "      IF DEBUG EQ 0" 5 = Except.ok stFp1_6 := by rfl

/-- Line-entry state for line 6 of pass run Fp1. -/
def stFp1_6L : AsmState :=
  { lineno := 6, address := 2, source_pass := 1, assembly_finished := false, macro_expansion_counter := 0, output := [], symbol_table := [("debug", 1)], macros := [], if_stack := [true], cross_reference_data := [("debug", [3, 6])], label := "", mnemonic := "mvi", operand1 := "A", operand2 := "0FFH", comment := "" }

/-- Processing of line 6 of pass run Fp1. -/
theorem lnFp1_6 : expand_and_process_line 30 stFp1_6L "      MVI A,00H" 6 = Except.ok stFp1_7 := by rfl

/-- Line-entry state for line 7 of pass run Fp1. -/
def stFp1_7L : AsmState :=
  { lineno := 7, address := 4, source_pass := 1, assembly_finished := false, macro_expansion_counter := 0, output := [], symbol_table := [("debug", 1)], macros := [], if_stack := [true], cross_reference_data := [("debug", [3, 6])], label := "", mnemonic := "mvi", operand1 := "A", operand2 := "00H", comment := "" }

/-- Processing of line 7 of pass run Fp1. -/
theorem lnFp1_7 : expand_and_process_line 30 stFp1_7L "      ENDIF" 7 = Except.ok stFp1_8 := by rfl

/-- Line-entry state for line 8 of pass run Fp1. -/
def stFp1_8L : AsmState :=
  { lineno := 8, address := 4, source_pass := 1, assembly_finished := false, macro_expansion_counter := 0, output := [], symbol_table := [("debug", 1)], macros := [], if_stack := [], cross_reference_data := [("debug", [3, 6])], label := "", mnemonic := "mvi", operand1 := "A", operand2 := "00H", comment := "" }

/-- Processing of line 8 of pass run Fp1. -/
theorem lnFp1_8 : expand_and_process_line 30 stFp1_8L "      HLT" 8 = Except.ok stFp1_9 := by rfl

/-- Per-line evaluation chain of pass run Fp1. -/
theorem chainFp1 :
    doPassAux 30 stFp1_0 scenarioF 0 false [] = Except.ok (stFp1_9, [0, 0, 0, 2, 2, 2, 4, 4, 5]) :=
  calc doPassAux 30 stFp1_0 scenarioF 0 false [] = doPassAux 30 stFp1_1 ["      ORG 0", "      IF DEBUG EQ 1", "      MVI A,0FFH", "      ENDIF", "      IF DEBUG EQ 0", "      MVI A,00H", "      ENDIF", "      HLT"] 1 false [0] := dpa_step_ok (by rfl) (by decide) (by decide) (by rfl) lnFp1_0 (by rfl)
    _ = doPassAux 30 stFp1_2 ["      IF DEBUG EQ 1", "      MVI A,0FFH", "      ENDIF", "      IF DEBUG EQ 0", "      MVI A,00H", "      ENDIF", "      HLT"] 2 false [0, 0] := dpa_step_ok (by rfl) (by decide) (by decide) (by rfl) lnFp1_1 (by rfl)
    _ = doPassAux 30 stFp1_3 ["      MVI A,0FFH", "      ENDIF", "      IF DEBUG EQ 0", "      MVI A,00H", "      ENDIF", "      HLT"] 3 false [0, 0, 0] := dpa_step_ok (by rfl) (by decide) (by decide) (by rfl) lnFp1_2 (by rfl)
    _ = doPassAux 30 stFp1_4 ["      ENDIF", "      IF DEBUG EQ 0", "      MVI A,00H", "      ENDIF", "      HLT"] 4 false [0, 0, 0, 2] := dpa_step_ok (by rfl) (by decide) (by decide) (by rfl) lnFp1_3 (by rfl)
    _ = doPassAux 30 stFp1_5 ["      IF DEBUG EQ 0", "      MVI A,00H", "      ENDIF", "      HLT"] 5 false [0, 0, 0, 2, 2] := dpa_step_ok (by rfl) (by decide) (by decide) (by rfl) lnFp1_4 (by rfl)
    _ = doPassAux 30 stFp1_6 ["      MVI A,00H", "      ENDIF", "      HLT"] 6 false [0, 0, 0, 2, 2, 2] := dpa_step_ok (by rfl) (by decide) (by decide) (by rfl) lnFp1_5 (by rfl)
    _ = doPassAux 30 stFp1_7 ["      ENDIF", "      HLT"] 7 false [0, 0, 0, 2, 2, 2, 4] := dpa_step_ok (by rfl) (by decide) (by decide) (by rfl) lnFp1_6 (by rfl)
    _ = doPassAux 30 stFp1_8 ["      HLT"] 8 false [0, 0, 0, 2, 2, 2, 4, 4] := dpa_step_ok (by rfl) (by decide) (by decide) (by rfl) lnFp1_7 (by rfl)
    _ = doPassAux 30 stFp1_9 [] 9 false [0, 0, 0, 2, 2, 2, 4, 4, 5] := dpa_step_ok (by rfl) (by decide) (by decide) (by rfl) lnFp1_8 (by rfl)
    _ = Except.ok (stFp1_9, [0, 0, 0, 2, 2, 2, 4, 4, 5]) := by rfl

/-- Pass 1 of scenarioF as a `do_pass` run. -/
theorem dpF1 : do_pass 30 { preF with source_pass := 1 } scenarioF = Except.ok (stFp1_9, [0, 0, 0, 2, 2, 2, 4, 4, 5]) := by
  unfold do_pass
  rw [show ({ ({ preF with source_pass := 1 } : AsmState) with if_stack := [] } : AsmState) = stFp1_0 from by rfl]
  rw [chainFp1]
  try rfl

/-- Checkpoint state 0 of pass run Fp2. -/
def stFp2_0 : AsmState :=
  { lineno := 8, address := 0, source_pass := 2, assembly_finished := false, macro_expansion_counter := 0, output := [], symbol_table := [("debug", 1)], macros := [], if_stack := [], cross_reference_data := [("debug", [3, 6])], label := "", mnemonic := "hlt", operand1 := "", operand2 := "", comment := "" }

/-- Checkpoint state 1 of pass run Fp2. -/
def stFp2_1 : AsmState :=
  { lineno := 0, address := 0, source_pass := 2, assembly_finished := false, macro_expansion_counter := 0, output := [], symbol_table := [("debug", 1)], macros := [], if_stack := [], cross_reference_data := [("debug", [3, 6])], label := "debug", mnemonic := "equ", operand1 := "1", operand2 := "", comment := "" }

/-- Checkpoint state 2 of pass run Fp2. -/
def stFp2_2 : AsmState :=
  { lineno := 1, address := 0, source_pass := 2, assembly_finished := false, macro_expansion_counter := 0, output := [], symbol_table := [("debug", 1)], macros := [], if_stack := [], cross_reference_data := [("debug", [3, 6])], label := "", mnemonic := "org", operand1 := "0", operand2 := "", comment := "" }

/-- Checkpoint state 3 of pass run Fp2. -/
def stFp2_3 : AsmState :=
  { lineno := 2, address := 0, source_pass := 2, assembly_finished := false, macro_expansion_counter := 0, output := [], symbol_table := [("debug", 1)], macros := [], if_stack := [true], cross_reference_data := [("debug", [3, 6, 3])], label := "", mnemonic := "org", operand1 := "0", operand2 := "", comment := "" }

/-- Checkpoint state 4 of pass run Fp2. -/
def stFp2_4 : AsmState :=
  { lineno := 3, address := 2, source_pass := 2, assembly_finished := false, macro_expansion_counter := 0, output := [62, 255], symbol_table := [("debug", 1)], macros := [], if_stack := [true], cross_reference_data := [("debug", [3, 6, 3])], label := "", mnemonic := "mvi", operand1 := "A", operand2 := "0FFH", comment := "" }

/-- Checkpoint state 5 of pass run Fp2. -/
def stFp2_5 : AsmState :=
  { lineno := 4, address := 2, source_pass := 2, assembly_finished := false, macro_expansion_counter := 0, output := [62, 255], symbol_table := [("debug", 1)], macros := [], if_stack := [], cross_reference_data := [("debug", [3, 6, 3])], label := "", mnemonic := "mvi", operand1 := "A", operand2 := "0FFH", comment := "" }

/-- Checkpoint state 6 of pass run Fp2. -/
def stFp2_6 : AsmState :=
  { lineno := 5, address := 2, source_pass := 2, assembly_finished := false, macro_expansion_counter := 0, output := [62, 255], symbol_table := [("debug", 1)], macros := [], if_stack := [true], cross_reference_data := [("debug", [3, 6, 3, 6])], label := "", mnemonic := "mvi", operand1 := "A", operand2 := "0FFH", comment := "" }

/-- Checkpoint state 7 of pass run Fp2. -/
def stFp2_7 : AsmState :=
  { lineno := 6, address := 4, source_pass := 2, assembly_finished := false, macro_expansion_counter := 0, output := [62, 255, 62, 0], symbol_table := [("debug", 1)], macros := [], if_stack := [true], cross_reference_data := [("debug", [3, 6, 3, 6])], label := "", mnemonic := "mvi", operand1 := "A", operand2 := "00H", comment := "" }

/-- Checkpoint state 8 of pass run Fp2. -/
def stFp2_8 : AsmState :=
  { lineno := 7, address := 4, source_pass := 2, assembly_finished := false, macro_expansion_counter := 0, output := [62, 255, 62, 0], symbol_table := [("debug", 1)], macros := [], if_stack := [], cross_reference_data := [("debug", [3, 6, 3, 6])], label := "", mnemonic := "mvi", operand1 := "A", operand2 := "00H", comment := "" }

/-- Checkpoint state 9 of pass run Fp2. -/
def stFp2_9 : AsmState :=
  { lineno := 8, address := 5, source_pass := 2, assembly_finished := false, macro_expansion_counter := 0, output := [62, 255, 62, 0, 118], symbol_table := [("debug", 1)], macros := [], if_stack := [], cross_reference_data := [("debug", [3, 6, 3, 6])], label := "", mnemonic := "hlt", operand1 := "", operand2 := "", comment := "" }

/-- Line-entry state for line 0 of pass run Fp2. -/
def stFp2_0L : AsmState :=
  { lineno := 0, address := 0, source_pass := 2, assembly_finished := false, macro_expansion_counter := 0, output := [], symbol_table := [("debug", 1)], macros := [], if_stack := [], cross_reference_data := [("debug", [3, 6])], label := "", mnemonic := "hlt", operand1 := "", operand2 := "", comment := "" }

/-- Processing of line 0 of pass run Fp2. -/
theorem lnFp2_0 : expand_and_process_line 30 stFp2_0L "DEBUG EQU 1" 0 = Except.ok stFp2_1 := by rfl

/-- Line-entry state for line 1 of pass run Fp2. -/
def stFp2_1L : AsmState :=
  { lineno := 1, address := 0, source_pass := 2, assembly_finished := false, macro_expansion_counter := 0, output := [], symbol_table := [("debug", 1)], macros := [], if_stack := [], cross_reference_data := [("debug", [3, 6])], label := "debug", mnemonic := "equ", operand1 := "1", operand2 := "", comment := "" }

/-- Processing of line 1 of pass run Fp2. -/
theorem lnFp2_1 : expand_and_process_line 30 stFp2_1L "      ORG 0" 1 = Except.ok stFp2_2 := by rfl

/-- Line-entry state for line 2 of pass run Fp2. -/
def stFp2_2L : AsmState :=
  { lineno := 2, address := 0, source_pass := 2, assembly_finished := false, macro_expansion_counter := 0, output := [], symbol_table := [("debug", 1)], macros := [], if_stack := [], cross_reference_data := [("debug", [3, 6])], label := "", mnemonic := "org", operand1 := "0", operand2 := "", comment := "" }

/-- Processing of line 2 of pass run Fp2. -/
theorem lnFp2_2 : expand_and_process_line 30 stFp2_2L "      IF DEBUG EQ 1" 2 = Except.ok stFp2_3 := by rfl

/-- Line-entry state for line 3 of pass run Fp2. -/
def stFp2_3L : AsmState :=
  { lineno := 3, address := 0, source_pass := 2, assembly_finished := false, macro_expansion_counter := 0, output := [], symbol_table := [("debug", 1)], macros := [], if_stack := [true], cross_reference_data := [("debug", [3, 6, 3])], label := "", mnemonic := "org", operand1 := "0", operand2 := "", comment := "" }

/-- Processing of line 3 of pass run Fp2. -/
theorem lnFp2_3 : expand_and_process_line 30 stFp2_3L "      MVI A,0FFH" 3 = Except.ok stFp2_4 := by rfl

/-- Line-entry state for line 4 of pass run Fp2. -/
def stFp2_4L : AsmState :=
  { lineno := 4, address := 2, source_pass := 2, assembly_finished := false, macro_expansion_counter := 0, output := [62, 255], symbol_table := [("debug", 1)], macros := [], if_stack := [true], cross_reference_data := [("debug", [3, 6, 3])], label := "", mnemonic := "mvi", operand1 := "A", operand2 := "0FFH", comment := "" }

/-- Processing of line 4 of pass run Fp2. -/
theorem lnFp2_4 : expand_and_process_line 30 stFp2_4L "      ENDIF" 4 = Except.ok stFp2_5 := by rfl

/-- Line-entry state for line 5 of pass run Fp2. -/
def stFp2_5L : AsmState :=
  { lineno := 5, address := 2, source_pass := 2, assembly_finished := false, macro_expansion_counter := 0, output := [62, 255], symbol_table := [("debug", 1)], macros := [], if_stack := [], cross_reference_data := [("debug", [3, 6, 3])], label := "", mnemonic := "mvi", operand1 := "A", operand2 := "0FFH", comment := "" }

/-- Processing of line 5 of pass run Fp2. -/
theorem lnFp2_5 : expand_and_process_line 30 stFp2_5L "      IF DEBUG EQ 0" 5 = Except.ok stFp2_6 := by rfl

/-- Line-entry state for line 6 of pass run Fp2. -/
def stFp2_6L : AsmState :=
  { lineno := 6, address := 2, source_pass := 2, assembly_finished := false, macro_expansion_counter := 0, output := [62, 255], symbol_table := [("debug", 1)], macros := [], if_stack := [true], cross_reference_data := [("debug", [3, 6, 3, 6])], label := "", mnemonic := "mvi", operand1 := "A", operand2 := "0FFH", comment := "" }

/-- Processing of line 6 of pass run Fp2. -/
theorem lnFp2_6 : expand_and_process_line 30 stFp2_6L "      MVI A,00H" 6 = Except.ok stFp2_7 := by rfl

/-- Line-entry state for line 7 of pass run Fp2. -/
def stFp2_7L : AsmState :=
  { lineno := 7, address := 4, source_pass := 2, assembly_finished := false, macro_expansion_counter := 0, output := [62, 255, 62, 0], symbol_table := [("debug", 1)], macros := [], if_stack := [true], cross_reference_data := [("debug", [3, 6, 3, 6])], label := "", mnemonic := "mvi", operand1 := "A", operand2 := "00H", comment := "" }

/-- Processing of line 7 of pass run Fp2. -/
theorem lnFp2_7 : expand_and_process_line 30 stFp2_7L "      ENDIF" 7 = Except.ok stFp2_8 := by rfl

/-- Line-entry state for line 8 of pass run Fp2. -/
def stFp2_8L : AsmState :=
  { lineno := 8, address := 4, source_pass := 2, assembly_finished := false, macro_expansion_counter := 0, output := [62, 255, 62, 0], symbol_table := [("debug", 1)], macros := [], if_stack := [], cross_reference_data := [("debug", [3, 6, 3, 6])], label := "", mnemonic := "mvi", operand1 := "A", operand2 := "00H", comment := "" }

/-- Processing of line 8 of pass run Fp2. -/
theorem lnFp2_8 : expand_and_process_line 30 stFp2_8L "      HLT" 8 = Except.ok stFp2_9 := by rfl

/-- Per-line evaluation chain of pass run Fp2. -/
theorem chainFp2 :
    doPassAux 30 stFp2_0 scenarioF 0 false [] = Except.ok (stFp2_9, [0, 0, 0, 2, 2, 2, 4, 4, 5]) :=
  calc doPassAux 30 stFp2_0 scenarioF 0 false [] = doPassAux 30 stFp2_1 ["      ORG 0", "      IF DEBUG EQ 1", "      MVI A,0FFH", "      ENDIF", "      IF DEBUG EQ 0", "      MVI A,00H", "      ENDIF", "      HLT"] 1 false [0] := dpa_step_ok (by rfl) (by decide) (by decide) (by rfl) lnFp2_0 (by rfl)
    _ = doPassAux 30 stFp2_2 ["      IF DEBUG EQ 1", "      MVI A,0FFH", "      ENDIF", "      IF DEBUG EQ 0", "      MVI A,00H", "      ENDIF", "      HLT"] 2 false [0, 0] := dpa_step_ok (by rfl) (by decide) (by decide) (by rfl) lnFp2_1 (by rfl)
    _ = doPassAux 30 stFp2_3 ["      MVI A,0FFH", "      ENDIF", "      IF DEBUG EQ 0", "      MVI A,00H", "      ENDIF", "      HLT"] 3 false [0, 0, 0] := dpa_step_ok (by rfl) (by decide) (by decide) (by rfl) lnFp2_2 (by rfl)
    _ = doPassAux 30 stFp2_4 ["      ENDIF", "      IF DEBUG EQ 0", "      MVI A,00H", "      ENDIF", "      HLT"] 4 false [0, 0, 0, 2] := dpa_step_ok (by rfl) (by decide) (by decide) (by rfl) lnFp2_3 (by rfl)
    _ = doPassAux 30 stFp2_5 ["      IF DEBUG EQ 0", "      MVI A,00H", "      ENDIF", "      HLT"] 5 false [0, 0, 0, 2, 2] := dpa_step_ok (by rfl) (by decide) (by decide) (by rfl) lnFp2_4 (by rfl)
    _ = doPassAux 30 stFp2_6 ["      MVI A,00H", "      ENDIF", "      HLT"] 6 false [0, 0, 0, 2, 2, 2] := dpa_step_ok (by rfl) (by decide) (by decide) (by rfl) lnFp2_5 (by rfl)
    _ = doPassAux 30 stFp2_7 ["      ENDIF", "      HLT"] 7 false [0, 0, 0, 2, 2, 2, 4] := dpa_step_ok (by rfl) (by decide) (by decide) (by rfl) lnFp2_6 (by rfl)
    _ = doPassAux 30 stFp2_8 ["      HLT"] 8 false [0, 0, 0, 2, 2, 2, 4, 4] := dpa_step_ok (by rfl) (by decide) (by decide) (by rfl) lnFp2_7 (by rfl)
    _ = doPassAux 30 stFp2_9 [] 9 false [0, 0, 0, 2, 2, 2, 4, 4, 5] := dpa_step_ok (by rfl) (by decide) (by decide) (by rfl) lnFp2_8 (by rfl)
    _ = Except.ok (stFp2_9, [0, 0, 0, 2, 2, 2, 4, 4, 5]) := by rfl

/-- Pass 2 of scenarioF as a `do_pass` run. -/
theorem dpF2 : do_pass 30 { stFp1_9 with source_pass := 2, address := 0, output := [], assembly_finished := false, macro_expansion_counter := 0 } scenarioF = Except.ok (stFp2_9, [0, 0, 0, 2, 2, 2, 4, 4, 5]) := by
  unfold do_pass
  rw [show ({ ({ stFp1_9 with source_pass := 2, address := 0, output := [], assembly_finished := false, macro_expansion_counter := 0 } : AsmState) with if_stack := [] } : AsmState) = stFp2_0 from by rfl]
  rw [chainFp2]
  try rfl

/-- The full two-pass run of scenarioF, with the per-line location counter traces. -/
theorem runF : assembleT 30 initState scenarioF = Except.ok (stFp2_9, [0, 0, 0, 2, 2, 2, 4, 4, 5], [0, 0, 0, 2, 2, 2, 4, 4, 5]) := by
  unfold assembleT
  rw [show preprocess_macros (reset_state initState) scenarioF = Except.ok preF from by rfl]
  dsimp only
  rw [dpF1]
  dsimp only
  rw [dpF2]
  try rfl

/-- `assemble` on scenarioF. -/
theorem asmF : assemble 30 initState scenarioF = Except.ok stFp2_9 := by
  unfold assemble
  rw [runF]
  try rfl
/-- Result of the macro pre-pass on scenarioE. -/
def preE : AsmState :=
  { lineno := 0, address := 0, source_pass := 1, assembly_finished := false, macro_expansion_counter := 0, output := [], symbol_table := [], macros := [("delay", { name := "delay", params := ["COUNT"], body_lines := ["      LOCAL LOOP", "      MVI B,COUNT", "LOOP: DCR B", "      JNZ LOOP"] })], if_stack := [], cross_reference_data := [], label := "", mnemonic := "", operand1 := "", operand2 := "", comment := "" }

/-- Checkpoint state 0 of pass run Ep1. -/
def stEp1_0 : AsmState :=
  { lineno := 0, address := 0, source_pass := 1, assembly_finished := false, macro_expansion_counter := 0, output := [], symbol_table := [], macros := [("delay", { name := "delay", params := ["COUNT"], body_lines := ["      LOCAL LOOP", "      MVI B,COUNT", "LOOP: DCR B", "      JNZ LOOP"] })], if_stack := [], cross_reference_data := [], label := "", mnemonic := "", operand1 := "", operand2 := "", comment := "" }

/-- Checkpoint state 1 of pass run Ep1. -/
def stEp1_1 : AsmState :=
  { lineno := 0, address := 0, source_pass := 1, assembly_finished := false, macro_expansion_counter := 0, output := [], symbol_table := [], macros := [("delay", { name := "delay", params := ["COUNT"], body_lines := ["      LOCAL LOOP", "      MVI B,COUNT", "LOOP: DCR B", "      JNZ LOOP"] })], if_stack := [], cross_reference_data := [], label := "", mnemonic := "", operand1 := "", operand2 := "", comment := "" }

/-- Checkpoint state 2 of pass run Ep1. -/
def stEp1_2 : AsmState :=
  { lineno := 1, address := 0, source_pass := 1, assembly_finished := false, macro_expansion_counter := 0, output := [], symbol_table := [], macros := [("delay", { name := "delay", params := ["COUNT"], body_lines := ["      LOCAL LOOP", "      MVI B,COUNT", "LOOP: DCR B", "      JNZ LOOP"] })], if_stack := [], cross_reference_data := [], label := "", mnemonic := "", operand1 := "", operand2 := "", comment := "" }

/-- Checkpoint state 3 of pass run Ep1. -/
def stEp1_3 : AsmState :=
  { lineno := 2, address := 0, source_pass := 1, assembly_finished := false, macro_expansion_counter := 0, output := [], symbol_table := [], macros := [("delay", { name := "delay", params := ["COUNT"], body_lines := ["      LOCAL LOOP", "      MVI B,COUNT", "LOOP: DCR B", "      JNZ LOOP"] })], if_stack := [], cross_reference_data := [], label := "", mnemonic := "", operand1 := "", operand2 := "", comment := "" }

/-- Checkpoint state 4 of pass run Ep1. -/
def stEp1_4 : AsmState :=
  { lineno := 3, address := 0, source_pass := 1, assembly_finished := false, macro_expansion_counter := 0, output := [], symbol_table := [], macros := [("delay", { name := "delay", params := ["COUNT"], body_lines := ["      LOCAL LOOP", "      MVI B,COUNT", "LOOP: DCR B", "      JNZ LOOP"] })], if_stack := [], cross_reference_data := [], label := "", mnemonic := "", operand1 := "", operand2 := "", comment := "" }

/-- Checkpoint state 5 of pass run Ep1. -/
def stEp1_5 : AsmState :=
  { lineno := 4, address := 0, source_pass := 1, assembly_finished := false, macro_expansion_counter := 0, output := [], symbol_table := [], macros := [("delay", { name := "delay", params := ["COUNT"], body_lines := ["      LOCAL LOOP", "      MVI B,COUNT", "LOOP: DCR B", "      JNZ LOOP"] })], if_stack := [], cross_reference_data := [], label := "", mnemonic := "", operand1 := "", operand2 := "", comment := "" }

/-- Checkpoint state 6 of pass run Ep1. -/
def stEp1_6 : AsmState :=
  { lineno := 5, address := 0, source_pass := 1, assembly_finished := false, macro_expansion_counter := 0, output := [], symbol_table := [], macros := [("delay", { name := "delay", params := ["COUNT"], body_lines := ["      LOCAL LOOP", "      MVI B,COUNT", "LOOP: DCR B", "      JNZ LOOP"] })], if_stack := [], cross_reference_data := [], label := "", mnemonic := "", operand1 := "", operand2 := "", comment := "" }

/-- Checkpoint state 7 of pass run Ep1. -/
def stEp1_7 : AsmState :=
  { lineno := 6, address := 0, source_pass := 1, assembly_finished := false, macro_expansion_counter := 0, output := [], symbol_table := [], macros := [("delay", { name := "delay", params := ["COUNT"], body_lines := ["      LOCAL LOOP", "      MVI B,COUNT", "LOOP: DCR B", "      JNZ LOOP"] })], if_stack := [], cross_reference_data := [], label := "", mnemonic := "org", operand1 := "0", operand2 := "", comment := "" }

/-- Checkpoint state 8 of pass run Ep1. -/
def stEp1_8 : AsmState :=
  { lineno := 7, address := 6, source_pass := 1, assembly_finished := false, macro_expansion_counter := 1, output := [], symbol_table := [("loop_1", 2)], macros := [("delay", { name := "delay", params := ["COUNT"], body_lines := ["      LOCAL LOOP", "      MVI B,COUNT", "LOOP: DCR B", "      JNZ LOOP"] })], if_stack := [], cross_reference_data := [("loop_1", [-8])], label := "", mnemonic := "jnz", operand1 := "LOOP_1", operand2 := "", comment := "" }

/-- Checkpoint state 9 of pass run Ep1. -/
def stEp1_9 : AsmState :=
  { lineno := 8, address := 12, source_pass := 1, assembly_finished := false, macro_expansion_counter := 2, output := [], symbol_table := [("loop_1", 2), ("loop_2", 8)], macros := [("delay", { name := "delay", params := ["COUNT"], body_lines := ["      LOCAL LOOP", "      MVI B,COUNT", "LOOP: DCR B", "      JNZ LOOP"] })], if_stack := [], cross_reference_data := [("loop_1", [-8]), ("loop_2", [-9])], label := "", mnemonic := "jnz", operand1 := "LOOP_2", operand2 := "", comment := "" }

/-- Line-entry state for line 6 of pass run Ep1. -/
def stEp1_6L : AsmState :=
  { lineno := 6, address := 0, source_pass := 1, assembly_finished := false, macro_expansion_counter := 0, output := [], symbol_table := [], macros := [("delay", { name := "delay", params := ["COUNT"], body_lines := ["      LOCAL LOOP", "      MVI B,COUNT", "LOOP: DCR B", "      JNZ LOOP"] })], if_stack := [], cross_reference_data := [], label := "", mnemonic := "", operand1 := "", operand2 := "", comment := "" }

/-- Processing of line 6 of pass run Ep1. -/
theorem lnEp1_6 : expand_and_process_line 30 stEp1_6L "      ORG 0" 6 = Except.ok stEp1_7 := by rfl

/-- Line-entry state for line 7 of pass run Ep1. -/
def stEp1_7L : AsmState :=
  { lineno := 7, address := 0, source_pass := 1, assembly_finished := false, macro_expansion_counter := 0, output := [], symbol_table := [], macros := [("delay", { name := "delay", params := ["COUNT"], body_lines := ["      LOCAL LOOP", "      MVI B,COUNT", "LOOP: DCR B", "      JNZ LOOP"] })], if_stack := [], cross_reference_data := [], label := "", mnemonic := "org", operand1 := "0", operand2 := "", comment := "" }

/-- Macro-entry state for the invocation at line 7 of pass run Ep1. -/
def mbEp1_7_0 : AsmState :=
  { lineno := 7, address := 0, source_pass := 1, assembly_finished := false, macro_expansion_counter := 1, output := [], symbol_table := [], macros := [("delay", { name := "delay", params := ["COUNT"], body_lines := ["      LOCAL LOOP", "      MVI B,COUNT", "LOOP: DCR B", "      JNZ LOOP"] })], if_stack := [], cross_reference_data := [], label := "", mnemonic := "org", operand1 := "0", operand2 := "", comment := "" }

/-- Parameter substitution for body line 0 of the macro call at line 7 of Ep1. -/
theorem mbsEp1_7_0a : substituteAll 28 "      LOCAL LOOP".data [("COUNT", "5")] = Except.ok ("      LOCAL LOOP".data) := by rfl

/-- Local-label substitution for body line 0 of the macro call at line 7 of Ep1. -/
theorem mbsEp1_7_0b : substituteAll 28 "      LOCAL LOOP".data [("LOOP", "LOOP_1")] = Except.ok ("      LOCAL LOOP_1".data) := by rfl

/-- State after body line 0 of the macro call at line 7 of Ep1. -/
def mbEp1_7_1 : AsmState :=
  { lineno := 7, address := 0, source_pass := 1, assembly_finished := false, macro_expansion_counter := 1, output := [], symbol_table := [], macros := [("delay", { name := "delay", params := ["COUNT"], body_lines := ["      LOCAL LOOP", "      MVI B,COUNT", "LOOP: DCR B", "      JNZ LOOP"] })], if_stack := [], cross_reference_data := [], label := "", mnemonic := "org", operand1 := "0", operand2 := "", comment := "" }

/-- Processing of body line 0 of the macro call at line 7 of Ep1. -/
theorem mblnEp1_7_0 : expand_and_process_line 28 mbEp1_7_0 (String.mk ("      LOCAL LOOP_1".data)) 7 = Except.ok mbEp1_7_1 := by rfl

/-- Parameter substitution for body line 1 of the macro call at line 7 of Ep1. -/
theorem mbsEp1_7_1a : substituteAll 27 "      MVI B,COUNT".data [("COUNT", "5")] = Except.ok ("      MVI B,5".data) := by rfl

/-- Local-label substitution for body line 1 of the macro call at line 7 of Ep1. -/
theorem mbsEp1_7_1b : substituteAll 27 "      MVI B,5".data [("LOOP", "LOOP_1")] = Except.ok ("      MVI B,5".data) := by rfl

/-- State after body line 1 of the macro call at line 7 of Ep1. -/
def mbEp1_7_2 : AsmState :=
  { lineno := 7, address := 2, source_pass := 1, assembly_finished := false, macro_expansion_counter := 1, output := [], symbol_table := [], macros := [("delay", { name := "delay", params := ["COUNT"], body_lines := ["      LOCAL LOOP", "      MVI B,COUNT", "LOOP: DCR B", "      JNZ LOOP"] })], if_stack := [], cross_reference_data := [], label := "", mnemonic := "mvi", operand1 := "B", operand2 := "5", comment := "" }

/-- Processing of body line 1 of the macro call at line 7 of Ep1. -/
theorem mblnEp1_7_1 : expand_and_process_line 27 mbEp1_7_1 (String.mk ("      MVI B,5".data)) 7 = Except.ok mbEp1_7_2 := by rfl

/-- Parameter substitution for body line 2 of the macro call at line 7 of Ep1. -/
theorem mbsEp1_7_2a : substituteAll 26 "LOOP: DCR B".data [("COUNT", "5")] = Except.ok ("LOOP: DCR B".data) := by rfl

/-- Local-label substitution for body line 2 of the macro call at line 7 of Ep1. -/
theorem mbsEp1_7_2b : substituteAll 26 "LOOP: DCR B".data [("LOOP", "LOOP_1")] = Except.ok ("LOOP_1: DCR B".data) := by rfl

/-- State after body line 2 of the macro call at line 7 of Ep1. -/
def mbEp1_7_3 : AsmState :=
  { lineno := 7, address := 3, source_pass := 1, assembly_finished := false, macro_expansion_counter := 1, output := [], symbol_table := [("loop_1", 2)], macros := [("delay", { name := "delay", params := ["COUNT"], body_lines := ["      LOCAL LOOP", "      MVI B,COUNT", "LOOP: DCR B", "      JNZ LOOP"] })], if_stack := [], cross_reference_data := [("loop_1", [-8])], label := "loop_1", mnemonic := "dcr", operand1 := "B", operand2 := "", comment := "" }

/-- Processing of body line 2 of the macro call at line 7 of Ep1. -/
theorem mblnEp1_7_2 : expand_and_process_line 26 mbEp1_7_2 (String.mk ("LOOP_1: DCR B".data)) 7 = Except.ok mbEp1_7_3 := by rfl

/-- Parameter substitution for body line 3 of the macro call at line 7 of Ep1. -/
theorem mbsEp1_7_3a : substituteAll 25 "      JNZ LOOP".data [("COUNT", "5")] = Except.ok ("      JNZ LOOP".data) := by rfl

/-- Local-label substitution for body line 3 of the macro call at line 7 of Ep1. -/
theorem mbsEp1_7_3b : substituteAll 25 "      JNZ LOOP".data [("LOOP", "LOOP_1")] = Except.ok ("      JNZ LOOP_1".data) := by rfl

/-- Processing of body line 3 of the macro call at line 7 of Ep1. -/
theorem mblnEp1_7_3 : expand_and_process_line 25 mbEp1_7_3 (String.mk ("      JNZ LOOP_1".data)) 7 = Except.ok stEp1_8 := by rfl

/-- Processing of line 7 of pass run Ep1 (a macro invocation). -/
theorem lnEp1_7 : expand_and_process_line 30 stEp1_7L "      DELAY 5" 7 = Except.ok stEp1_8 := by
  have h0 : expand_and_process_line 30 stEp1_7L "      DELAY 5" 7 = process_body_lines 29 mbEp1_7_0 ["      LOCAL LOOP", "      MVI B,COUNT", "LOOP: DCR B", "      JNZ LOOP"] [("COUNT", "5")] [("LOOP", "LOOP_1")] 7 := by rfl
  rw [h0]
  rw [pbl_step mbsEp1_7_0a mbsEp1_7_0b mblnEp1_7_0]
  rw [pbl_step mbsEp1_7_1a mbsEp1_7_1b mblnEp1_7_1]
  rw [pbl_step mbsEp1_7_2a mbsEp1_7_2b mblnEp1_7_2]
  rw [pbl_step mbsEp1_7_3a mbsEp1_7_3b mblnEp1_7_3]
  rfl

/-- Line-entry state for line 8 of pass run Ep1. -/
def stEp1_8L : AsmState :=
  { lineno := 8, address := 6, source_pass := 1, assembly_finished := false, macro_expansion_counter := 1, output := [], symbol_table := [("loop_1", 2)], macros := [("delay", { name := "delay", params := ["COUNT"], body_lines := ["      LOCAL LOOP", "      MVI B,COUNT", "LOOP: DCR B", "      JNZ LOOP"] })], if_stack := [], cross_reference_data := [("loop_1", [-8])], label := "", mnemonic := "jnz", operand1 := "LOOP_1", operand2 := "", comment := "" }

/-- Macro-entry state for the invocation at line 8 of pass run Ep1. -/
def mbEp1_8_0 : AsmState :=
  { lineno := 8, address := 6, source_pass := 1, assembly_finished := false, macro_expansion_counter := 2, output := [], symbol_table := [("loop_1", 2)], macros := [("delay", { name := "delay", params := ["COUNT"], body_lines := ["      LOCAL LOOP", "      MVI B,COUNT", "LOOP: DCR B", "      JNZ LOOP"] })], if_stack := [], cross_reference_data := [("loop_1", [-8])], label := "", mnemonic := "jnz", operand1 := "LOOP_1", operand2 := "", comment := "" }

/-- Parameter substitution for body line 0 of the macro call at line 8 of Ep1. -/
theorem mbsEp1_8_0a : substituteAll 28 "      LOCAL LOOP".data [("COUNT", "3")] = Except.ok ("      LOCAL LOOP".data) := by rfl

/-- Local-label substitution for body line 0 of the macro call at line 8 of Ep1. -/
theorem mbsEp1_8_0b : substituteAll 28 "      LOCAL LOOP".data [("LOOP", "LOOP_2")] = Except.ok ("      LOCAL LOOP_2".data) := by rfl

/-- State after body line 0 of the macro call at line 8 of Ep1. -/
def mbEp1_8_1 : AsmState :=
  { lineno := 8, address := 6, source_pass := 1, assembly_finished := false, macro_expansion_counter := 2, output := [], symbol_table := [("loop_1", 2)], macros := [("delay", { name := "delay", params := ["COUNT"], body_lines := ["      LOCAL LOOP", "      MVI B,COUNT", "LOOP: DCR B", "      JNZ LOOP"] })], if_stack := [], cross_reference_data := [("loop_1", [-8])], label := "", mnemonic := "jnz", operand1 := "LOOP_1", operand2 := "", comment := "" }

/-- Processing of body line 0 of the macro call at line 8 of Ep1. -/
theorem mblnEp1_8_0 : expand_and_process_line 28 mbEp1_8_0 (String.mk ("      LOCAL LOOP_2".data)) 8 = Except.ok mbEp1_8_1 := by rfl

/-- Parameter substitution for body line 1 of the macro call at line 8 of Ep1. -/
theorem mbsEp1_8_1a : substituteAll 27 "      MVI B,COUNT".data [("COUNT", "3")] = Except.ok ("      MVI B,3".data) := by rfl

/-- Local-label substitution for body line 1 of the macro call at line 8 of Ep1. -/
theorem mbsEp1_8_1b : substituteAll 27 "      MVI B,3".data [("LOOP", "LOOP_2")] = Except.ok ("      MVI B,3".data) := by rfl

/-- State after body line 1 of the macro call at line 8 of Ep1. -/
def mbEp1_8_2 : AsmState :=
  { lineno := 8, address := 8, source_pass := 1, assembly_finished := false, macro_expansion_counter := 2, output := [], symbol_table := [("loop_1", 2)], macros := [("delay", { name := "delay", params := ["COUNT"], body_lines := ["      LOCAL LOOP", "      MVI B,COUNT", "LOOP: DCR B", "      JNZ LOOP"] })], if_stack := [], cross_reference_data := [("loop_1", [-8])], label := "", mnemonic := "mvi", operand1 := "B", operand2 := "3", comment := "" }

/-- Processing of body line 1 of the macro call at line 8 of Ep1. -/
theorem mblnEp1_8_1 : expand_and_process_line 27 mbEp1_8_1 (String.mk ("      MVI B,3".data)) 8 = Except.ok mbEp1_8_2 := by rfl

/-- Parameter substitution for body line 2 of the macro call at line 8 of Ep1. -/
theorem mbsEp1_8_2a : substituteAll 26 "LOOP: DCR B".data [("COUNT", "3")] = Except.ok ("LOOP: DCR B".data) := by rfl

/-- Local-label substitution for body line 2 of the macro call at line 8 of Ep1. -/
theorem mbsEp1_8_2b : substituteAll 26 "LOOP: DCR B".data [("LOOP", "LOOP_2")] = Except.ok ("LOOP_2: DCR B".data) := by rfl

/-- State after body line 2 of the macro call at line 8 of Ep1. -/
def mbEp1_8_3 : AsmState :=
  { lineno := 8, address := 9, source_pass := 1, assembly_finished := false, macro_expansion_counter := 2, output := [], symbol_table := [("loop_1", 2), ("loop_2", 8)], macros := [("delay", { name := "delay", params := ["COUNT"], body_lines := ["      LOCAL LOOP", "      MVI B,COUNT", "LOOP: DCR B", "      JNZ LOOP"] })], if_stack := [], cross_reference_data := [("loop_1", [-8]), ("loop_2", [-9])], label := "loop_2", mnemonic := "dcr", operand1 := "B", operand2 := "", comment := "" }

/-- Processing of body line 2 of the macro call at line 8 of Ep1. -/
theorem mblnEp1_8_2 : expand_and_process_line 26 mbEp1_8_2 (String.mk ("LOOP_2: DCR B".data)) 8 = Except.ok mbEp1_8_3 := by rfl

/-- Parameter substitution for body line 3 of the macro call at line 8 of Ep1. -/
theorem mbsEp1_8_3a : substituteAll 25 "      JNZ LOOP".data [("COUNT", "3")] = Except.ok ("      JNZ LOOP".data) := by rfl

/-- Local-label substitution for body line 3 of the macro call at line 8 of Ep1. -/
theorem mbsEp1_8_3b : substituteAll 25 "      JNZ LOOP".data [("LOOP", "LOOP_2")] = Except.ok ("      JNZ LOOP_2".data) := by rfl

/-- Processing of body line 3 of the macro call at line 8 of Ep1. -/
theorem mblnEp1_8_3 : expand_and_process_line 25 mbEp1_8_3 (String.mk ("      JNZ LOOP_2".data)) 8 = Except.ok stEp1_9 := by rfl

/-- Processing of line 8 of pass run Ep1 (a macro invocation). -/
theorem lnEp1_8 : expand_and_process_line 30 stEp1_8L "      DELAY 3" 8 = Except.ok stEp1_9 := by
  have h0 : expand_and_process_line 30 stEp1_8L "      DELAY 3" 8 = process_body_lines 29 mbEp1_8_0 ["      LOCAL LOOP", "      MVI B,COUNT", "LOOP: DCR B", "      JNZ LOOP"] [("COUNT", "3")] [("LOOP", "LOOP_2")] 8 := by rfl
  rw [h0]
  rw [pbl_step mbsEp1_8_0a mbsEp1_8_0b mblnEp1_8_0]
  rw [pbl_step mbsEp1_8_1a mbsEp1_8_1b mblnEp1_8_1]
  rw [pbl_step mbsEp1_8_2a mbsEp1_8_2b mblnEp1_8_2]
  rw [pbl_step mbsEp1_8_3a mbsEp1_8_3b mblnEp1_8_3]
  rfl

/-- Per-line evaluation chain of pass run Ep1. -/
theorem chainEp1 :
    doPassAux 30 stEp1_0 scenarioE 0 false [] = Except.ok (stEp1_9, [0, 0, 0, 0, 0, 0, 0, 6, 12]) :=
  calc doPassAux 30 stEp1_0 scenarioE 0 false [] = doPassAux 30 stEp1_1 ["      LOCAL LOOP", "      MVI B,COUNT", "LOOP: DCR B", "      JNZ LOOP", "      ENDM", "      ORG 0", "      DELAY 5", "      DELAY 3"] 1 true [0] := dpa_step_skip (by rfl) (by decide) (by decide) (by decide) (by rfl) (by rfl)
    _ = doPassAux 30 stEp1_2 ["      MVI B,COUNT", "LOOP: DCR B", "      JNZ LOOP", "      ENDM", "      ORG 0", "      DELAY 5", "      DELAY 3"] 2 true [0, 0] := dpa_step_skip (by rfl) (by decide) (by decide) (by decide) (by rfl) (by rfl)
    _ = doPassAux 30 stEp1_3 ["LOOP: DCR B", "      JNZ LOOP", "      ENDM", "      ORG 0", "      DELAY 5", "      DELAY 3"] 3 true [0, 0, 0] := dpa_step_skip (by rfl) (by decide) (by decide) (by decide) (by rfl) (by rfl)
    _ = doPassAux 30 stEp1_4 ["      JNZ LOOP", "      ENDM", "      ORG 0", "      DELAY 5", "      DELAY 3"] 4 true [0, 0, 0, 0] := dpa_step_skip (by rfl) (by decide) (by decide) (by decide) (by rfl) (by rfl)
    _ = doPassAux 30 stEp1_5 ["      ENDM", "      ORG 0", "      DELAY 5", "      DELAY 3"] 5 true [0, 0, 0, 0, 0] := dpa_step_skip (by rfl) (by decide) (by decide) (by decide) (by rfl) (by rfl)
    _ = doPassAux 30 stEp1_6 ["      ORG 0", "      DELAY 5", "      DELAY 3"] 6 false [0, 0, 0, 0, 0, 0] := dpa_step_skip (by rfl) (by decide) (by decide) (by decide) (by rfl) (by rfl)
    _ = doPassAux 30 stEp1_7 ["      DELAY 5", "      DELAY 3"] 7 false [0, 0, 0, 0, 0, 0, 0] := dpa_step_ok (by rfl) (by decide) (by decide) (by rfl) lnEp1_6 (by rfl)
    _ = doPassAux 30 stEp1_8 ["      DELAY 3"] 8 false [0, 0, 0, 0, 0, 0, 0, 6] := dpa_step_ok (by rfl) (by decide) (by decide) (by rfl) lnEp1_7 (by rfl)
    _ = doPassAux 30 stEp1_9 [] 9 false [0, 0, 0, 0, 0, 0, 0, 6, 12] := dpa_step_ok (by rfl) (by decide) (by decide) (by rfl) lnEp1_8 (by rfl)
    _ = Except.ok (stEp1_9, [0, 0, 0, 0, 0, 0, 0, 6, 12]) := by rfl

/-- Pass 1 of scenarioE as a `do_pass` run. -/
theorem dpE1 : do_pass 30 { preE with source_pass := 1 } scenarioE = Except.ok (stEp1_9, [0, 0, 0, 0, 0, 0, 0, 6, 12]) := by
  unfold do_pass
  rw [show ({ ({ preE with source_pass := 1 } : AsmState) with if_stack := [] } : AsmState) = stEp1_0 from by rfl]
  rw [chainEp1]
  try rfl

/-- Checkpoint state 0 of pass run Ep2. -/
def stEp2_0 : AsmState :=
  { lineno := 8, address := 0, source_pass := 2, assembly_finished := false, macro_expansion_counter := 0, output := [], symbol_table := [("loop_1", 2), ("loop_2", 8)], macros := [("delay", { name := "delay", params := ["COUNT"], body_lines := ["      LOCAL LOOP", "      MVI B,COUNT", "LOOP: DCR B", "      JNZ LOOP"] })], if_stack := [], cross_reference_data := [("loop_1", [-8]), ("loop_2", [-9])], label := "", mnemonic := "jnz", operand1 := "LOOP_2", operand2 := "", comment := "" }

/-- Checkpoint state 1 of pass run Ep2. -/
def stEp2_1 : AsmState :=
  { lineno := 0, address := 0, source_pass := 2, assembly_finished := false, macro_expansion_counter := 0, output := [], symbol_table := [("loop_1", 2), ("loop_2", 8)], macros := [("delay", { name := "delay", params := ["COUNT"], body_lines := ["      LOCAL LOOP", "      MVI B,COUNT", "LOOP: DCR B", "      JNZ LOOP"] })], if_stack := [], cross_reference_data := [("loop_1", [-8]), ("loop_2", [-9])], label := "", mnemonic := "jnz", operand1 := "LOOP_2", operand2 := "", comment := "" }

/-- Checkpoint state 2 of pass run Ep2. -/
def stEp2_2 : AsmState :=
  { lineno := 1, address := 0, source_pass := 2, assembly_finished := false, macro_expansion_counter := 0, output := [], symbol_table := [("loop_1", 2), ("loop_2", 8)], macros := [("delay", { name := "delay", params := ["COUNT"], body_lines := ["      LOCAL LOOP", "      MVI B,COUNT", "LOOP: DCR B", "      JNZ LOOP"] })], if_stack := [], cross_reference_data := [("loop_1", [-8]), ("loop_2", [-9])], label := "", mnemonic := "jnz", operand1 := "LOOP_2", operand2 := "", comment := "" }

/-- Checkpoint state 3 of pass run Ep2. -/
def stEp2_3 : AsmState :=
  { lineno := 2, address := 0, source_pass := 2, assembly_finished := false, macro_expansion_counter := 0, output := [], symbol_table := [("loop_1", 2), ("loop_2", 8)], macros := [("delay", { name := "delay", params := ["COUNT"], body_lines := ["      LOCAL LOOP", "      MVI B,COUNT", "LOOP: DCR B", "      JNZ LOOP"] })], if_stack := [], cross_reference_data := [("loop_1", [-8]), ("loop_2", [-9])], label := "", mnemonic := "jnz", operand1 := "LOOP_2", operand2 := "", comment := "" }

/-- Checkpoint state 4 of pass run Ep2. -/
def stEp2_4 : AsmState :=
  { lineno := 3, address := 0, source_pass := 2, assembly_finished := false, macro_expansion_counter := 0, output := [], symbol_table := [("loop_1", 2), ("loop_2", 8)], macros := [("delay", { name := "delay", params := ["COUNT"], body_lines := ["      LOCAL LOOP", "      MVI B,COUNT", "LOOP: DCR B", "      JNZ LOOP"] })], if_stack := [], cross_reference_data := [("loop_1", [-8]), ("loop_2", [-9])], label := "", mnemonic := "jnz", operand1 := "LOOP_2", operand2 := "", comment := "" }

/-- Checkpoint state 5 of pass run Ep2. -/
def stEp2_5 : AsmState :=
  { lineno := 4, address := 0, source_pass := 2, assembly_finished := false, macro_expansion_counter := 0, output := [], symbol_table := [("loop_1", 2), ("loop_2", 8)], macros := [("delay", { name := "delay", params := ["COUNT"], body_lines := ["      LOCAL LOOP", "      MVI B,COUNT", "LOOP: DCR B", "      JNZ LOOP"] })], if_stack := [], cross_reference_data := [("loop_1", [-8]), ("loop_2", [-9])], label := "", mnemonic := "jnz", operand1 := "LOOP_2", operand2 := "", comment := "" }

/-- Checkpoint state 6 of pass run Ep2. -/
def stEp2_6 : AsmState :=
  { lineno := 5, address := 0, source_pass := 2, assembly_finished := false, macro_expansion_counter := 0, output := [], symbol_table := [("loop_1", 2), ("loop_2", 8)], macros := [("delay", { name := "delay", params := ["COUNT"], body_lines := ["      LOCAL LOOP", "      MVI B,COUNT", "LOOP: DCR B", "      JNZ LOOP"] })], if_stack := [], cross_reference_data := [("loop_1", [-8]), ("loop_2", [-9])], label := "", mnemonic := "jnz", operand1 := "LOOP_2", operand2 := "", comment := "" }

/-- Checkpoint state 7 of pass run Ep2. -/
def stEp2_7 : AsmState :=
  { lineno := 6, address := 0, source_pass := 2, assembly_finished := false, macro_expansion_counter := 0, output := [], symbol_table := [("loop_1", 2), ("loop_2", 8)], macros := [("delay", { name := "delay", params := ["COUNT"], body_lines := ["      LOCAL LOOP", "      MVI B,COUNT", "LOOP: DCR B", "      JNZ LOOP"] })], if_stack := [], cross_reference_data := [("loop_1", [-8]), ("loop_2", [-9])], label := "", mnemonic := "org", operand1 := "0", operand2 := "", comment := "" }

/-- Checkpoint state 8 of pass run Ep2. -/
def stEp2_8 : AsmState :=
  { lineno := 7, address := 6, source_pass := 2, assembly_finished := false, macro_expansion_counter := 1, output := [6, 5, 5, 194, 2, 0], symbol_table := [("loop_1", 2), ("loop_2", 8)], macros := [("delay", { name := "delay", params := ["COUNT"], body_lines := ["      LOCAL LOOP", "      MVI B,COUNT", "LOOP: DCR B", "      JNZ LOOP"] })], if_stack := [], cross_reference_data := [("loop_1", [-8, 8]), ("loop_2", [-9])], label := "", mnemonic := "jnz", operand1 := "LOOP_1", operand2 := "", comment := "" }

/-- Checkpoint state 9 of pass run Ep2. -/
def stEp2_9 : AsmState :=
  { lineno := 8, address := 12, source_pass := 2, assembly_finished := false, macro_expansion_counter := 2, output := [6, 5, 5, 194, 2, 0, 6, 3, 5, 194, 8, 0], symbol_table := [("loop_1", 2), ("loop_2", 8)], macros := [("delay", { name := "delay", params := ["COUNT"], body_lines := ["      LOCAL LOOP", "      MVI B,COUNT", "LOOP: DCR B", "      JNZ LOOP"] })], if_stack := [], cross_reference_data := [("loop_1", [-8, 8]), ("loop_2", [-9, 9])], label := "", mnemonic := "jnz", operand1 := "LOOP_2", operand2 := "", comment := "" }

/-- Line-entry state for line 6 of pass run Ep2. -/
def stEp2_6L : AsmState :=
  { lineno := 6, address := 0, source_pass := 2, assembly_finished := false, macro_expansion_counter := 0, output := [], symbol_table := [("loop_1", 2), ("loop_2", 8)], macros := [("delay", { name := "delay", params := ["COUNT"], body_lines := ["      LOCAL LOOP", "      MVI B,COUNT", "LOOP: DCR B", "      JNZ LOOP"] })], if_stack := [], cross_reference_data := [("loop_1", [-8]), ("loop_2", [-9])], label := "", mnemonic := "jnz", operand1 := "LOOP_2", operand2 := "", comment := "" }

/-- Processing of line 6 of pass run Ep2. -/
theorem lnEp2_6 : expand_and_process_line 30 stEp2_6L "      ORG 0" 6 = Except.ok stEp2_7 := by rfl

/-- Line-entry state for line 7 of pass run Ep2. -/
def stEp2_7L : AsmState :=
  { lineno := 7, address := 0, source_pass := 2, assembly_finished := false, macro_expansion_counter := 0, output := [], symbol_table := [("loop_1", 2), ("loop_2", 8)], macros := [("delay", { name := "delay", params := ["COUNT"], body_lines := ["      LOCAL LOOP", "      MVI B,COUNT", "LOOP: DCR B", "      JNZ LOOP"] })], if_stack := [], cross_reference_data := [("loop_1", [-8]), ("loop_2", [-9])], label := "", mnemonic := "org", operand1 := "0", operand2 := "", comment := "" }

/-- Macro-entry state for the invocation at line 7 of pass run Ep2. -/
def mbEp2_7_0 : AsmState :=
  { lineno := 7, address := 0, source_pass := 2, assembly_finished := false, macro_expansion_counter := 1, output := [], symbol_table := [("loop_1", 2), ("loop_2", 8)], macros := [("delay", { name := "delay", params := ["COUNT"], body_lines := ["      LOCAL LOOP", "      MVI B,COUNT", "LOOP: DCR B", "      JNZ LOOP"] })], if_stack := [], cross_reference_data := [("loop_1", [-8]), ("loop_2", [-9])], label := "", mnemonic := "org", operand1 := "0", operand2 := "", comment := "" }

/-- Parameter substitution for body line 0 of the macro call at line 7 of Ep2. -/
theorem mbsEp2_7_0a : substituteAll 28 "      LOCAL LOOP".data [("COUNT", "5")] = Except.ok ("      LOCAL LOOP".data) := by rfl

/-- Local-label substitution for body line 0 of the macro call at line 7 of Ep2. -/
theorem mbsEp2_7_0b : substituteAll 28 "      LOCAL LOOP".data [("LOOP", "LOOP_1")] = Except.ok ("      LOCAL LOOP_1".data) := by rfl

/-- State after body line 0 of the macro call at line 7 of Ep2. -/
def mbEp2_7_1 : AsmState :=
  { lineno := 7, address := 0, source_pass := 2, assembly_finished := false, macro_expansion_counter := 1, output := [], symbol_table := [("loop_1", 2), ("loop_2", 8)], macros := [("delay", { name := "delay", params := ["COUNT"], body_lines := ["      LOCAL LOOP", "      MVI B,COUNT", "LOOP: DCR B", "      JNZ LOOP"] })], if_stack := [], cross_reference_data := [("loop_1", [-8]), ("loop_2", [-9])], label := "", mnemonic := "org", operand1 := "0", operand2 := "", comment := "" }

/-- Processing of body line 0 of the macro call at line 7 of Ep2. -/
theorem mblnEp2_7_0 : expand_and_process_line 28 mbEp2_7_0 (String.mk ("      LOCAL LOOP_1".data)) 7 = Except.ok mbEp2_7_1 := by rfl

/-- Parameter substitution for body line 1 of the macro call at line 7 of Ep2. -/
theorem mbsEp2_7_1a : substituteAll 27 "      MVI B,COUNT".data [("COUNT", "5")] = Except.ok ("      MVI B,5".data) := by rfl

/-- Local-label substitution for body line 1 of the macro call at line 7 of Ep2. -/
theorem mbsEp2_7_1b : substituteAll 27 "      MVI B,5".data [("LOOP", "LOOP_1")] = Except.ok ("      MVI B,5".data) := by rfl

/-- State after body line 1 of the macro call at line 7 of Ep2. -/
def mbEp2_7_2 : AsmState :=
  { lineno := 7, address := 2, source_pass := 2, assembly_finished := false, macro_expansion_counter := 1, output := [6, 5], symbol_table := [("loop_1", 2), ("loop_2", 8)], macros := [("delay", { name := "delay", params := ["COUNT"], body_lines := ["      LOCAL LOOP", "      MVI B,COUNT", "LOOP: DCR B", "      JNZ LOOP"] })], if_stack := [], cross_reference_data := [("loop_1", [-8]), ("loop_2", [-9])], label := "", mnemonic := "mvi", operand1 := "B", operand2 := "5", comment := "" }

/-- Processing of body line 1 of the macro call at line 7 of Ep2. -/
theorem mblnEp2_7_1 : expand_and_process_line 27 mbEp2_7_1 (String.mk ("      MVI B,5".data)) 7 = Except.ok mbEp2_7_2 := by rfl

/-- Parameter substitution for body line 2 of the macro call at line 7 of Ep2. -/
theorem mbsEp2_7_2a : substituteAll 26 "LOOP: DCR B".data [("COUNT", "5")] = Except.ok ("LOOP: DCR B".data) := by rfl

/-- Local-label substitution for body line 2 of the macro call at line 7 of Ep2. -/
theorem mbsEp2_7_2b : substituteAll 26 "LOOP: DCR B".data [("LOOP", "LOOP_1")] = Except.ok ("LOOP_1: DCR B".data) := by rfl

/-- State after body line 2 of the macro call at line 7 of Ep2. -/
def mbEp2_7_3 : AsmState :=
  { lineno := 7, address := 3, source_pass := 2, assembly_finished := false, macro_expansion_counter := 1, output := [6, 5, 5], symbol_table := [("loop_1", 2), ("loop_2", 8)], macros := [("delay", { name := "delay", params := ["COUNT"], body_lines := ["      LOCAL LOOP", "      MVI B,COUNT", "LOOP: DCR B", "      JNZ LOOP"] })], if_stack := [], cross_reference_data := [("loop_1", [-8]), ("loop_2", [-9])], label := "loop_1", mnemonic := "dcr", operand1 := "B", operand2 := "", comment := "" }

/-- Processing of body line 2 of the macro call at line 7 of Ep2. -/
theorem mblnEp2_7_2 : expand_and_process_line 26 mbEp2_7_2 (String.mk ("LOOP_1: DCR B".data)) 7 = Except.ok mbEp2_7_3 := by rfl

/-- Parameter substitution for body line 3 of the macro call at line 7 of Ep2. -/
theorem mbsEp2_7_3a : substituteAll 25 "      JNZ LOOP".data [("COUNT", "5")] = Except.ok ("      JNZ LOOP".data) := by rfl

/-- Local-label substitution for body line 3 of the macro call at line 7 of Ep2. -/
theorem mbsEp2_7_3b : substituteAll 25 "      JNZ LOOP".data [("LOOP", "LOOP_1")] = Except.ok ("      JNZ LOOP_1".data) := by rfl

/-- Processing of body line 3 of the macro call at line 7 of Ep2. -/
theorem mblnEp2_7_3 : expand_and_process_line 25 mbEp2_7_3 (String.mk ("      JNZ LOOP_1".data)) 7 = Except.ok stEp2_8 := by rfl

/-- Processing of line 7 of pass run Ep2 (a macro invocation). -/
theorem lnEp2_7 : expand_and_process_line 30 stEp2_7L "      DELAY 5" 7 = Except.ok stEp2_8 := by
  have h0 : expand_and_process_line 30 stEp2_7L "      DELAY 5" 7 = process_body_lines 29 mbEp2_7_0 ["      LOCAL LOOP", "      MVI B,COUNT", "LOOP: DCR B", "      JNZ LOOP"] [("COUNT", "5")] [("LOOP", "LOOP_1")] 7 := by rfl
  rw [h0]
  rw [pbl_step mbsEp2_7_0a mbsEp2_7_0b mblnEp2_7_0]
  rw [pbl_step mbsEp2_7_1a mbsEp2_7_1b mblnEp2_7_1]
  rw [pbl_step mbsEp2_7_2a mbsEp2_7_2b mblnEp2_7_2]
  rw [pbl_step mbsEp2_7_3a mbsEp2_7_3b mblnEp2_7_3]
  rfl

/-- Line-entry state for line 8 of pass run Ep2. -/
def stEp2_8L : AsmState :=
  { lineno := 8, address := 6, source_pass := 2, assembly_finished := false, macro_expansion_counter := 1, output := [6, 5, 5, 194, 2, 0], symbol_table := [("loop_1", 2), ("loop_2", 8)], macros := [("delay", { name := "delay", params := ["COUNT"], body_lines := ["      LOCAL LOOP", "      MVI B,COUNT", "LOOP: DCR B", "      JNZ LOOP"] })], if_stack := [], cross_reference_data := [("loop_1", [-8, 8]), ("loop_2", [-9])], label := "", mnemonic := "jnz", operand1 := "LOOP_1", operand2 := "", comment := "" }

/-- Macro-entry state for the invocation at line 8 of pass run Ep2. -/
def mbEp2_8_0 : AsmState :=
  { lineno := 8, address := 6, source_pass := 2, assembly_finished := false, macro_expansion_counter := 2, output := [6, 5, 5, 194, 2, 0], symbol_table := [("loop_1", 2), ("loop_2", 8)], macros := [("delay", { name := "delay", params := ["COUNT"], body_lines := ["      LOCAL LOOP", "      MVI B,COUNT", "LOOP: DCR B", "      JNZ LOOP"] })], if_stack := [], cross_reference_data := [("loop_1", [-8, 8]), ("loop_2", [-9])], label := "", mnemonic := "jnz", operand1 := "LOOP_1", operand2 := "", comment := "" }

/-- Parameter substitution for body line 0 of the macro call at line 8 of Ep2. -/
theorem mbsEp2_8_0a : substituteAll 28 "      LOCAL LOOP".data [("COUNT", "3")] = Except.ok ("      LOCAL LOOP".data) := by rfl

/-- Local-label substitution for body line 0 of the macro call at line 8 of Ep2. -/
theorem mbsEp2_8_0b : substituteAll 28 "      LOCAL LOOP".data [("LOOP", "LOOP_2")] = Except.ok ("      LOCAL LOOP_2".data) := by rfl

/-- State after body line 0 of the macro call at line 8 of Ep2. -/
def mbEp2_8_1 : AsmState :=
  { lineno := 8, address := 6, source_pass := 2, assembly_finished := false, macro_expansion_counter := 2, output := [6, 5, 5, 194, 2, 0], symbol_table := [("loop_1", 2), ("loop_2", 8)], macros := [("delay", { name := "delay", params := ["COUNT"], body_lines := ["      LOCAL LOOP", "      MVI B,COUNT", "LOOP: DCR B", "      JNZ LOOP"] })], if_stack := [], cross_reference_data := [("loop_1", [-8, 8]), ("loop_2", [-9])], label := "", mnemonic := "jnz", operand1 := "LOOP_1", operand2 := "", comment := "" }

/-- Processing of body line 0 of the macro call at line 8 of Ep2. -/
theorem mblnEp2_8_0 : expand_and_process_line 28 mbEp2_8_0 (String.mk ("      LOCAL LOOP_2".data)) 8 = Except.ok mbEp2_8_1 := by rfl

/-- Parameter substitution for body line 1 of the macro call at line 8 of Ep2. -/
theorem mbsEp2_8_1a : substituteAll 27 "      MVI B,COUNT".data [("COUNT", "3")] = Except.ok ("      MVI B,3".data) := by rfl

/-- Local-label substitution for body line 1 of the macro call at line 8 of Ep2. -/
theorem mbsEp2_8_1b : substituteAll 27 "      MVI B,3".data [("LOOP", "LOOP_2")] = Except.ok ("      MVI B,3".data) := by rfl

/-- State after body line 1 of the macro call at line 8 of Ep2. -/
def mbEp2_8_2 : AsmState :=
  { lineno := 8, address := 8, source_pass := 2, assembly_finished := false, macro_expansion_counter := 2, output := [6, 5, 5, 194, 2, 0, 6, 3], symbol_table := [("loop_1", 2), ("loop_2", 8)], macros := [("delay", { name := "delay", params := ["COUNT"], body_lines := ["      LOCAL LOOP", "      MVI B,COUNT", "LOOP: DCR B", "      JNZ LOOP"] })], if_stack := [], cross_reference_data := [("loop_1", [-8, 8]), ("loop_2", [-9])], label := "", mnemonic := "mvi", operand1 := "B", operand2 := "3", comment := "" }

/-- Processing of body line 1 of the macro call at line 8 of Ep2. -/
theorem mblnEp2_8_1 : expand_and_process_line 27 mbEp2_8_1 (String.mk ("      MVI B,3".data)) 8 = Except.ok mbEp2_8_2 := by rfl

/-- Parameter substitution for body line 2 of the macro call at line 8 of Ep2. -/
theorem mbsEp2_8_2a : substituteAll 26 "LOOP: DCR B".data [("COUNT", "3")] = Except.ok ("LOOP: DCR B".data) := by rfl

/-- Local-label substitution for body line 2 of the macro call at line 8 of Ep2. -/
theorem mbsEp2_8_2b : substituteAll 26 "LOOP: DCR B".data [("LOOP", "LOOP_2")] = Except.ok ("LOOP_2: DCR B".data) := by rfl

/-- State after body line 2 of the macro call at line 8 of Ep2. -/
def mbEp2_8_3 : AsmState :=
  { lineno := 8, address := 9, source_pass := 2, assembly_finished := false, macro_expansion_counter := 2, output := [6, 5, 5, 194, 2, 0, 6, 3, 5], symbol_table := [("loop_1", 2), ("loop_2", 8)], macros := [("delay", { name := "delay", params := ["COUNT"], body_lines := ["      LOCAL LOOP", "      MVI B,COUNT", "LOOP: DCR B", "      JNZ LOOP"] })], if_stack := [], cross_reference_data := [("loop_1", [-8, 8]), ("loop_2", [-9])], label := "loop_2", mnemonic := "dcr", operand1 := "B", operand2 := "", comment := "" }

/-- Processing of body line 2 of the macro call at line 8 of Ep2. -/
theorem mblnEp2_8_2 : expand_and_process_line 26 mbEp2_8_2 (String.mk ("LOOP_2: DCR B".data)) 8 = Except.ok mbEp2_8_3 := by rfl

/-- Parameter substitution for body line 3 of the macro call at line 8 of Ep2. -/
theorem mbsEp2_8_3a : substituteAll 25 "      JNZ LOOP".data [("COUNT", "3")] = Except.ok ("      JNZ LOOP".data) := by rfl

/-- Local-label substitution for body line 3 of the macro call at line 8 of Ep2. -/
theorem mbsEp2_8_3b : substituteAll 25 "      JNZ LOOP".data [("LOOP", "LOOP_2")] = Except.ok ("      JNZ LOOP_2".data) := by rfl

/-- Processing of body line 3 of the macro call at line 8 of Ep2. -/
theorem mblnEp2_8_3 : expand_and_process_line 25 mbEp2_8_3 (String.mk ("      JNZ LOOP_2".data)) 8 = Except.ok stEp2_9 := by rfl

/-- Processing of line 8 of pass run Ep2 (a macro invocation). -/
theorem lnEp2_8 : expand_and_process_line 30 stEp2_8L "      DELAY 3" 8 = Except.ok stEp2_9 := by
  have h0 : expand_and_process_line 30 stEp2_8L "      DELAY 3" 8 = process_body_lines 29 mbEp2_8_0 ["      LOCAL LOOP", "      MVI B,COUNT", "LOOP: DCR B", "      JNZ LOOP"] [("COUNT", "3")] [("LOOP", "LOOP_2")] 8 := by rfl
  rw [h0]
  rw [pbl_step mbsEp2_8_0a mbsEp2_8_0b mblnEp2_8_0]
  rw [pbl_step mbsEp2_8_1a mbsEp2_8_1b mblnEp2_8_1]
  rw [pbl_step mbsEp2_8_2a mbsEp2_8_2b mblnEp2_8_2]
  rw [pbl_step mbsEp2_8_3a mbsEp2_8_3b mblnEp2_8_3]
  rfl

/-- Per-line evaluation chain of pass run Ep2. -/
theorem chainEp2 :
    doPassAux 30 stEp2_0 scenarioE 0 false [] = Except.ok (stEp2_9, [0, 0, 0, 0, 0, 0, 0, 6, 12]) :=
  calc doPassAux 30 stEp2_0 scenarioE 0 false [] = doPassAux 30 stEp2_1 ["      LOCAL LOOP", "      MVI B,COUNT", "LOOP: DCR B", "      JNZ LOOP", "      ENDM", "      ORG 0", "      DELAY 5", "      DELAY 3"] 1 true [0] := dpa_step_skip (by rfl) (by decide) (by decide) (by decide) (by rfl) (by rfl)
    _ = doPassAux 30 stEp2_2 ["      MVI B,COUNT", "LOOP: DCR B", "      JNZ LOOP", "      ENDM", "      ORG 0", "      DELAY 5", "      DELAY 3"] 2 true [0, 0] := dpa_step_skip (by rfl) (by decide) (by decide) (by decide) (by rfl) (by rfl)
    _ = doPassAux 30 stEp2_3 ["LOOP: DCR B", "      JNZ LOOP", "      ENDM", "      ORG 0", "      DELAY 5", "      DELAY 3"] 3 true [0, 0, 0] := dpa_step_skip (by rfl) (by decide) (by decide) (by decide) (by rfl) (by rfl)
    _ = doPassAux 30 stEp2_4 ["      JNZ LOOP", "      ENDM", "      ORG 0", "      DELAY 5", "      DELAY 3"] 4 true [0, 0, 0, 0] := dpa_step_skip (by rfl) (by decide) (by decide) (by decide) (by rfl) (by rfl)
    _ = doPassAux 30 stEp2_5 ["      ENDM", "      ORG 0", "      DELAY 5", "      DELAY 3"] 5 true [0, 0, 0, 0, 0] := dpa_step_skip (by rfl) (by decide) (by decide) (by decide) (by rfl) (by rfl)
    _ = doPassAux 30 stEp2_6 ["      ORG 0", "      DELAY 5", "      DELAY 3"] 6 false [0, 0, 0, 0, 0, 0] := dpa_step_skip (by rfl) (by decide) (by decide) (by decide) (by rfl) (by rfl)
    _ = doPassAux 30 stEp2_7 ["      DELAY 5", "      DELAY 3"] 7 false [0, 0, 0, 0, 0, 0, 0] := dpa_step_ok (by rfl) (by decide) (by decide) (by rfl) lnEp2_6 (by rfl)
    _ = doPassAux 30 stEp2_8 ["      DELAY 3"] 8 false [0, 0, 0, 0, 0, 0, 0, 6] := dpa_step_ok (by rfl) (by decide) (by decide) (by rfl) lnEp2_7 (by rfl)
    _ = doPassAux 30 stEp2_9 [] 9 false [0, 0, 0, 0, 0, 0, 0, 6, 12] := dpa_step_ok (by rfl) (by decide) (by decide) (by rfl) lnEp2_8 (by rfl)
    _ = Except.ok (stEp2_9, [0, 0, 0, 0, 0, 0, 0, 6, 12]) := by rfl

/-- Pass 2 of scenarioE as a `do_pass` run. -/
theorem dpE2 : do_pass 30 { stEp1_9 with source_pass := 2, address := 0, output := [], assembly_finished := false, macro_expansion_counter := 0 } scenarioE = Except.ok (stEp2_9, [0, 0, 0, 0, 0, 0, 0, 6, 12]) := by
  unfold do_pass
  rw [show ({ ({ stEp1_9 with source_pass := 2, address := 0, output := [], assembly_finished := false, macro_expansion_counter := 0 } : AsmState) with if_stack := [] } : AsmState) = stEp2_0 from by rfl]
  rw [chainEp2]
  try rfl

/-- The full two-pass run of scenarioE, with the per-line location counter traces. -/
theorem runE : assembleT 30 initState scenarioE = Except.ok (stEp2_9, [0, 0, 0, 0, 0, 0, 0, 6, 12], [0, 0, 0, 0, 0, 0, 0, 6, 12]) := by
  unfold assembleT
  rw [show preprocess_macros (reset_state initState) scenarioE = Except.ok preE from by rfl]
  dsimp only
  rw [dpE1]
  dsimp only
  rw [dpE2]
  try rfl

/-- `assemble` on scenarioE. -/
theorem asmE : assemble 30 initState scenarioE = Except.ok stEp2_9 := by
  unfold assemble
  rw [runE]
  try rfl
/-- Result of the macro pre-pass on progX. -/
def preX : AsmState :=
  { lineno := 0, address := 0, source_pass := 1, assembly_finished := false, macro_expansion_counter := 0, output := [], symbol_table := [], macros := [], if_stack := [], cross_reference_data := [], label := "", mnemonic := "", operand1 := "", operand2 := "", comment := "" }

/-- Checkpoint state 0 of pass run Xp1. -/
def stXp1_0 : AsmState :=
  { lineno := 0, address := 0, source_pass := 1, assembly_finished := false, macro_expansion_counter := 0, output := [], symbol_table := [], macros := [], if_stack := [], cross_reference_data := [], label := "", mnemonic := "", operand1 := "", operand2 := "", comment := "" }

/-- Checkpoint state 1 of pass run Xp1. -/
def stXp1_1 : AsmState :=
  { lineno := 0, address := 0, source_pass := 1, assembly_finished := false, macro_expansion_counter := 0, output := [], symbol_table := [], macros := [], if_stack := [], cross_reference_data := [], label := "", mnemonic := "ds", operand1 := "FOO", operand2 := "", comment := "" }

/-- Checkpoint state 2 of pass run Xp1. -/
def stXp1_2 : AsmState :=
  { lineno := 1, address := 0, source_pass := 1, assembly_finished := false, macro_expansion_counter := 0, output := [], symbol_table := [("foo", 5)], macros := [], if_stack := [], cross_reference_data := [], label := "foo", mnemonic := "equ", operand1 := "5", operand2 := "", comment := "" }

/-- Line-entry state for line 0 of pass run Xp1. -/
def stXp1_0L : AsmState :=
  { lineno := 0, address := 0, source_pass := 1, assembly_finished := false, macro_expansion_counter := 0, output := [], symbol_table := [], macros := [], if_stack := [], cross_reference_data := [], label := "", mnemonic := "", operand1 := "", operand2 := "", comment := "" }

/-- Processing of line 0 of pass run Xp1. -/
theorem lnXp1_0 : expand_and_process_line 30 stXp1_0L "DS FOO" 0 = Except.ok stXp1_1 := by rfl

/-- Line-entry state for line 1 of pass run Xp1. -/
def stXp1_1L : AsmState :=
  { lineno := 1, address := 0, source_pass := 1, assembly_finished := false, macro_expansion_counter := 0, output := [], symbol_table := [], macros := [], if_stack := [], cross_reference_data := [], label := "", mnemonic := "ds", operand1 := "FOO", operand2 := "", comment := "" }

/-- Processing of line 1 of pass run Xp1. -/
theorem lnXp1_1 : expand_and_process_line 30 stXp1_1L "FOO EQU 5" 1 = Except.ok stXp1_2 := by rfl

/-- Per-line evaluation chain of pass run Xp1. -/
theorem chainXp1 :
    doPassAux 30 stXp1_0 progX 0 false [] = Except.ok (stXp1_2, [0, 0]) :=
  calc doPassAux 30 stXp1_0 progX 0 false [] = doPassAux 30 stXp1_1 ["FOO EQU 5"] 1 false [0] := dpa_step_ok (by rfl) (by decide) (by decide) (by rfl) lnXp1_0 (by rfl)
    _ = doPassAux 30 stXp1_2 [] 2 false [0, 0] := dpa_step_ok (by rfl) (by decide) (by decide) (by rfl) lnXp1_1 (by rfl)
    _ = Except.ok (stXp1_2, [0, 0]) := by rfl

/-- Pass 1 of progX as a `do_pass` run. -/
theorem dpX1 : do_pass 30 { preX with source_pass := 1 } progX = Except.ok (stXp1_2, [0, 0]) := by
  unfold do_pass
  rw [show ({ ({ preX with source_pass := 1 } : AsmState) with if_stack := [] } : AsmState) = stXp1_0 from by rfl]
  rw [chainXp1]
  try rfl

/-- Checkpoint state 0 of pass run Xp2. -/
def stXp2_0 : AsmState :=
  { lineno := 1, address := 0, source_pass := 2, assembly_finished := false, macro_expansion_counter := 0, output := [], symbol_table := [("foo", 5)], macros := [], if_stack := [], cross_reference_data := [], label := "foo", mnemonic := "equ", operand1 := "5", operand2 := "", comment := "" }

/-- Checkpoint state 1 of pass run Xp2. -/
def stXp2_1 : AsmState :=
  { lineno := 0, address := 5, source_pass := 2, assembly_finished := false, macro_expansion_counter := 0, output := [0, 0, 0, 0, 0], symbol_table := [("foo", 5)], macros := [], if_stack := [], cross_reference_data := [("foo", [1])], label := "", mnemonic := "ds", operand1 := "FOO", operand2 := "", comment := "" }

/-- Checkpoint state 2 of pass run Xp2. -/
def stXp2_2 : AsmState :=
  { lineno := 1, address := 5, source_pass := 2, assembly_finished := false, macro_expansion_counter := 0, output := [0, 0, 0, 0, 0], symbol_table := [("foo", 5)], macros := [], if_stack := [], cross_reference_data := [("foo", [1])], label := "foo", mnemonic := "equ", operand1 := "5", operand2 := "", comment := "" }

/-- Line-entry state for line 0 of pass run Xp2. -/
def stXp2_0L : AsmState :=
  { lineno := 0, address := 0, source_pass := 2, assembly_finished := false, macro_expansion_counter := 0, output := [], symbol_table := [("foo", 5)], macros := [], if_stack := [], cross_reference_data := [], label := "foo", mnemonic := "equ", operand1 := "5", operand2 := "", comment := "" }

/-- Processing of line 0 of pass run Xp2. -/
theorem lnXp2_0 : expand_and_process_line 30 stXp2_0L "DS FOO" 0 = Except.ok stXp2_1 := by rfl

/-- Line-entry state for line 1 of pass run Xp2. -/
def stXp2_1L : AsmState :=
  { lineno := 1, address := 5, source_pass := 2, assembly_finished := false, macro_expansion_counter := 0, output := [0, 0, 0, 0, 0], symbol_table := [("foo", 5)], macros := [], if_stack := [], cross_reference_data := [("foo", [1])], label := "", mnemonic := "ds", operand1 := "FOO", operand2 := "", comment := "" }

/-- Processing of line 1 of pass run Xp2. -/
theorem lnXp2_1 : expand_and_process_line 30 stXp2_1L "FOO EQU 5" 1 = Except.ok stXp2_2 := by rfl

/-- Per-line evaluation chain of pass run Xp2. -/
theorem chainXp2 :
    doPassAux 30 stXp2_0 progX 0 false [] = Except.ok (stXp2_2, [5, 5]) :=
  calc doPassAux 30 stXp2_0 progX 0 false [] = doPassAux 30 stXp2_1 ["FOO EQU 5"] 1 false [5] := dpa_step_ok (by rfl) (by decide) (by decide) (by rfl) lnXp2_0 (by rfl)
    _ = doPassAux 30 stXp2_2 [] 2 false [5, 5] := dpa_step_ok (by rfl) (by decide) (by decide) (by rfl) lnXp2_1 (by rfl)
    _ = Except.ok (stXp2_2, [5, 5]) := by rfl

/-- Pass 2 of progX as a `do_pass` run. -/
theorem dpX2 : do_pass 30 { stXp1_2 with source_pass := 2, address := 0, output := [], assembly_finished := false, macro_expansion_counter := 0 } progX = Except.ok (stXp2_2, [5, 5]) := by
  unfold do_pass
  rw [show ({ ({ stXp1_2 with source_pass := 2, address := 0, output := [], assembly_finished := false, macro_expansion_counter := 0 } : AsmState) with if_stack := [] } : AsmState) = stXp2_0 from by rfl]
  rw [chainXp2]
  try rfl

/-- The full two-pass run of progX, with the per-line location counter traces. -/
theorem runX : assembleT 30 initState progX = Except.ok (stXp2_2, [0, 0], [5, 5]) := by
  unfold assembleT
  rw [show preprocess_macros (reset_state initState) progX = Except.ok preX from by rfl]
  dsimp only
  rw [dpX1]
  dsimp only
  rw [dpX2]
  try rfl

/-- `assemble` on progX. -/
theorem asmX : assemble 30 initState progX = Except.ok stXp2_2 := by
  unfold assemble
  rw [runX]
  try rfl
/-- Result of the macro pre-pass on progR. -/
def preR1 : AsmState :=
  { lineno := 0, address := 0, source_pass := 1, assembly_finished := false, macro_expansion_counter := 0, output := [], symbol_table := [], macros := [], if_stack := [], cross_reference_data := [], label := "", mnemonic := "", operand1 := "", operand2 := "", comment := "" }

/-- Checkpoint state 0 of pass run R1p1. -/
def stR1p1_0 : AsmState :=
  { lineno := 0, address := 0, source_pass := 1, assembly_finished := false, macro_expansion_counter := 0, output := [], symbol_table := [], macros := [], if_stack := [], cross_reference_data := [], label := "", mnemonic := "", operand1 := "", operand2 := "", comment := "" }

/-- Checkpoint state 1 of pass run R1p1. -/
def stR1p1_1 : AsmState :=
  { lineno := 0, address := 1, source_pass := 1, assembly_finished := false, macro_expansion_counter := 0, output := [], symbol_table := [("l", 0)], macros := [], if_stack := [], cross_reference_data := [("l", [-1])], label := "l", mnemonic := "nop", operand1 := "", operand2 := "", comment := "" }

/-- Checkpoint state 2 of pass run R1p1. -/
def stR1p1_2 : AsmState :=
  { lineno := 1, address := 4, source_pass := 1, assembly_finished := false, macro_expansion_counter := 0, output := [], symbol_table := [("l", 0)], macros := [], if_stack := [], cross_reference_data := [("l", [-1])], label := "", mnemonic := "jmp", operand1 := "L", operand2 := "", comment := "" }

/-- Line-entry state for line 0 of pass run R1p1. -/
def stR1p1_0L : AsmState :=
  { lineno := 0, address := 0, source_pass := 1, assembly_finished := false, macro_expansion_counter := 0, output := [], symbol_table := [], macros := [], if_stack := [], cross_reference_data := [], label := "", mnemonic := "", operand1 := "", operand2 := "", comment := "" }

/-- Processing of line 0 of pass run R1p1. -/
theorem lnR1p1_0 : expand_and_process_line 30 stR1p1_0L "L: NOP" 0 = Except.ok stR1p1_1 := by rfl

/-- Line-entry state for line 1 of pass run R1p1. -/
def stR1p1_1L : AsmState :=
  { lineno := 1, address := 1, source_pass := 1, assembly_finished := false, macro_expansion_counter := 0, output := [], symbol_table := [("l", 0)], macros := [], if_stack := [], cross_reference_data := [("l", [-1])], label := "l", mnemonic := "nop", operand1 := "", operand2 := "", comment := "" }

/-- Processing of line 1 of pass run R1p1. -/
theorem lnR1p1_1 : expand_and_process_line 30 stR1p1_1L "JMP L" 1 = Except.ok stR1p1_2 := by rfl

/-- Per-line evaluation chain of pass run R1p1. -/
theorem chainR1p1 :
    doPassAux 30 stR1p1_0 progR 0 false [] = Except.ok (stR1p1_2, [1, 4]) :=
  calc doPassAux 30 stR1p1_0 progR 0 false [] = doPassAux 30 stR1p1_1 ["JMP L"] 1 false [1] := dpa_step_ok (by rfl) (by decide) (by decide) (by rfl) lnR1p1_0 (by rfl)
    _ = doPassAux 30 stR1p1_2 [] 2 false [1, 4] := dpa_step_ok (by rfl) (by decide) (by decide) (by rfl) lnR1p1_1 (by rfl)
    _ = Except.ok (stR1p1_2, [1, 4]) := by rfl

/-- Pass 1 of progR as a `do_pass` run. -/
theorem dpR11 : do_pass 30 { preR1 with source_pass := 1 } progR = Except.ok (stR1p1_2, [1, 4]) := by
  unfold do_pass
  rw [show ({ ({ preR1 with source_pass := 1 } : AsmState) with if_stack := [] } : AsmState) = stR1p1_0 from by rfl]
  rw [chainR1p1]
  try rfl

/-- Checkpoint state 0 of pass run R1p2. -/
def stR1p2_0 : AsmState :=
  { lineno := 1, address := 0, source_pass := 2, assembly_finished := false, macro_expansion_counter := 0, output := [], symbol_table := [("l", 0)], macros := [], if_stack := [], cross_reference_data := [("l", [-1])], label := "", mnemonic := "jmp", operand1 := "L", operand2 := "", comment := "" }

/-- Checkpoint state 1 of pass run R1p2. -/
def stR1p2_1 : AsmState :=
  { lineno := 0, address := 1, source_pass := 2, assembly_finished := false, macro_expansion_counter := 0, output := [0], symbol_table := [("l", 0)], macros := [], if_stack := [], cross_reference_data := [("l", [-1])], label := "l", mnemonic := "nop", operand1 := "", operand2 := "", comment := "" }

/-- Checkpoint state 2 of pass run R1p2. -/
def stR1p2_2 : AsmState :=
  { lineno := 1, address := 4, source_pass := 2, assembly_finished := false, macro_expansion_counter := 0, output := [0, 195, 0, 0], symbol_table := [("l", 0)], macros := [], if_stack := [], cross_reference_data := [("l", [-1, 2])], label := "", mnemonic := "jmp", operand1 := "L", operand2 := "", comment := "" }

/-- Line-entry state for line 0 of pass run R1p2. -/
def stR1p2_0L : AsmState :=
  { lineno := 0, address := 0, source_pass := 2, assembly_finished := false, macro_expansion_counter := 0, output := [], symbol_table := [("l", 0)], macros := [], if_stack := [], cross_reference_data := [("l", [-1])], label := "", mnemonic := "jmp", operand1 := "L", operand2 := "", comment := "" }

/-- Processing of line 0 of pass run R1p2. -/
theorem lnR1p2_0 : expand_and_process_line 30 stR1p2_0L "L: NOP" 0 = Except.ok stR1p2_1 := by rfl

/-- Line-entry state for line 1 of pass run R1p2. -/
def stR1p2_1L : AsmState :=
  { lineno := 1, address := 1, source_pass := 2, assembly_finished := false, macro_expansion_counter := 0, output := [0], symbol_table := [("l", 0)], macros := [], if_stack := [], cross_reference_data := [("l", [-1])], label := "l", mnemonic := "nop", operand1 := "", operand2 := "", comment := "" }

/-- Processing of line 1 of pass run R1p2. -/
theorem lnR1p2_1 : expand_and_process_line 30 stR1p2_1L "JMP L" 1 = Except.ok stR1p2_2 := by rfl

/-- Per-line evaluation chain of pass run R1p2. -/
theorem chainR1p2 :
    doPassAux 30 stR1p2_0 progR 0 false [] = Except.ok (stR1p2_2, [1, 4]) :=
  calc doPassAux 30 stR1p2_0 progR 0 false [] = doPassAux 30 stR1p2_1 ["JMP L"] 1 false [1] := dpa_step_ok (by rfl) (by decide) (by decide) (by rfl) lnR1p2_0 (by rfl)
    _ = doPassAux 30 stR1p2_2 [] 2 false [1, 4] := dpa_step_ok (by rfl) (by decide) (by decide) (by rfl) lnR1p2_1 (by rfl)
    _ = Except.ok (stR1p2_2, [1, 4]) := by rfl

/-- Pass 2 of progR as a `do_pass` run. -/
theorem dpR12 : do_pass 30 { stR1p1_2 with source_pass := 2, address := 0, output := [], assembly_finished := false, macro_expansion_counter := 0 } progR = Except.ok (stR1p2_2, [1, 4]) := by
  unfold do_pass
  rw [show ({ ({ stR1p1_2 with source_pass := 2, address := 0, output := [], assembly_finished := false, macro_expansion_counter := 0 } : AsmState) with if_stack := [] } : AsmState) = stR1p2_0 from by rfl]
  rw [chainR1p2]
  try rfl

/-- The full two-pass run of progR, with the per-line location counter traces. -/
theorem runR1 : assembleT 30 initState progR = Except.ok (stR1p2_2, [1, 4], [1, 4]) := by
  unfold assembleT
  rw [show preprocess_macros (reset_state initState) progR = Except.ok preR1 from by rfl]
  dsimp only
  rw [dpR11]
  dsimp only
  rw [dpR12]
  try rfl

/-- `assemble` on progR. -/
theorem asmR1 : assemble 30 initState progR = Except.ok stR1p2_2 := by
  unfold assemble
  rw [runR1]
  try rfl
/-- Result of the macro pre-pass on progR. -/
def preR2 : AsmState :=
  { lineno := 0, address := 0, source_pass := 1, assembly_finished := false, macro_expansion_counter := 0, output := [], symbol_table := [], macros := [], if_stack := [], cross_reference_data := [("l", [-1, 2])], label := "", mnemonic := "jmp", operand1 := "L", operand2 := "", comment := "" }

/-- Checkpoint state 0 of pass run R2p1. -/
def stR2p1_0 : AsmState :=
  { lineno := 0, address := 0, source_pass := 1, assembly_finished := false, macro_expansion_counter := 0, output := [], symbol_table := [], macros := [], if_stack := [], cross_reference_data := [("l", [-1, 2])], label := "", mnemonic := "jmp", operand1 := "L", operand2 := "", comment := "" }

/-- Checkpoint state 1 of pass run R2p1. -/
def stR2p1_1 : AsmState :=
  { lineno := 0, address := 1, source_pass := 1, assembly_finished := false, macro_expansion_counter := 0, output := [], symbol_table := [("l", 0)], macros := [], if_stack := [], cross_reference_data := [("l", [-1, 2, -1])], label := "l", mnemonic := "nop", operand1 := "", operand2 := "", comment := "" }

/-- Checkpoint state 2 of pass run R2p1. -/
def stR2p1_2 : AsmState :=
  { lineno := 1, address := 4, source_pass := 1, assembly_finished := false, macro_expansion_counter := 0, output := [], symbol_table := [("l", 0)], macros := [], if_stack := [], cross_reference_data := [("l", [-1, 2, -1])], label := "", mnemonic := "jmp", operand1 := "L", operand2 := "", comment := "" }

/-- Line-entry state for line 0 of pass run R2p1. -/
def stR2p1_0L : AsmState :=
  { lineno := 0, address := 0, source_pass := 1, assembly_finished := false, macro_expansion_counter := 0, output := [], symbol_table := [], macros := [], if_stack := [], cross_reference_data := [("l", [-1, 2])], label := "", mnemonic := "jmp", operand1 := "L", operand2 := "", comment := "" }

/-- Processing of line 0 of pass run R2p1. -/
theorem lnR2p1_0 : expand_and_process_line 30 stR2p1_0L "L: NOP" 0 = Except.ok stR2p1_1 := by rfl

/-- Line-entry state for line 1 of pass run R2p1. -/
def stR2p1_1L : AsmState :=
  { lineno := 1, address := 1, source_pass := 1, assembly_finished := false, macro_expansion_counter := 0, output := [], symbol_table := [("l", 0)], macros := [], if_stack := [], cross_reference_data := [("l", [-1, 2, -1])], label := "l", mnemonic := "nop", operand1 := "", operand2 := "", comment := "" }

/-- Processing of line 1 of pass run R2p1. -/
theorem lnR2p1_1 : expand_and_process_line 30 stR2p1_1L "JMP L" 1 = Except.ok stR2p1_2 := by rfl

/-- Per-line evaluation chain of pass run R2p1. -/
theorem chainR2p1 :
    doPassAux 30 stR2p1_0 progR 0 false [] = Except.ok (stR2p1_2, [1, 4]) :=
  calc doPassAux 30 stR2p1_0 progR 0 false [] = doPassAux 30 stR2p1_1 ["JMP L"] 1 false [1] := dpa_step_ok (by rfl) (by decide) (by decide) (by rfl) lnR2p1_0 (by rfl)
    _ = doPassAux 30 stR2p1_2 [] 2 false [1, 4] := dpa_step_ok (by rfl) (by decide) (by decide) (by rfl) lnR2p1_1 (by rfl)
    _ = Except.ok (stR2p1_2, [1, 4]) := by rfl

/-- Pass 1 of progR as a `do_pass` run. -/
theorem dpR21 : do_pass 30 { preR2 with source_pass := 1 } progR = Except.ok (stR2p1_2, [1, 4]) := by
  unfold do_pass
  rw [show ({ ({ preR2 with source_pass := 1 } : AsmState) with if_stack := [] } : AsmState) = stR2p1_0 from by rfl]
  rw [chainR2p1]
  try rfl

/-- Checkpoint state 0 of pass run R2p2. -/
def stR2p2_0 : AsmState :=
  { lineno := 1, address := 0, source_pass := 2, assembly_finished := false, macro_expansion_counter := 0, output := [], symbol_table := [("l", 0)], macros := [], if_stack := [], cross_reference_data := [("l", [-1, 2, -1])], label := "", mnemonic := "jmp", operand1 := "L", operand2 := "", comment := "" }

/-- Checkpoint state 1 of pass run R2p2. -/
def stR2p2_1 : AsmState :=
  { lineno := 0, address := 1, source_pass := 2, assembly_finished := false, macro_expansion_counter := 0, output := [0], symbol_table := [("l", 0)], macros := [], if_stack := [], cross_reference_data := [("l", [-1, 2, -1])], label := "l", mnemonic := "nop", operand1 := "", operand2 := "", comment := "" }

/-- Checkpoint state 2 of pass run R2p2. -/
def stR2p2_2 : AsmState :=
  { lineno := 1, address := 4, source_pass := 2, assembly_finished := false, macro_expansion_counter := 0, output := [0, 195, 0, 0], symbol_table := [("l", 0)], macros := [], if_stack := [], cross_reference_data := [("l", [-1, 2, -1, 2])], label := "", mnemonic := "jmp", operand1 := "L", operand2 := "", comment := "" }

/-- Line-entry state for line 0 of pass run R2p2. -/
def stR2p2_0L : AsmState :=
  { lineno := 0, address := 0, source_pass := 2, assembly_finished := false, macro_expansion_counter := 0, output := [], symbol_table := [("l", 0)], macros := [], if_stack := [], cross_reference_data := [("l", [-1, 2, -1])], label := "", mnemonic := "jmp", operand1 := "L", operand2 := "", comment := "" }

/-- Processing of line 0 of pass run R2p2. -/
theorem lnR2p2_0 : expand_and_process_line 30 stR2p2_0L "L: NOP" 0 = Except.ok stR2p2_1 := by rfl

/-- Line-entry state for line 1 of pass run R2p2. -/
def stR2p2_1L : AsmState :=
  { lineno := 1, address := 1, source_pass := 2, assembly_finished := false, macro_expansion_counter := 0, output := [0], symbol_table := [("l", 0)], macros := [], if_stack := [], cross_reference_data := [("l", [-1, 2, -1])], label := "l", mnemonic := "nop", operand1 := "", operand2 := "", comment := "" }

/-- Processing of line 1 of pass run R2p2. -/
theorem lnR2p2_1 : expand_and_process_line 30 stR2p2_1L "JMP L" 1 = Except.ok stR2p2_2 := by rfl

/-- Per-line evaluation chain of pass run R2p2. -/
theorem chainR2p2 :
    doPassAux 30 stR2p2_0 progR 0 false [] = Except.ok (stR2p2_2, [1, 4]) :=
  calc doPassAux 30 stR2p2_0 progR 0 false [] = doPassAux 30 stR2p2_1 ["JMP L"] 1 false [1] := dpa_step_ok (by rfl) (by decide) (by decide) (by rfl) lnR2p2_0 (by rfl)
    _ = doPassAux 30 stR2p2_2 [] 2 false [1, 4] := dpa_step_ok (by rfl) (by decide) (by decide) (by rfl) lnR2p2_1 (by rfl)
    _ = Except.ok (stR2p2_2, [1, 4]) := by rfl

/-- Pass 2 of progR as a `do_pass` run. -/
theorem dpR22 : do_pass 30 { stR2p1_2 with source_pass := 2, address := 0, output := [], assembly_finished := false, macro_expansion_counter := 0 } progR = Except.ok (stR2p2_2, [1, 4]) := by
  unfold do_pass
  rw [show ({ ({ stR2p1_2 with source_pass := 2, address := 0, output := [], assembly_finished := false, macro_expansion_counter := 0 } : AsmState) with if_stack := [] } : AsmState) = stR2p2_0 from by rfl]
  rw [chainR2p2]
  try rfl

/-- The full two-pass run of progR, with the per-line location counter traces. -/
theorem runR2 : assembleT 30 stR1p2_2 progR = Except.ok (stR2p2_2, [1, 4], [1, 4]) := by
  unfold assembleT
  rw [show preprocess_macros (reset_state stR1p2_2) progR = Except.ok preR2 from by rfl]
  dsimp only
  rw [dpR21]
  dsimp only
  rw [dpR22]
  try rfl

/-- `assemble` on progR. -/
theorem asmR2 : assemble 30 stR1p2_2 progR = Except.ok stR2p2_2 := by
  unfold assemble
  rw [runR2]
  try rfl

/-! ### Frame lemmas: the expression engine touches only
`cross_reference_data` -/

/-- Inversion of a successful `Except` bind. -/
theorem bindOkInv {A B : Type} {m : Except AsmErr A} {f : A → Except AsmErr B} {b : B}
    (h : (m >>= f) = Except.ok b) : ∃ a, m = Except.ok a ∧ f a = Except.ok b := by
  cases m with
  | ok a => exact ⟨a, rfl, h⟩
  | error e => exact Except.noConfusion h

/-- The fields of interest that the expression engine leaves unchanged
(everything it can change besides these is `cross_reference_data`). -/
def engineFrame (s t : AsmState) : Prop :=
  t.symbol_table = s.symbol_table ∧ t.source_pass = s.source_pass ∧ t.address = s.address

theorem engineFrame_refl (s : AsmState) : engineFrame s s := ⟨rfl, rfl, rfl⟩

theorem engineFrame_trans {a b c : AsmState} (h1 : engineFrame a b) (h2 : engineFrame b c) :
    engineFrame a c := ⟨h2.1.trans h1.1, h2.2.1.trans h1.2.1, h2.2.2.trans h1.2.2⟩

/-- `evaluate_single_term` only records cross references. -/
theorem est_frame {st : AsmState} {ts : String} {v : Int} {st2 : AsmState}
    (h : evaluate_single_term st ts = Except.ok (v, st2)) : engineFrame st st2 := by
  unfold evaluate_single_term at h
  rcases hT : trimL ts.data with _ | ⟨c0, rest0⟩ <;> simp only [hT] at h
  · cases h
    exact ⟨rfl, rfl, rfl⟩
  · repeat' split at h
    all_goals first
      | exact Except.noConfusion h
      | (simp only [Except.ok.injEq, Prod.mk.injEq] at h
         obtain ⟨h1, h2⟩ := h
         subst h2
         exact ⟨rfl, rfl, rfl⟩)

/-- The whole mutual expression engine only records cross references. -/
theorem engine_frame : ∀ fuel : Nat,
    (∀ st cs v cs2 st2, evaluate_expression_it fuel st cs = Except.ok (v, cs2, st2) → engineFrame st st2) ∧
    (∀ acc st cs v cs2 st2, expr_loop fuel acc st cs = Except.ok (v, cs2, st2) → engineFrame st st2) ∧
    (∀ st cs v cs2 st2, parse_expr_term fuel st cs = Except.ok (v, cs2, st2) → engineFrame st st2) ∧
    (∀ acc st cs v cs2 st2, term_loop fuel acc st cs = Except.ok (v, cs2, st2) → engineFrame st st2) ∧
    (∀ st cs v cs2 st2, parse_expr_factor fuel st cs = Except.ok (v, cs2, st2) → engineFrame st st2) := by
  intro fuel
  induction fuel with
  | zero =>
    refine ⟨?_, ?_, ?_, ?_, ?_⟩ <;> intro _ _ _ _ _ <;> first
      | (intro _ h; exact Except.noConfusion h)
      | (intro h; exact Except.noConfusion h)
  | succ n ih =>
    obtain ⟨ih1, ih2, ih3, ih4, ih5⟩ := ih
    refine ⟨?_, ?_, ?_, ?_, ?_⟩
    · intro st cs v cs2 st2 h
      rw [evaluate_expression_it] at h
      obtain ⟨x, h1, h2⟩ := bindOkInv h
      obtain ⟨v1, cs1, s1⟩ := x
      exact engineFrame_trans (ih3 _ _ _ _ _ h1) (ih2 _ _ _ _ _ _ h2)
    · intro acc st cs v cs2 st2 h
      rw [expr_loop] at h
      rcases hgt : get_token cs with ⟨tok, cs1⟩
      rw [hgt] at h
      simp only [] at h
      split at h
      · obtain ⟨x, h1, h2⟩ := bindOkInv h
        obtain ⟨v1, cs3, s1⟩ := x
        exact engineFrame_trans (ih3 _ _ _ _ _ h1) (ih2 _ _ _ _ _ _ h2)
      · cases h; exact engineFrame_refl _
    · intro st cs v cs2 st2 h
      rw [parse_expr_term] at h
      obtain ⟨x, h1, h2⟩ := bindOkInv h
      obtain ⟨v1, cs1, s1⟩ := x
      exact engineFrame_trans (ih5 _ _ _ _ _ h1) (ih4 _ _ _ _ _ _ h2)
    · intro acc st cs v cs2 st2 h
      rw [term_loop] at h
      rcases hgt : get_token cs with ⟨tok, cs1⟩
      rw [hgt] at h
      simp only [] at h
      split at h
      · obtain ⟨x, h1, h2⟩ := bindOkInv h
        obtain ⟨v1, cs3, s1⟩ := x
        split at h2
        · exact Except.noConfusion h2
        · exact engineFrame_trans (ih5 _ _ _ _ _ h1) (ih4 _ _ _ _ _ _ h2)
      · cases h; exact engineFrame_refl _
    · intro st cs v cs2 st2 h
      rw [parse_expr_factor] at h
      rcases hgt : get_token cs with ⟨tok, cs1⟩
      rw [hgt] at h
      simp only [] at h
      split at h
      · obtain ⟨x, h1, h2⟩ := bindOkInv h
        obtain ⟨v1, cs3, s1⟩ := x
        rcases hgt2 : get_token cs3 with ⟨closing, cs4⟩
        rw [hgt2] at h2
        simp only [] at h2
        split at h2
        · cases h2; exact ih1 _ _ _ _ _ h1
        · exact Except.noConfusion h2
      · obtain ⟨x, h1, h2⟩ := bindOkInv h
        obtain ⟨v1, s1⟩ := x
        cases h2
        exact est_frame h1

/-- `evaluate_expression` only records cross references. -/
theorem evaluate_expression_frame {fuel : Nat} {st : AsmState} {e : String} {v : Int} {st2 : AsmState}
    (h : evaluate_expression fuel st e = Except.ok (v, st2)) : engineFrame st st2 := by
  unfold evaluate_expression at h
  obtain ⟨x, h1, h2⟩ := bindOkInv h
  obtain ⟨v1, cs1, s1⟩ := x
  cases h2
  exact (engine_frame fuel).1 _ _ _ _ _ h1

/-- `evaluate_conditional` only records cross references. -/
theorem evaluate_conditional_frame {fuel : Nat} {st : AsmState} {e : String} {b : Bool} {st2 : AsmState}
    (h : evaluate_conditional fuel st e = Except.ok (b, st2)) : engineFrame st st2 := by
  unfold evaluate_conditional at h
  split at h
  · obtain ⟨x, h1, h2⟩ := bindOkInv h
    obtain ⟨v1, s1⟩ := x
    obtain ⟨y, h3, h4⟩ := bindOkInv h2
    obtain ⟨v2, s2⟩ := y
    cases h4
    exact engineFrame_trans (evaluate_expression_frame h1) (evaluate_expression_frame h3)
  · obtain ⟨x, h1, h2⟩ := bindOkInv h
    obtain ⟨v1, s1⟩ := x
    cases h2
    exact evaluate_expression_frame h1

/-! ### Frame lemmas for the pass primitives and handlers -/

/-- What `pass_action` does to the state fields of interest. -/
theorem pass_action_spec {st : AsmState} {sz : Nat} {bs : List Nat} {b : Bool} {st2 : AsmState}
    (h : pass_action st sz bs b = Except.ok st2) :
    st2.address = (st.address + sz) % 65536 ∧ st2.source_pass = st.source_pass ∧
    st2.label = st.label ∧ st2.macro_expansion_counter = st.macro_expansion_counter ∧
    (st.source_pass ≠ 1 → st2.symbol_table = st.symbol_table) := by
  unfold pass_action add_label at h
  obtain ⟨s1, h1, h2⟩ := bindOkInv h
  split at h1
  · split at h1
    · split at h1
      · exact Except.noConfusion h1
      · cases h1; cases h2
        exact ⟨rfl, rfl, rfl, rfl, fun hne => absurd ‹st.source_pass = 1› hne⟩
    · cases h1; cases h2
      exact ⟨rfl, rfl, rfl, rfl, fun _ => rfl⟩
  · cases h1; cases h2
    exact ⟨rfl, rfl, rfl, rfl, fun _ => rfl⟩

/-- `immediate_operand` leaves address, source pass and symbol table alone. -/
theorem immediate_operand_spec {fuel : Nat} {st : AsmState} {is16 : Bool} {st2 : AsmState}
    (h : immediate_operand fuel st is16 = Except.ok st2) :
    st2.address = st.address ∧ st2.source_pass = st.source_pass ∧
    st2.symbol_table = st.symbol_table := by
  unfold immediate_operand at h
  split at h
  · cases h; exact ⟨rfl, rfl, rfl⟩
  · obtain ⟨x, h1, h2⟩ := bindOkInv h
    obtain ⟨v1, s1⟩ := x
    have hf := evaluate_expression_frame h1
    simp only [] at h2
    split at h2 <;> (cases h2; exact ⟨hf.2.2, hf.2.1, hf.1⟩)

/-- `address16` leaves address, source pass and symbol table alone. -/
theorem address16_spec {fuel : Nat} {st : AsmState} {op : String} {st2 : AsmState}
    (h : address16 fuel st op = Except.ok st2) :
    st2.address = st.address ∧ st2.source_pass = st.source_pass ∧
    st2.symbol_table = st.symbol_table := by
  unfold address16 at h
  split at h
  · cases h; exact ⟨rfl, rfl, rfl⟩
  · obtain ⟨x, h1, h2⟩ := bindOkInv h
    obtain ⟨v1, s1⟩ := x
    simp only [] at h2
    cases h2
    have hf := evaluate_expression_frame h1
    exact ⟨hf.2.2, hf.2.1, hf.1⟩

/-- A handler that, on success, preserves the source pass and, in pass 2,
the symbol table. -/
def Pres2 (hd : Handler) : Prop :=
  ∀ fuel st st2, hd fuel st = Except.ok st2 →
    st2.source_pass = st.source_pass ∧
    (st.source_pass = 2 → st2.symbol_table = st.symbol_table)

/-- A handler that always advances the location counter by a fixed size
(and satisfies the `Pres2` frame on the way). -/
def HFrame (hd : Handler) (k : Nat) : Prop :=
  ∀ fuel st st2, hd fuel st = Except.ok st2 →
    st2.address = (st.address + k) % 65536 ∧ st2.source_pass = st.source_pass ∧
    (st.source_pass = 2 → st2.symbol_table = st.symbol_table)

/-- A handler that never moves the location counter. -/
def AddrKeep (hd : Handler) : Prop :=
  ∀ fuel st st2, hd fuel st = Except.ok st2 → st2.address = st.address

/-- The relational property behind pass agreement: the result address
depends only on the input address and the parsed operand fields, not on
the pass or the symbol table. -/
def OperandDetermined (hd : Handler) : Prop :=
  ∀ fuel1 fuel2 st1 st2 r1 r2,
    st1.address = st2.address → st1.mnemonic = st2.mnemonic →
    st1.operand1 = st2.operand1 → st1.operand2 = st2.operand2 →
    hd fuel1 st1 = Except.ok r1 → hd fuel2 st2 = Except.ok r2 → r1.address = r2.address

theorem pres2_of_hframe {hd : Handler} {k : Nat} (hf : HFrame hd k) : Pres2 hd :=
  fun fuel st st2 h => ⟨(hf fuel st st2 h).2.1, (hf fuel st st2 h).2.2⟩

theorem od_of_hframe {hd : Handler} {k : Nat} (hf : HFrame hd k) : OperandDetermined hd := by
  intro f1 f2 s1 s2 r1 r2 ha _ _ _ h1 h2
  rw [(hf f1 s1 r1 h1).1, (hf f2 s2 r2 h2).1, ha]

theorem od_of_addrkeep {hd : Handler} (hk : AddrKeep hd) : OperandDetermined hd := by
  intro f1 f2 s1 s2 r1 r2 ha _ _ _ h1 h2
  rw [hk f1 s1 r1 h1, hk f2 s2 r2 h2, ha]

/-- `HFrame` conclusion extracted from a terminal `pass_action`. -/
theorem hframe_of_pa {st : AsmState} {k : Nat} {bs : List Nat} {b : Bool} {st2 : AsmState}
    (h : pass_action st k bs b = Except.ok st2) :
    st2.address = (st.address + k) % 65536 ∧ st2.source_pass = st.source_pass ∧
    (st.source_pass = 2 → st2.symbol_table = st.symbol_table) :=
  ⟨(pass_action_spec h).1, (pass_action_spec h).2.1,
   fun h2 => (pass_action_spec h).2.2.2.2 (by rw [h2]; decide)⟩

/-- `HFrame` conclusion for a `pass_action` followed by
`immediate_operand`. -/
theorem hframe_pa_imm {st s1 : AsmState} {k : Nat} {bs : List Nat} {b : Bool} {fuel : Nat}
    {is16 : Bool} {st2 : AsmState}
    (h1 : pass_action st k bs b = Except.ok s1)
    (h2 : immediate_operand fuel s1 is16 = Except.ok st2) :
    st2.address = (st.address + k) % 65536 ∧ st2.source_pass = st.source_pass ∧
    (st.source_pass = 2 → st2.symbol_table = st.symbol_table) := by
  have p := pass_action_spec h1
  have q := immediate_operand_spec h2
  refine ⟨q.1.trans p.1, q.2.1.trans p.2.1, fun hp => ?_⟩
  exact q.2.2.trans (p.2.2.2.2 (by rw [hp]; decide))

/-- `HFrame` conclusion for a `pass_action` followed by `address16`. -/
theorem hframe_pa_addr {st s1 : AsmState} {k : Nat} {bs : List Nat} {b : Bool} {fuel : Nat}
    {op : String} {st2 : AsmState}
    (h1 : pass_action st k bs b = Except.ok s1)
    (h2 : address16 fuel s1 op = Except.ok st2) :
    st2.address = (st.address + k) % 65536 ∧ st2.source_pass = st.source_pass ∧
    (st.source_pass = 2 → st2.symbol_table = st.symbol_table) := by
  have p := pass_action_spec h1
  have q := address16_spec h2
  refine ⟨q.1.trans p.1, q.2.1.trans p.2.1, fun hp => ?_⟩
  exact q.2.2.trans (p.2.2.2.2 (by rw [hp]; decide))

/-- Frame of handler `nop`. -/
theorem hframe_nop : HFrame nop 1 := by
  intro fuel st st2 h
  unfold nop at h
  obtain ⟨u1, hu1, h⟩ := bindOkInv h
  try simp only [] at h
  exact hframe_of_pa h

/-- Frame of handler `rlc`. -/
theorem hframe_rlc : HFrame rlc 1 := by
  intro fuel st st2 h
  unfold rlc at h
  obtain ⟨u1, hu1, h⟩ := bindOkInv h
  try simp only [] at h
  exact hframe_of_pa h

/-- Frame of handler `rrc`. -/
theorem hframe_rrc : HFrame rrc 1 := by
  intro fuel st st2 h
  unfold rrc at h
  obtain ⟨u1, hu1, h⟩ := bindOkInv h
  try simp only [] at h
  exact hframe_of_pa h

/-- Frame of handler `ral`. -/
theorem hframe_ral : HFrame ral 1 := by
  intro fuel st st2 h
  unfold ral at h
  obtain ⟨u1, hu1, h⟩ := bindOkInv h
  try simp only [] at h
  exact hframe_of_pa h

/-- Frame of handler `rar`. -/
theorem hframe_rar : HFrame rar 1 := by
  intro fuel st st2 h
  unfold rar at h
  obtain ⟨u1, hu1, h⟩ := bindOkInv h
  try simp only [] at h
  exact hframe_of_pa h

/-- Frame of handler `daa`. -/
theorem hframe_daa : HFrame daa 1 := by
  intro fuel st st2 h
  unfold daa at h
  obtain ⟨u1, hu1, h⟩ := bindOkInv h
  try simp only [] at h
  exact hframe_of_pa h

/-- Frame of handler `cma`. -/
theorem hframe_cma : HFrame cma 1 := by
  intro fuel st st2 h
  unfold cma at h
  obtain ⟨u1, hu1, h⟩ := bindOkInv h
  try simp only [] at h
  exact hframe_of_pa h

/-- Frame of handler `stc`. -/
theorem hframe_stc : HFrame stc 1 := by
  intro fuel st st2 h
  unfold stc at h
  obtain ⟨u1, hu1, h⟩ := bindOkInv h
  try simp only [] at h
  exact hframe_of_pa h

/-- Frame of handler `cmc`. -/
theorem hframe_cmc : HFrame cmc 1 := by
  intro fuel st st2 h
  unfold cmc at h
  obtain ⟨u1, hu1, h⟩ := bindOkInv h
  try simp only [] at h
  exact hframe_of_pa h

/-- Frame of handler `hlt`. -/
theorem hframe_hlt : HFrame hlt 1 := by
  intro fuel st st2 h
  unfold hlt at h
  obtain ⟨u1, hu1, h⟩ := bindOkInv h
  try simp only [] at h
  exact hframe_of_pa h

/-- Frame of handler `rnz`. -/
theorem hframe_rnz : HFrame rnz 1 := by
  intro fuel st st2 h
  unfold rnz at h
  obtain ⟨u1, hu1, h⟩ := bindOkInv h
  try simp only [] at h
  exact hframe_of_pa h

/-- Frame of handler `rz`. -/
theorem hframe_rz : HFrame rz 1 := by
  intro fuel st st2 h
  unfold rz at h
  obtain ⟨u1, hu1, h⟩ := bindOkInv h
  try simp only [] at h
  exact hframe_of_pa h

/-- Frame of handler `ret`. -/
theorem hframe_ret : HFrame ret 1 := by
  intro fuel st st2 h
  unfold ret at h
  obtain ⟨u1, hu1, h⟩ := bindOkInv h
  try simp only [] at h
  exact hframe_of_pa h

/-- Frame of handler `rnc`. -/
theorem hframe_rnc : HFrame rnc 1 := by
  intro fuel st st2 h
  unfold rnc at h
  obtain ⟨u1, hu1, h⟩ := bindOkInv h
  try simp only [] at h
  exact hframe_of_pa h

/-- Frame of handler `rc`. -/
theorem hframe_rc : HFrame rc 1 := by
  intro fuel st st2 h
  unfold rc at h
  obtain ⟨u1, hu1, h⟩ := bindOkInv h
  try simp only [] at h
  exact hframe_of_pa h

/-- Frame of handler `rpo`. -/
theorem hframe_rpo : HFrame rpo 1 := by
  intro fuel st st2 h
  unfold rpo at h
  obtain ⟨u1, hu1, h⟩ := bindOkInv h
  try simp only [] at h
  exact hframe_of_pa h

/-- Frame of handler `xthl`. -/
theorem hframe_xthl : HFrame xthl 1 := by
  intro fuel st st2 h
  unfold xthl at h
  obtain ⟨u1, hu1, h⟩ := bindOkInv h
  try simp only [] at h
  exact hframe_of_pa h

/-- Frame of handler `rpe`. -/
theorem hframe_rpe : HFrame rpe 1 := by
  intro fuel st st2 h
  unfold rpe at h
  obtain ⟨u1, hu1, h⟩ := bindOkInv h
  try simp only [] at h
  exact hframe_of_pa h

/-- Frame of handler `pchl`. -/
theorem hframe_pchl : HFrame pchl 1 := by
  intro fuel st st2 h
  unfold pchl at h
  obtain ⟨u1, hu1, h⟩ := bindOkInv h
  try simp only [] at h
  exact hframe_of_pa h

/-- Frame of handler `xchg`. -/
theorem hframe_xchg : HFrame xchg 1 := by
  intro fuel st st2 h
  unfold xchg at h
  obtain ⟨u1, hu1, h⟩ := bindOkInv h
  try simp only [] at h
  exact hframe_of_pa h

/-- Frame of handler `rp`. -/
theorem hframe_rp : HFrame rp 1 := by
  intro fuel st st2 h
  unfold rp at h
  obtain ⟨u1, hu1, h⟩ := bindOkInv h
  try simp only [] at h
  exact hframe_of_pa h

/-- Frame of handler `di`. -/
theorem hframe_di : HFrame di 1 := by
  intro fuel st st2 h
  unfold di at h
  obtain ⟨u1, hu1, h⟩ := bindOkInv h
  try simp only [] at h
  exact hframe_of_pa h

/-- Frame of handler `rm`. -/
theorem hframe_rm : HFrame rm 1 := by
  intro fuel st st2 h
  unfold rm at h
  obtain ⟨u1, hu1, h⟩ := bindOkInv h
  try simp only [] at h
  exact hframe_of_pa h

/-- Frame of handler `sphl`. -/
theorem hframe_sphl : HFrame sphl 1 := by
  intro fuel st st2 h
  unfold sphl at h
  obtain ⟨u1, hu1, h⟩ := bindOkInv h
  try simp only [] at h
  exact hframe_of_pa h

/-- Frame of handler `ei`. -/
theorem hframe_ei : HFrame ei 1 := by
  intro fuel st st2 h
  unfold ei at h
  obtain ⟨u1, hu1, h⟩ := bindOkInv h
  try simp only [] at h
  exact hframe_of_pa h

/-- Frame of handler `sim`. -/
theorem hframe_sim : HFrame sim 1 := by
  intro fuel st st2 h
  unfold sim at h
  obtain ⟨u1, hu1, h⟩ := bindOkInv h
  try simp only [] at h
  exact hframe_of_pa h

/-- Frame of handler `rim`. -/
theorem hframe_rim : HFrame rim 1 := by
  intro fuel st st2 h
  unfold rim at h
  obtain ⟨u1, hu1, h⟩ := bindOkInv h
  try simp only [] at h
  exact hframe_of_pa h

/-- Frame of handler `inr`. -/
theorem hframe_inr : HFrame inr 1 := by
  intro fuel st st2 h
  unfold inr at h
  obtain ⟨u1, hu1, h⟩ := bindOkInv h
  try simp only [] at h
  obtain ⟨r1, hr1, h⟩ := bindOkInv h
  try simp only [] at h
  exact hframe_of_pa h

/-- Frame of handler `dcr`. -/
theorem hframe_dcr : HFrame dcr 1 := by
  intro fuel st st2 h
  unfold dcr at h
  obtain ⟨u1, hu1, h⟩ := bindOkInv h
  try simp only [] at h
  obtain ⟨r1, hr1, h⟩ := bindOkInv h
  try simp only [] at h
  exact hframe_of_pa h

/-- Frame of handler `add`. -/
theorem hframe_add : HFrame add 1 := by
  intro fuel st st2 h
  unfold add at h
  obtain ⟨u1, hu1, h⟩ := bindOkInv h
  try simp only [] at h
  obtain ⟨r1, hr1, h⟩ := bindOkInv h
  try simp only [] at h
  exact hframe_of_pa h

/-- Frame of handler `adc`. -/
theorem hframe_adc : HFrame adc 1 := by
  intro fuel st st2 h
  unfold adc at h
  obtain ⟨u1, hu1, h⟩ := bindOkInv h
  try simp only [] at h
  obtain ⟨r1, hr1, h⟩ := bindOkInv h
  try simp only [] at h
  exact hframe_of_pa h

/-- Frame of handler `sub`. -/
theorem hframe_sub : HFrame sub 1 := by
  intro fuel st st2 h
  unfold sub at h
  obtain ⟨u1, hu1, h⟩ := bindOkInv h
  try simp only [] at h
  obtain ⟨r1, hr1, h⟩ := bindOkInv h
  try simp only [] at h
  exact hframe_of_pa h

/-- Frame of handler `sbb`. -/
theorem hframe_sbb : HFrame sbb 1 := by
  intro fuel st st2 h
  unfold sbb at h
  obtain ⟨u1, hu1, h⟩ := bindOkInv h
  try simp only [] at h
  obtain ⟨r1, hr1, h⟩ := bindOkInv h
  try simp only [] at h
  exact hframe_of_pa h

/-- Frame of handler `ana`. -/
theorem hframe_ana : HFrame ana 1 := by
  intro fuel st st2 h
  unfold ana at h
  obtain ⟨u1, hu1, h⟩ := bindOkInv h
  try simp only [] at h
  obtain ⟨r1, hr1, h⟩ := bindOkInv h
  try simp only [] at h
  exact hframe_of_pa h

/-- Frame of handler `xra`. -/
theorem hframe_xra : HFrame xra 1 := by
  intro fuel st st2 h
  unfold xra at h
  obtain ⟨u1, hu1, h⟩ := bindOkInv h
  try simp only [] at h
  obtain ⟨r1, hr1, h⟩ := bindOkInv h
  try simp only [] at h
  exact hframe_of_pa h

/-- Frame of handler `ora`. -/
theorem hframe_ora : HFrame ora 1 := by
  intro fuel st st2 h
  unfold ora at h
  obtain ⟨u1, hu1, h⟩ := bindOkInv h
  try simp only [] at h
  obtain ⟨r1, hr1, h⟩ := bindOkInv h
  try simp only [] at h
  exact hframe_of_pa h

/-- Frame of handler `cmp`. -/
theorem hframe_cmp : HFrame cmp 1 := by
  intro fuel st st2 h
  unfold cmp at h
  obtain ⟨u1, hu1, h⟩ := bindOkInv h
  try simp only [] at h
  obtain ⟨r1, hr1, h⟩ := bindOkInv h
  try simp only [] at h
  exact hframe_of_pa h

/-- Frame of handler `inx`. -/
theorem hframe_inx : HFrame inx 1 := by
  intro fuel st st2 h
  unfold inx at h
  obtain ⟨u1, hu1, h⟩ := bindOkInv h
  try simp only [] at h
  obtain ⟨r1, hr1, h⟩ := bindOkInv h
  try simp only [] at h
  exact hframe_of_pa h

/-- Frame of handler `dad`. -/
theorem hframe_dad : HFrame dad 1 := by
  intro fuel st st2 h
  unfold dad at h
  obtain ⟨u1, hu1, h⟩ := bindOkInv h
  try simp only [] at h
  obtain ⟨r1, hr1, h⟩ := bindOkInv h
  try simp only [] at h
  exact hframe_of_pa h

/-- Frame of handler `dcx`. -/
theorem hframe_dcx : HFrame dcx 1 := by
  intro fuel st st2 h
  unfold dcx at h
  obtain ⟨u1, hu1, h⟩ := bindOkInv h
  try simp only [] at h
  obtain ⟨r1, hr1, h⟩ := bindOkInv h
  try simp only [] at h
  exact hframe_of_pa h

/-- Frame of handler `pop`. -/
theorem hframe_pop : HFrame pop 1 := by
  intro fuel st st2 h
  unfold pop at h
  obtain ⟨u1, hu1, h⟩ := bindOkInv h
  try simp only [] at h
  obtain ⟨r1, hr1, h⟩ := bindOkInv h
  try simp only [] at h
  exact hframe_of_pa h

/-- Frame of handler `push`. -/
theorem hframe_push : HFrame push 1 := by
  intro fuel st st2 h
  unfold push at h
  obtain ⟨u1, hu1, h⟩ := bindOkInv h
  try simp only [] at h
  obtain ⟨r1, hr1, h⟩ := bindOkInv h
  try simp only [] at h
  exact hframe_of_pa h

/-- Frame of handler `adi`. -/
theorem hframe_adi : HFrame adi 2 := by
  intro fuel st st2 h
  unfold adi at h
  obtain ⟨u1, hu1, h⟩ := bindOkInv h
  try simp only [] at h
  obtain ⟨s1, h1, h⟩ := bindOkInv h
  try simp only [] at h
  exact hframe_pa_imm h1 h

/-- Frame of handler `aci`. -/
theorem hframe_aci : HFrame aci 2 := by
  intro fuel st st2 h
  unfold aci at h
  obtain ⟨u1, hu1, h⟩ := bindOkInv h
  try simp only [] at h
  obtain ⟨s1, h1, h⟩ := bindOkInv h
  try simp only [] at h
  exact hframe_pa_imm h1 h

/-- Frame of handler `i80_out`. -/
theorem hframe_i80_out : HFrame i80_out 2 := by
  intro fuel st st2 h
  unfold i80_out at h
  obtain ⟨u1, hu1, h⟩ := bindOkInv h
  try simp only [] at h
  obtain ⟨s1, h1, h⟩ := bindOkInv h
  try simp only [] at h
  exact hframe_pa_imm h1 h

/-- Frame of handler `sui`. -/
theorem hframe_sui : HFrame sui 2 := by
  intro fuel st st2 h
  unfold sui at h
  obtain ⟨u1, hu1, h⟩ := bindOkInv h
  try simp only [] at h
  obtain ⟨s1, h1, h⟩ := bindOkInv h
  try simp only [] at h
  exact hframe_pa_imm h1 h

/-- Frame of handler `i80_in`. -/
theorem hframe_i80_in : HFrame i80_in 2 := by
  intro fuel st st2 h
  unfold i80_in at h
  obtain ⟨u1, hu1, h⟩ := bindOkInv h
  try simp only [] at h
  obtain ⟨s1, h1, h⟩ := bindOkInv h
  try simp only [] at h
  exact hframe_pa_imm h1 h

/-- Frame of handler `sbi`. -/
theorem hframe_sbi : HFrame sbi 2 := by
  intro fuel st st2 h
  unfold sbi at h
  obtain ⟨u1, hu1, h⟩ := bindOkInv h
  try simp only [] at h
  obtain ⟨s1, h1, h⟩ := bindOkInv h
  try simp only [] at h
  exact hframe_pa_imm h1 h

/-- Frame of handler `ani`. -/
theorem hframe_ani : HFrame ani 2 := by
  intro fuel st st2 h
  unfold ani at h
  obtain ⟨u1, hu1, h⟩ := bindOkInv h
  try simp only [] at h
  obtain ⟨s1, h1, h⟩ := bindOkInv h
  try simp only [] at h
  exact hframe_pa_imm h1 h

/-- Frame of handler `xri`. -/
theorem hframe_xri : HFrame xri 2 := by
  intro fuel st st2 h
  unfold xri at h
  obtain ⟨u1, hu1, h⟩ := bindOkInv h
  try simp only [] at h
  obtain ⟨s1, h1, h⟩ := bindOkInv h
  try simp only [] at h
  exact hframe_pa_imm h1 h

/-- Frame of handler `ori`. -/
theorem hframe_ori : HFrame ori 2 := by
  intro fuel st st2 h
  unfold ori at h
  obtain ⟨u1, hu1, h⟩ := bindOkInv h
  try simp only [] at h
  obtain ⟨s1, h1, h⟩ := bindOkInv h
  try simp only [] at h
  exact hframe_pa_imm h1 h

/-- Frame of handler `cpi`. -/
theorem hframe_cpi : HFrame cpi 2 := by
  intro fuel st st2 h
  unfold cpi at h
  obtain ⟨u1, hu1, h⟩ := bindOkInv h
  try simp only [] at h
  obtain ⟨s1, h1, h⟩ := bindOkInv h
  try simp only [] at h
  exact hframe_pa_imm h1 h

/-- Frame of handler `shld`. -/
theorem hframe_shld : HFrame shld 3 := by
  intro fuel st st2 h
  unfold shld at h
  obtain ⟨u1, hu1, h⟩ := bindOkInv h
  try simp only [] at h
  obtain ⟨s1, h1, h⟩ := bindOkInv h
  try simp only [] at h
  exact hframe_pa_addr h1 h

/-- Frame of handler `lhld`. -/
theorem hframe_lhld : HFrame lhld 3 := by
  intro fuel st st2 h
  unfold lhld at h
  obtain ⟨u1, hu1, h⟩ := bindOkInv h
  try simp only [] at h
  obtain ⟨s1, h1, h⟩ := bindOkInv h
  try simp only [] at h
  exact hframe_pa_addr h1 h

/-- Frame of handler `sta`. -/
theorem hframe_sta : HFrame sta 3 := by
  intro fuel st st2 h
  unfold sta at h
  obtain ⟨u1, hu1, h⟩ := bindOkInv h
  try simp only [] at h
  obtain ⟨s1, h1, h⟩ := bindOkInv h
  try simp only [] at h
  exact hframe_pa_addr h1 h

/-- Frame of handler `lda`. -/
theorem hframe_lda : HFrame lda 3 := by
  intro fuel st st2 h
  unfold lda at h
  obtain ⟨u1, hu1, h⟩ := bindOkInv h
  try simp only [] at h
  obtain ⟨s1, h1, h⟩ := bindOkInv h
  try simp only [] at h
  exact hframe_pa_addr h1 h

/-- Frame of handler `jnz`. -/
theorem hframe_jnz : HFrame jnz 3 := by
  intro fuel st st2 h
  unfold jnz at h
  obtain ⟨u1, hu1, h⟩ := bindOkInv h
  try simp only [] at h
  obtain ⟨s1, h1, h⟩ := bindOkInv h
  try simp only [] at h
  exact hframe_pa_addr h1 h

/-- Frame of handler `jmp`. -/
theorem hframe_jmp : HFrame jmp 3 := by
  intro fuel st st2 h
  unfold jmp at h
  obtain ⟨u1, hu1, h⟩ := bindOkInv h
  try simp only [] at h
  obtain ⟨s1, h1, h⟩ := bindOkInv h
  try simp only [] at h
  exact hframe_pa_addr h1 h

/-- Frame of handler `cnz`. -/
theorem hframe_cnz : HFrame cnz 3 := by
  intro fuel st st2 h
  unfold cnz at h
  obtain ⟨u1, hu1, h⟩ := bindOkInv h
  try simp only [] at h
  obtain ⟨s1, h1, h⟩ := bindOkInv h
  try simp only [] at h
  exact hframe_pa_addr h1 h

/-- Frame of handler `jz`. -/
theorem hframe_jz : HFrame jz 3 := by
  intro fuel st st2 h
  unfold jz at h
  obtain ⟨u1, hu1, h⟩ := bindOkInv h
  try simp only [] at h
  obtain ⟨s1, h1, h⟩ := bindOkInv h
  try simp only [] at h
  exact hframe_pa_addr h1 h

/-- Frame of handler `cz`. -/
theorem hframe_cz : HFrame cz 3 := by
  intro fuel st st2 h
  unfold cz at h
  obtain ⟨u1, hu1, h⟩ := bindOkInv h
  try simp only [] at h
  obtain ⟨s1, h1, h⟩ := bindOkInv h
  try simp only [] at h
  exact hframe_pa_addr h1 h

/-- Frame of handler `call`. -/
theorem hframe_call : HFrame call 3 := by
  intro fuel st st2 h
  unfold call at h
  obtain ⟨u1, hu1, h⟩ := bindOkInv h
  try simp only [] at h
  obtain ⟨s1, h1, h⟩ := bindOkInv h
  try simp only [] at h
  exact hframe_pa_addr h1 h

/-- Frame of handler `jnc`. -/
theorem hframe_jnc : HFrame jnc 3 := by
  intro fuel st st2 h
  unfold jnc at h
  obtain ⟨u1, hu1, h⟩ := bindOkInv h
  try simp only [] at h
  obtain ⟨s1, h1, h⟩ := bindOkInv h
  try simp only [] at h
  exact hframe_pa_addr h1 h

/-- Frame of handler `cnc`. -/
theorem hframe_cnc : HFrame cnc 3 := by
  intro fuel st st2 h
  unfold cnc at h
  obtain ⟨u1, hu1, h⟩ := bindOkInv h
  try simp only [] at h
  obtain ⟨s1, h1, h⟩ := bindOkInv h
  try simp only [] at h
  exact hframe_pa_addr h1 h

/-- Frame of handler `jc`. -/
theorem hframe_jc : HFrame jc 3 := by
  intro fuel st st2 h
  unfold jc at h
  obtain ⟨u1, hu1, h⟩ := bindOkInv h
  try simp only [] at h
  obtain ⟨s1, h1, h⟩ := bindOkInv h
  try simp only [] at h
  exact hframe_pa_addr h1 h

/-- Frame of handler `cc`. -/
theorem hframe_cc : HFrame cc 3 := by
  intro fuel st st2 h
  unfold cc at h
  obtain ⟨u1, hu1, h⟩ := bindOkInv h
  try simp only [] at h
  obtain ⟨s1, h1, h⟩ := bindOkInv h
  try simp only [] at h
  exact hframe_pa_addr h1 h

/-- Frame of handler `jpe`. -/
theorem hframe_jpe : HFrame jpe 3 := by
  intro fuel st st2 h
  unfold jpe at h
  obtain ⟨u1, hu1, h⟩ := bindOkInv h
  try simp only [] at h
  obtain ⟨s1, h1, h⟩ := bindOkInv h
  try simp only [] at h
  exact hframe_pa_addr h1 h

/-- Frame of handler `jpo`. -/
theorem hframe_jpo : HFrame jpo 3 := by
  intro fuel st st2 h
  unfold jpo at h
  obtain ⟨u1, hu1, h⟩ := bindOkInv h
  try simp only [] at h
  obtain ⟨s1, h1, h⟩ := bindOkInv h
  try simp only [] at h
  exact hframe_pa_addr h1 h

/-- Frame of handler `cpo`. -/
theorem hframe_cpo : HFrame cpo 3 := by
  intro fuel st st2 h
  unfold cpo at h
  obtain ⟨u1, hu1, h⟩ := bindOkInv h
  try simp only [] at h
  obtain ⟨s1, h1, h⟩ := bindOkInv h
  try simp only [] at h
  exact hframe_pa_addr h1 h

/-- Frame of handler `cpe`. -/
theorem hframe_cpe : HFrame cpe 3 := by
  intro fuel st st2 h
  unfold cpe at h
  obtain ⟨u1, hu1, h⟩ := bindOkInv h
  try simp only [] at h
  obtain ⟨s1, h1, h⟩ := bindOkInv h
  try simp only [] at h
  exact hframe_pa_addr h1 h

/-- Frame of handler `jp`. -/
theorem hframe_jp : HFrame jp 3 := by
  intro fuel st st2 h
  unfold jp at h
  obtain ⟨u1, hu1, h⟩ := bindOkInv h
  try simp only [] at h
  obtain ⟨s1, h1, h⟩ := bindOkInv h
  try simp only [] at h
  exact hframe_pa_addr h1 h

/-- Frame of handler `cp`. -/
theorem hframe_cp : HFrame cp 3 := by
  intro fuel st st2 h
  unfold cp at h
  obtain ⟨u1, hu1, h⟩ := bindOkInv h
  try simp only [] at h
  obtain ⟨s1, h1, h⟩ := bindOkInv h
  try simp only [] at h
  exact hframe_pa_addr h1 h

/-- Frame of handler `jm`. -/
theorem hframe_jm : HFrame jm 3 := by
  intro fuel st st2 h
  unfold jm at h
  obtain ⟨u1, hu1, h⟩ := bindOkInv h
  try simp only [] at h
  obtain ⟨s1, h1, h⟩ := bindOkInv h
  try simp only [] at h
  exact hframe_pa_addr h1 h

/-- Frame of handler `cm`. -/
theorem hframe_cm : HFrame cm 3 := by
  intro fuel st st2 h
  unfold cm at h
  obtain ⟨u1, hu1, h⟩ := bindOkInv h
  try simp only [] at h
  obtain ⟨s1, h1, h⟩ := bindOkInv h
  try simp only [] at h
  exact hframe_pa_addr h1 h

/-- Frame of handler `mvi`. -/
theorem hframe_mvi : HFrame mvi 2 := by
  intro fuel st st2 h
  unfold mvi at h
  obtain ⟨u1, hu1, h⟩ := bindOkInv h
  try simp only [] at h
  obtain ⟨r1, hr1, h⟩ := bindOkInv h
  try simp only [] at h
  obtain ⟨s1, h1, h⟩ := bindOkInv h
  try simp only [] at h
  exact hframe_pa_imm h1 h

/-- Frame of handler `lxi`. -/
theorem hframe_lxi : HFrame lxi 3 := by
  intro fuel st st2 h
  unfold lxi at h
  obtain ⟨u1, hu1, h⟩ := bindOkInv h
  try simp only [] at h
  obtain ⟨r1, hr1, h⟩ := bindOkInv h
  try simp only [] at h
  obtain ⟨s1, h1, h⟩ := bindOkInv h
  try simp only [] at h
  exact hframe_pa_imm h1 h

/-- Frame of handler `stax`. -/
theorem hframe_stax : HFrame stax 1 := by
  intro fuel st st2 h
  unfold stax at h
  obtain ⟨u1, hu1, h⟩ := bindOkInv h
  try simp only [] at h
  split at h
  · exact hframe_of_pa h
  · split at h
    · exact hframe_of_pa h
    · exact Except.noConfusion h

/-- Frame of handler `ldax`. -/
theorem hframe_ldax : HFrame ldax 1 := by
  intro fuel st st2 h
  unfold ldax at h
  obtain ⟨u1, hu1, h⟩ := bindOkInv h
  try simp only [] at h
  split at h
  · exact hframe_of_pa h
  · split at h
    · exact hframe_of_pa h
    · exact Except.noConfusion h

/-- Frame of handler `mov`. -/
theorem hframe_mov : HFrame mov 1 := by
  intro fuel st st2 h
  unfold mov at h
  obtain ⟨u1, hu1, h⟩ := bindOkInv h
  try simp only [] at h
  obtain ⟨r1, hr1, h⟩ := bindOkInv h
  try simp only [] at h
  obtain ⟨r2, hr2, h⟩ := bindOkInv h
  try simp only [] at h
  exact hframe_of_pa h

/-- Frame of handler `rst`. -/
theorem hframe_rst : HFrame rst 1 := by
  intro fuel st st2 h
  unfold rst at h
  obtain ⟨u1, hu1, h⟩ := bindOkInv h
  try simp only [] at h
  split at h
  · exact Except.noConfusion h
  · split at h
    · exact hframe_of_pa h
    · exact Except.noConfusion h

/-! ### Frames for the directive handlers -/

theorem pres2_name : Pres2 name := by
  intro fuel st st2 h
  unfold name at h
  cases h
  exact ⟨rfl, fun _ => rfl⟩

theorem pres2_title : Pres2 title := by
  intro fuel st st2 h
  unfold title at h
  cases h
  exact ⟨rfl, fun _ => rfl⟩

theorem pres2_end_directive : Pres2 end_directive := by
  intro fuel st st2 h
  unfold end_directive at h
  obtain ⟨u1, hu1, h⟩ := bindOkInv h
  try simp only [] at h
  cases h
  exact ⟨rfl, fun _ => rfl⟩

theorem addrkeep_name : AddrKeep name := by
  intro fuel st st2 h
  unfold name at h
  cases h
  rfl

theorem addrkeep_title : AddrKeep title := by
  intro fuel st st2 h
  unfold title at h
  cases h
  rfl

theorem addrkeep_end_directive : AddrKeep end_directive := by
  intro fuel st st2 h
  unfold end_directive at h
  obtain ⟨u1, hu1, h⟩ := bindOkInv h
  try simp only [] at h
  cases h
  rfl

theorem pres2_equ : Pres2 equ := by
  intro fuel st st2 h
  unfold equ at h
  split at h
  · exact Except.noConfusion h
  · obtain ⟨u1, hu1, h⟩ := bindOkInv h
    try simp only [] at h
    obtain ⟨x, h1, h⟩ := bindOkInv h
    obtain ⟨v1, s1⟩ := x
    try simp only [] at h
    have f1 := evaluate_expression_frame h1
    split at h
    · split at h
      · exact Except.noConfusion h
      · cases h
        refine ⟨f1.2.1, fun hp => ?_⟩
        exact absurd (‹s1.source_pass = 1›.symm.trans (f1.2.1.trans hp)) (by decide)
    · cases h
      exact ⟨f1.2.1, fun _ => f1.1⟩

theorem addrkeep_equ : AddrKeep equ := by
  intro fuel st st2 h
  unfold equ at h
  split at h
  · exact Except.noConfusion h
  · obtain ⟨u1, hu1, h⟩ := bindOkInv h
    try simp only [] at h
    obtain ⟨x, h1, h⟩ := bindOkInv h
    obtain ⟨v1, s1⟩ := x
    try simp only [] at h
    have f1 := evaluate_expression_frame h1
    split at h
    · split at h
      · exact Except.noConfusion h
      · cases h
        exact f1.2.2
    · cases h
      exact f1.2.2

theorem pres2_org : Pres2 org := by
  intro fuel st st2 h
  unfold org at h
  obtain ⟨u1, hu1, h⟩ := bindOkInv h
  try simp only [] at h
  obtain ⟨x, h1, h⟩ := bindOkInv h
  obtain ⟨v1, s1⟩ := x
  try simp only [] at h
  have f1 := evaluate_expression_frame h1
  split at h
  · split at h
    · cases h; exact ⟨f1.2.1, fun _ => f1.1⟩
    · cases h; exact ⟨f1.2.1, fun _ => f1.1⟩
  · cases h; exact ⟨f1.2.1, fun _ => f1.1⟩

theorem pres2_ds : Pres2 ds := by
  intro fuel st st2 h
  unfold ds at h
  obtain ⟨u1, hu1, h⟩ := bindOkInv h
  try simp only [] at h
  obtain ⟨x, h1, h⟩ := bindOkInv h
  obtain ⟨v1, s1⟩ := x
  try simp only [] at h
  have f1 := evaluate_expression_frame h1
  split at h
  · exact Except.noConfusion h
  · obtain ⟨y, h2, h⟩ := bindOkInv h
    obtain ⟨fv, s2⟩ := y
    try simp only [] at h
    have f2 : engineFrame s1 s2 := by
      split at h2
      · obtain ⟨z, h3, h4⟩ := bindOkInv h2
        obtain ⟨v2, s3⟩ := z
        try simp only [] at h4
        cases h4
        exact evaluate_expression_frame h3
      · cases h2
        exact engineFrame_refl _
    split at h
    · have p := pass_action_spec h
      refine ⟨p.2.1.trans (f2.2.1.trans f1.2.1), fun hp => ?_⟩
      have hne : s2.source_pass ≠ 1 := by rw [f2.2.1, f1.2.1, hp]; decide
      exact (p.2.2.2.2 hne).trans (f2.1.trans f1.1)
    · have p := pass_action_spec h
      refine ⟨p.2.1.trans (f2.2.1.trans f1.2.1), fun hp => ?_⟩
      have hne : s2.source_pass ≠ 1 := by rw [f2.2.1, f1.2.1, hp]; decide
      exact (p.2.2.2.2 hne).trans (f2.1.trans f1.1)

/-- `Pres2`-style frame for the inner `<...>` group loop of `db`. -/
theorem dbGroup_pres2 : ∀ (args : List String) (fuel : Nat) (st : AsmState) (flag : Bool)
    (st2 : AsmState) (flag2 : Bool), dbGroup fuel st args flag = Except.ok (st2, flag2) →
    st2.source_pass = st.source_pass ∧
    (st.source_pass = 2 → st2.symbol_table = st.symbol_table) := by
  intro args
  induction args with
  | nil =>
    intro fuel st flag st2 flag2 h
    rw [dbGroup] at h
    cases h
    exact ⟨rfl, fun _ => rfl⟩
  | cons a rest ih =>
    intro fuel st flag st2 flag2 h
    rw [dbGroup] at h
    obtain ⟨s1, h1, h⟩ := bindOkInv h
    try simp only [] at h
    obtain ⟨s2, h2, h⟩ := bindOkInv h
    try simp only [] at h
    have p := pass_action_spec h1
    have f2 : s2.source_pass = s1.source_pass ∧
        (s1.source_pass = 2 → s2.symbol_table = s1.symbol_table) := by
      split at h2
      · obtain ⟨z, h3, h4⟩ := bindOkInv h2
        obtain ⟨v2, s3⟩ := z
        try simp only [] at h4
        cases h4
        have hg := evaluate_expression_frame h3
        exact ⟨hg.2.1, fun _ => hg.1⟩
      · cases h2
        exact ⟨rfl, fun _ => rfl⟩
    have q := ih fuel s2 false st2 flag2 h
    refine ⟨q.1.trans (f2.1.trans p.2.1), fun hp => ?_⟩
    have e1 : s1.symbol_table = st.symbol_table := p.2.2.2.2 (by rw [hp]; decide)
    have e2 : s2.symbol_table = s1.symbol_table := f2.2 (p.2.1.trans hp)
    have e3 : st2.symbol_table = s2.symbol_table := q.2 (f2.1.trans (p.2.1.trans hp))
    exact e3.trans (e2.trans e1)

/-- `Pres2`-style frame for the outer loop of `db`. -/
theorem dbArgs_pres2 : ∀ (args : List String) (fuel : Nat) (st : AsmState) (flag : Bool)
    (st2 : AsmState), dbArgs fuel st args flag = Except.ok st2 →
    st2.source_pass = st.source_pass ∧
    (st.source_pass = 2 → st2.symbol_table = st.symbol_table) := by
  intro args
  induction args with
  | nil =>
    intro fuel st flag st2 h
    rw [dbArgs] at h
    cases h
    exact ⟨rfl, fun _ => rfl⟩
  | cons a rest ih =>
    intro fuel st flag st2 h
    rw [dbArgs] at h
    try simp only [] at h
    split at h
    · obtain ⟨x, h1, h⟩ := bindOkInv h
      obtain ⟨s1, b1⟩ := x
      try simp only [] at h
      have g := dbGroup_pres2 _ _ _ _ _ _ h1
      have q := ih _ _ _ _ h
      exact ⟨q.1.trans g.1, fun hp => (q.2 (g.1.trans hp)).trans (g.2 hp)⟩
    · split at h
      · obtain ⟨s1, h1, h⟩ := bindOkInv h
        try simp only [] at h
        have p := pass_action_spec h1
        split at h
        · have q := ih _ _ _ _ h
          refine ⟨q.1.trans p.2.1, fun hp => ?_⟩
          exact (q.2 (p.2.1.trans hp)).trans (p.2.2.2.2 (by rw [hp]; decide))
        · have q := ih _ _ _ _ h
          refine ⟨q.1.trans p.2.1, fun hp => ?_⟩
          exact (q.2 (p.2.1.trans hp)).trans (p.2.2.2.2 (by rw [hp]; decide))
      · split at h
        · obtain ⟨s1, h1, h⟩ := bindOkInv h
          try simp only [] at h
          have p := pass_action_spec h1
          split at h
          · have q := ih _ _ _ _ h
            refine ⟨q.1.trans p.2.1, fun hp => ?_⟩
            exact (q.2 (p.2.1.trans hp)).trans (p.2.2.2.2 (by rw [hp]; decide))
          · have q := ih _ _ _ _ h
            refine ⟨q.1.trans p.2.1, fun hp => ?_⟩
            exact (q.2 (p.2.1.trans hp)).trans (p.2.2.2.2 (by rw [hp]; decide))
        · obtain ⟨s1, h1, h⟩ := bindOkInv h
          try simp only [] at h
          obtain ⟨s2, h2, h⟩ := bindOkInv h
          try simp only [] at h
          have p := pass_action_spec h1
          have f2 : s2.source_pass = s1.source_pass ∧
              (s1.source_pass = 2 → s2.symbol_table = s1.symbol_table) := by
            split at h2
            · obtain ⟨z, h3, h4⟩ := bindOkInv h2
              obtain ⟨v2, s3⟩ := z
              try simp only [] at h4
              cases h4
              have hg := evaluate_expression_frame h3
              exact ⟨hg.2.1, fun _ => hg.1⟩
            · cases h2
              exact ⟨rfl, fun _ => rfl⟩
          have q := ih _ _ _ _ h
          refine ⟨q.1.trans (f2.1.trans p.2.1), fun hp => ?_⟩
          have e1 : s1.symbol_table = st.symbol_table := p.2.2.2.2 (by rw [hp]; decide)
          have e2 : s2.symbol_table = s1.symbol_table := f2.2 (p.2.1.trans hp)
          have e3 : st2.symbol_table = s2.symbol_table := q.2 (f2.1.trans (p.2.1.trans hp))
          exact e3.trans (e2.trans e1)

theorem pres2_db : Pres2 db := by
  intro fuel st st2 h
  unfold db at h
  try simp only [] at h
  obtain ⟨u1, hu1, h⟩ := bindOkInv h
  try simp only [] at h
  exact dbArgs_pres2 _ _ _ _ _ h

/-- `Pres2`-style frame for the loop of `dw`. -/
theorem dwArgs_pres2 : ∀ (args : List String) (fuel : Nat) (st : AsmState) (st2 : AsmState),
    dwArgs fuel st args = Except.ok st2 →
    st2.source_pass = st.source_pass ∧
    (st.source_pass = 2 → st2.symbol_table = st.symbol_table) := by
  intro args
  induction args with
  | nil =>
    intro fuel st st2 h
    rw [dwArgs] at h
    cases h
    exact ⟨rfl, fun _ => rfl⟩
  | cons a rest ih =>
    intro fuel st st2 h
    rw [dwArgs] at h
    try simp only [] at h
    obtain ⟨s1, h1, h⟩ := bindOkInv h
    try simp only [] at h
    obtain ⟨s2, h2, h⟩ := bindOkInv h
    try simp only [] at h
    have p := pass_action_spec h1
    have f2 : s2.source_pass = s1.source_pass ∧
        (s1.source_pass = 2 → s2.symbol_table = s1.symbol_table) := by
      split at h2
      · have q := address16_spec h2
        exact ⟨q.2.1, fun _ => q.2.2⟩
      · cases h2
        exact ⟨rfl, fun _ => rfl⟩
    have q := ih _ _ _ h
    refine ⟨q.1.trans (f2.1.trans p.2.1), fun hp => ?_⟩
    have e1 : s1.symbol_table = st.symbol_table := p.2.2.2.2 (by rw [hp]; decide)
    have e2 : s2.symbol_table = s1.symbol_table := f2.2 (p.2.1.trans hp)
    have e3 : st2.symbol_table = s2.symbol_table := q.2 (f2.1.trans (p.2.1.trans hp))
    exact e3.trans (e2.trans e1)

theorem pres2_dw : Pres2 dw := by
  intro fuel st st2 h
  unfold dw at h
  try simp only [] at h
  obtain ⟨u1, hu1, h⟩ := bindOkInv h
  try simp only [] at h
  exact dwArgs_pres2 _ _ _ _ h

/-- Address agreement of the `<...>` group loop across two runs. -/
theorem dbGroup_rel : ∀ (args : List String) (f1 f2 : Nat) (s1 s2 : AsmState)
    (fl1 fl2 : Bool) (r1 : AsmState) (b1 : Bool) (r2 : AsmState) (b2 : Bool),
    s1.address = s2.address →
    dbGroup f1 s1 args fl1 = Except.ok (r1, b1) →
    dbGroup f2 s2 args fl2 = Except.ok (r2, b2) → r1.address = r2.address := by
  intro args
  induction args with
  | nil =>
    intro f1 f2 s1 s2 fl1 fl2 r1 b1 r2 b2 ha h1 h2
    rw [dbGroup] at h1 h2
    cases h1
    cases h2
    exact ha
  | cons a rest ih =>
    intro f1 f2 s1 s2 fl1 fl2 r1 b1 r2 b2 ha h1 h2
    rw [dbGroup] at h1 h2
    obtain ⟨t1, ht1, h1⟩ := bindOkInv h1
    try simp only [] at h1
    obtain ⟨u1, hu1, h1⟩ := bindOkInv h1
    try simp only [] at h1
    obtain ⟨t2, ht2, h2⟩ := bindOkInv h2
    try simp only [] at h2
    obtain ⟨u2, hu2, h2⟩ := bindOkInv h2
    try simp only [] at h2
    have a1 : u1.address = t1.address := by
      split at hu1
      · obtain ⟨z, h3, h4⟩ := bindOkInv hu1
        obtain ⟨v2, s3⟩ := z
        try simp only [] at h4
        cases h4
        exact (evaluate_expression_frame h3).2.2
      · cases hu1
        rfl
    have a2 : u2.address = t2.address := by
      split at hu2
      · obtain ⟨z, h3, h4⟩ := bindOkInv hu2
        obtain ⟨v2, s3⟩ := z
        try simp only [] at h4
        cases h4
        exact (evaluate_expression_frame h3).2.2
      · cases hu2
        rfl
    have heq : u1.address = u2.address := by
      rw [a1, a2, (pass_action_spec ht1).1, (pass_action_spec ht2).1, ha]
    exact ih f1 f2 u1 u2 false false r1 b1 r2 b2 heq h1 h2

/-- Address agreement of the `db` argument loop across two runs. -/
theorem dbArgs_rel : ∀ (args : List String) (f1 f2 : Nat) (s1 s2 : AsmState)
    (fl1 fl2 : Bool) (r1 r2 : AsmState),
    s1.address = s2.address →
    dbArgs f1 s1 args fl1 = Except.ok r1 →
    dbArgs f2 s2 args fl2 = Except.ok r2 → r1.address = r2.address := by
  intro args
  induction args with
  | nil =>
    intro f1 f2 s1 s2 fl1 fl2 r1 r2 ha h1 h2
    rw [dbArgs] at h1 h2
    cases h1
    cases h2
    exact ha
  | cons a rest ih =>
    intro f1 f2 s1 s2 fl1 fl2 r1 r2 ha h1 h2
    rw [dbArgs] at h1 h2
    try simp only [] at h1 h2
    split at h1
    · rw [if_pos ‹_›] at h2
      obtain ⟨x1, hg1, h1⟩ := bindOkInv h1
      obtain ⟨t1, b1⟩ := x1
      try simp only [] at h1
      obtain ⟨x2, hg2, h2⟩ := bindOkInv h2
      obtain ⟨t2, b2⟩ := x2
      try simp only [] at h2
      have heq := dbGroup_rel _ _ _ _ _ _ _ _ _ _ _ ha hg1 hg2
      exact ih _ _ _ _ _ _ _ _ heq h1 h2
    · rw [if_neg ‹_›] at h2
      split at h1
      · rw [if_pos ‹_›] at h2
        obtain ⟨t1, ht1, h1⟩ := bindOkInv h1
        try simp only [] at h1
        obtain ⟨t2, ht2, h2⟩ := bindOkInv h2
        try simp only [] at h2
        have heq0 : t1.address = t2.address := by
          rw [(pass_action_spec ht1).1, (pass_action_spec ht2).1, ha]
        split at h1 <;> split at h2 <;>
          (refine ih _ _ _ _ _ _ _ _ ?_ h1 h2; exact heq0)
      · rw [if_neg ‹_›] at h2
        split at h1
        · rw [if_pos ‹_›] at h2
          obtain ⟨t1, ht1, h1⟩ := bindOkInv h1
          try simp only [] at h1
          obtain ⟨t2, ht2, h2⟩ := bindOkInv h2
          try simp only [] at h2
          have heq0 : t1.address = t2.address := by
            rw [(pass_action_spec ht1).1, (pass_action_spec ht2).1, ha]
          split at h1 <;> split at h2 <;>
            (refine ih _ _ _ _ _ _ _ _ ?_ h1 h2; exact heq0)
        · rw [if_neg ‹_›] at h2
          obtain ⟨t1, ht1, h1⟩ := bindOkInv h1
          try simp only [] at h1
          obtain ⟨u1, hu1, h1⟩ := bindOkInv h1
          try simp only [] at h1
          obtain ⟨t2, ht2, h2⟩ := bindOkInv h2
          try simp only [] at h2
          obtain ⟨u2, hu2, h2⟩ := bindOkInv h2
          try simp only [] at h2
          have a1 : u1.address = t1.address := by
            split at hu1
            · obtain ⟨z, h3, h4⟩ := bindOkInv hu1
              obtain ⟨v2, s3⟩ := z
              try simp only [] at h4
              cases h4
              exact (evaluate_expression_frame h3).2.2
            · cases hu1
              rfl
          have a2 : u2.address = t2.address := by
            split at hu2
            · obtain ⟨z, h3, h4⟩ := bindOkInv hu2
              obtain ⟨v2, s3⟩ := z
              try simp only [] at h4
              cases h4
              exact (evaluate_expression_frame h3).2.2
            · cases hu2
              rfl
          have heq : u1.address = u2.address := by
            rw [a1, a2, (pass_action_spec ht1).1, (pass_action_spec ht2).1, ha]
          exact ih _ _ _ _ _ _ _ _ heq h1 h2

theorem od_db : OperandDetermined db := by
  intro f1 f2 s1 s2 r1 r2 ha hm ho1 ho2 h1 h2
  unfold db at h1 h2
  try simp only [] at h1 h2
  rw [ho1, ho2] at h1
  obtain ⟨u1, hu1, h1⟩ := bindOkInv h1
  try simp only [] at h1
  obtain ⟨u2, hu2, h2⟩ := bindOkInv h2
  try simp only [] at h2
  exact dbArgs_rel _ _ _ _ _ _ _ _ _ ha h1 h2

/-- Address agreement of the `dw` argument loop across two runs. -/
theorem dwArgs_rel : ∀ (args : List String) (f1 f2 : Nat) (s1 s2 : AsmState) (r1 r2 : AsmState),
    s1.address = s2.address →
    dwArgs f1 s1 args = Except.ok r1 →
    dwArgs f2 s2 args = Except.ok r2 → r1.address = r2.address := by
  intro args
  induction args with
  | nil =>
    intro f1 f2 s1 s2 r1 r2 ha h1 h2
    rw [dwArgs] at h1 h2
    cases h1
    cases h2
    exact ha
  | cons a rest ih =>
    intro f1 f2 s1 s2 r1 r2 ha h1 h2
    rw [dwArgs] at h1 h2
    try simp only [] at h1 h2
    obtain ⟨t1, ht1, h1⟩ := bindOkInv h1
    try simp only [] at h1
    obtain ⟨u1, hu1, h1⟩ := bindOkInv h1
    try simp only [] at h1
    obtain ⟨t2, ht2, h2⟩ := bindOkInv h2
    try simp only [] at h2
    obtain ⟨u2, hu2, h2⟩ := bindOkInv h2
    try simp only [] at h2
    have a1 : u1.address = t1.address := by
      split at hu1
      · exact (address16_spec hu1).1
      · cases hu1
        rfl
    have a2 : u2.address = t2.address := by
      split at hu2
      · exact (address16_spec hu2).1
      · cases hu2
        rfl
    have heq : u1.address = u2.address := by
      rw [a1, a2, (pass_action_spec ht1).1, (pass_action_spec ht2).1, ha]
    exact ih _ _ _ _ _ _ heq h1 h2

theorem od_dw : OperandDetermined dw := by
  intro f1 f2 s1 s2 r1 r2 ha hm ho1 ho2 h1 h2
  unfold dw at h1 h2
  try simp only [] at h1 h2
  rw [ho1, ho2] at h1
  obtain ⟨u1, hu1, h1⟩ := bindOkInv h1
  try simp only [] at h1
  obtain ⟨u2, hu2, h2⟩ := bindOkInv h2
  try simp only [] at h2
  exact dwArgs_rel _ _ _ _ _ _ _ ha h1 h2

/-! ### Dispatch-table facts and pass-level preservation -/

/-- A successful `mapFind` lookup comes from an entry of the list. -/
theorem mapFind_mem {α : Type} : ∀ (l : List (String × α)) (k : String) (v : α),
    mapFind l k = some v → (k, v) ∈ l := by
  intro l
  induction l with
  | nil =>
    intro k v h
    exact Option.noConfusion h
  | cons p rest ih =>
    intro k v h
    obtain ⟨a, b⟩ := p
    rw [mapFind] at h
    try simp only [] at h
    split at h
    · cases h
      rename_i hpk
      subst hpk
      exact List.mem_cons_self _ _
    · exact List.mem_cons_of_mem _ (ih _ _ h)

/-- Every entry of the dispatch table satisfies the pass-2 frame, and
every one except `ds` and `org` has an operand-determined address
advance. -/
theorem handler_table_spec : ∀ (p : String × Handler), p ∈ mnemonic_handlers →
    Pres2 p.2 ∧ (p.1 ≠ "ds" → p.1 ≠ "org" → OperandDetermined p.2) := by
  intro p hp
  rw [mnemonic_handlers] at hp
  rcases List.mem_cons.mp hp with rfl | hp
  · exact ⟨pres2_of_hframe hframe_nop, fun _ _ => od_of_hframe hframe_nop⟩
  rcases List.mem_cons.mp hp with rfl | hp
  · exact ⟨pres2_of_hframe hframe_lxi, fun _ _ => od_of_hframe hframe_lxi⟩
  rcases List.mem_cons.mp hp with rfl | hp
  · exact ⟨pres2_of_hframe hframe_stax, fun _ _ => od_of_hframe hframe_stax⟩
  rcases List.mem_cons.mp hp with rfl | hp
  · exact ⟨pres2_of_hframe hframe_inx, fun _ _ => od_of_hframe hframe_inx⟩
  rcases List.mem_cons.mp hp with rfl | hp
  · exact ⟨pres2_of_hframe hframe_inr, fun _ _ => od_of_hframe hframe_inr⟩
  rcases List.mem_cons.mp hp with rfl | hp
  · exact ⟨pres2_of_hframe hframe_dcr, fun _ _ => od_of_hframe hframe_dcr⟩
  rcases List.mem_cons.mp hp with rfl | hp
  · exact ⟨pres2_of_hframe hframe_mvi, fun _ _ => od_of_hframe hframe_mvi⟩
  rcases List.mem_cons.mp hp with rfl | hp
  · exact ⟨pres2_of_hframe hframe_rlc, fun _ _ => od_of_hframe hframe_rlc⟩
  rcases List.mem_cons.mp hp with rfl | hp
  · exact ⟨pres2_of_hframe hframe_dad, fun _ _ => od_of_hframe hframe_dad⟩
  rcases List.mem_cons.mp hp with rfl | hp
  · exact ⟨pres2_of_hframe hframe_ldax, fun _ _ => od_of_hframe hframe_ldax⟩
  rcases List.mem_cons.mp hp with rfl | hp
  · exact ⟨pres2_of_hframe hframe_dcx, fun _ _ => od_of_hframe hframe_dcx⟩
  rcases List.mem_cons.mp hp with rfl | hp
  · exact ⟨pres2_of_hframe hframe_rrc, fun _ _ => od_of_hframe hframe_rrc⟩
  rcases List.mem_cons.mp hp with rfl | hp
  · exact ⟨pres2_of_hframe hframe_ral, fun _ _ => od_of_hframe hframe_ral⟩
  rcases List.mem_cons.mp hp with rfl | hp
  · exact ⟨pres2_of_hframe hframe_rar, fun _ _ => od_of_hframe hframe_rar⟩
  rcases List.mem_cons.mp hp with rfl | hp
  · exact ⟨pres2_of_hframe hframe_shld, fun _ _ => od_of_hframe hframe_shld⟩
  rcases List.mem_cons.mp hp with rfl | hp
  · exact ⟨pres2_of_hframe hframe_daa, fun _ _ => od_of_hframe hframe_daa⟩
  rcases List.mem_cons.mp hp with rfl | hp
  · exact ⟨pres2_of_hframe hframe_lhld, fun _ _ => od_of_hframe hframe_lhld⟩
  rcases List.mem_cons.mp hp with rfl | hp
  · exact ⟨pres2_of_hframe hframe_cma, fun _ _ => od_of_hframe hframe_cma⟩
  rcases List.mem_cons.mp hp with rfl | hp
  · exact ⟨pres2_of_hframe hframe_sta, fun _ _ => od_of_hframe hframe_sta⟩
  rcases List.mem_cons.mp hp with rfl | hp
  · exact ⟨pres2_of_hframe hframe_stc, fun _ _ => od_of_hframe hframe_stc⟩
  rcases List.mem_cons.mp hp with rfl | hp
  · exact ⟨pres2_of_hframe hframe_lda, fun _ _ => od_of_hframe hframe_lda⟩
  rcases List.mem_cons.mp hp with rfl | hp
  · exact ⟨pres2_of_hframe hframe_cmc, fun _ _ => od_of_hframe hframe_cmc⟩
  rcases List.mem_cons.mp hp with rfl | hp
  · exact ⟨pres2_of_hframe hframe_mov, fun _ _ => od_of_hframe hframe_mov⟩
  rcases List.mem_cons.mp hp with rfl | hp
  · exact ⟨pres2_of_hframe hframe_hlt, fun _ _ => od_of_hframe hframe_hlt⟩
  rcases List.mem_cons.mp hp with rfl | hp
  · exact ⟨pres2_of_hframe hframe_add, fun _ _ => od_of_hframe hframe_add⟩
  rcases List.mem_cons.mp hp with rfl | hp
  · exact ⟨pres2_of_hframe hframe_adc, fun _ _ => od_of_hframe hframe_adc⟩
  rcases List.mem_cons.mp hp with rfl | hp
  · exact ⟨pres2_of_hframe hframe_sub, fun _ _ => od_of_hframe hframe_sub⟩
  rcases List.mem_cons.mp hp with rfl | hp
  · exact ⟨pres2_of_hframe hframe_sbb, fun _ _ => od_of_hframe hframe_sbb⟩
  rcases List.mem_cons.mp hp with rfl | hp
  · exact ⟨pres2_of_hframe hframe_ana, fun _ _ => od_of_hframe hframe_ana⟩
  rcases List.mem_cons.mp hp with rfl | hp
  · exact ⟨pres2_of_hframe hframe_xra, fun _ _ => od_of_hframe hframe_xra⟩
  rcases List.mem_cons.mp hp with rfl | hp
  · exact ⟨pres2_of_hframe hframe_ora, fun _ _ => od_of_hframe hframe_ora⟩
  rcases List.mem_cons.mp hp with rfl | hp
  · exact ⟨pres2_of_hframe hframe_cmp, fun _ _ => od_of_hframe hframe_cmp⟩
  rcases List.mem_cons.mp hp with rfl | hp
  · exact ⟨pres2_of_hframe hframe_rnz, fun _ _ => od_of_hframe hframe_rnz⟩
  rcases List.mem_cons.mp hp with rfl | hp
  · exact ⟨pres2_of_hframe hframe_pop, fun _ _ => od_of_hframe hframe_pop⟩
  rcases List.mem_cons.mp hp with rfl | hp
  · exact ⟨pres2_of_hframe hframe_jnz, fun _ _ => od_of_hframe hframe_jnz⟩
  rcases List.mem_cons.mp hp with rfl | hp
  · exact ⟨pres2_of_hframe hframe_jmp, fun _ _ => od_of_hframe hframe_jmp⟩
  rcases List.mem_cons.mp hp with rfl | hp
  · exact ⟨pres2_of_hframe hframe_cnz, fun _ _ => od_of_hframe hframe_cnz⟩
  rcases List.mem_cons.mp hp with rfl | hp
  · exact ⟨pres2_of_hframe hframe_push, fun _ _ => od_of_hframe hframe_push⟩
  rcases List.mem_cons.mp hp with rfl | hp
  · exact ⟨pres2_of_hframe hframe_adi, fun _ _ => od_of_hframe hframe_adi⟩
  rcases List.mem_cons.mp hp with rfl | hp
  · exact ⟨pres2_of_hframe hframe_rst, fun _ _ => od_of_hframe hframe_rst⟩
  rcases List.mem_cons.mp hp with rfl | hp
  · exact ⟨pres2_of_hframe hframe_rz, fun _ _ => od_of_hframe hframe_rz⟩
  rcases List.mem_cons.mp hp with rfl | hp
  · exact ⟨pres2_of_hframe hframe_ret, fun _ _ => od_of_hframe hframe_ret⟩
  rcases List.mem_cons.mp hp with rfl | hp
  · exact ⟨pres2_of_hframe hframe_jz, fun _ _ => od_of_hframe hframe_jz⟩
  rcases List.mem_cons.mp hp with rfl | hp
  · exact ⟨pres2_of_hframe hframe_cz, fun _ _ => od_of_hframe hframe_cz⟩
  rcases List.mem_cons.mp hp with rfl | hp
  · exact ⟨pres2_of_hframe hframe_call, fun _ _ => od_of_hframe hframe_call⟩
  rcases List.mem_cons.mp hp with rfl | hp
  · exact ⟨pres2_of_hframe hframe_aci, fun _ _ => od_of_hframe hframe_aci⟩
  rcases List.mem_cons.mp hp with rfl | hp
  · exact ⟨pres2_of_hframe hframe_rnc, fun _ _ => od_of_hframe hframe_rnc⟩
  rcases List.mem_cons.mp hp with rfl | hp
  · exact ⟨pres2_of_hframe hframe_jnc, fun _ _ => od_of_hframe hframe_jnc⟩
  rcases List.mem_cons.mp hp with rfl | hp
  · exact ⟨pres2_of_hframe hframe_i80_out, fun _ _ => od_of_hframe hframe_i80_out⟩
  rcases List.mem_cons.mp hp with rfl | hp
  · exact ⟨pres2_of_hframe hframe_cnc, fun _ _ => od_of_hframe hframe_cnc⟩
  rcases List.mem_cons.mp hp with rfl | hp
  · exact ⟨pres2_of_hframe hframe_sui, fun _ _ => od_of_hframe hframe_sui⟩
  rcases List.mem_cons.mp hp with rfl | hp
  · exact ⟨pres2_of_hframe hframe_rc, fun _ _ => od_of_hframe hframe_rc⟩
  rcases List.mem_cons.mp hp with rfl | hp
  · exact ⟨pres2_of_hframe hframe_jc, fun _ _ => od_of_hframe hframe_jc⟩
  rcases List.mem_cons.mp hp with rfl | hp
  · exact ⟨pres2_of_hframe hframe_i80_in, fun _ _ => od_of_hframe hframe_i80_in⟩
  rcases List.mem_cons.mp hp with rfl | hp
  · exact ⟨pres2_of_hframe hframe_cc, fun _ _ => od_of_hframe hframe_cc⟩
  rcases List.mem_cons.mp hp with rfl | hp
  · exact ⟨pres2_of_hframe hframe_sbi, fun _ _ => od_of_hframe hframe_sbi⟩
  rcases List.mem_cons.mp hp with rfl | hp
  · exact ⟨pres2_of_hframe hframe_jpe, fun _ _ => od_of_hframe hframe_jpe⟩
  rcases List.mem_cons.mp hp with rfl | hp
  · exact ⟨pres2_of_hframe hframe_rpo, fun _ _ => od_of_hframe hframe_rpo⟩
  rcases List.mem_cons.mp hp with rfl | hp
  · exact ⟨pres2_of_hframe hframe_jpo, fun _ _ => od_of_hframe hframe_jpo⟩
  rcases List.mem_cons.mp hp with rfl | hp
  · exact ⟨pres2_of_hframe hframe_xthl, fun _ _ => od_of_hframe hframe_xthl⟩
  rcases List.mem_cons.mp hp with rfl | hp
  · exact ⟨pres2_of_hframe hframe_cpo, fun _ _ => od_of_hframe hframe_cpo⟩
  rcases List.mem_cons.mp hp with rfl | hp
  · exact ⟨pres2_of_hframe hframe_ani, fun _ _ => od_of_hframe hframe_ani⟩
  rcases List.mem_cons.mp hp with rfl | hp
  · exact ⟨pres2_of_hframe hframe_rpe, fun _ _ => od_of_hframe hframe_rpe⟩
  rcases List.mem_cons.mp hp with rfl | hp
  · exact ⟨pres2_of_hframe hframe_pchl, fun _ _ => od_of_hframe hframe_pchl⟩
  rcases List.mem_cons.mp hp with rfl | hp
  · exact ⟨pres2_of_hframe hframe_xchg, fun _ _ => od_of_hframe hframe_xchg⟩
  rcases List.mem_cons.mp hp with rfl | hp
  · exact ⟨pres2_of_hframe hframe_cpe, fun _ _ => od_of_hframe hframe_cpe⟩
  rcases List.mem_cons.mp hp with rfl | hp
  · exact ⟨pres2_of_hframe hframe_xri, fun _ _ => od_of_hframe hframe_xri⟩
  rcases List.mem_cons.mp hp with rfl | hp
  · exact ⟨pres2_of_hframe hframe_rp, fun _ _ => od_of_hframe hframe_rp⟩
  rcases List.mem_cons.mp hp with rfl | hp
  · exact ⟨pres2_of_hframe hframe_jp, fun _ _ => od_of_hframe hframe_jp⟩
  rcases List.mem_cons.mp hp with rfl | hp
  · exact ⟨pres2_of_hframe hframe_di, fun _ _ => od_of_hframe hframe_di⟩
  rcases List.mem_cons.mp hp with rfl | hp
  · exact ⟨pres2_of_hframe hframe_cp, fun _ _ => od_of_hframe hframe_cp⟩
  rcases List.mem_cons.mp hp with rfl | hp
  · exact ⟨pres2_of_hframe hframe_ori, fun _ _ => od_of_hframe hframe_ori⟩
  rcases List.mem_cons.mp hp with rfl | hp
  · exact ⟨pres2_of_hframe hframe_rm, fun _ _ => od_of_hframe hframe_rm⟩
  rcases List.mem_cons.mp hp with rfl | hp
  · exact ⟨pres2_of_hframe hframe_sphl, fun _ _ => od_of_hframe hframe_sphl⟩
  rcases List.mem_cons.mp hp with rfl | hp
  · exact ⟨pres2_of_hframe hframe_jm, fun _ _ => od_of_hframe hframe_jm⟩
  rcases List.mem_cons.mp hp with rfl | hp
  · exact ⟨pres2_of_hframe hframe_ei, fun _ _ => od_of_hframe hframe_ei⟩
  rcases List.mem_cons.mp hp with rfl | hp
  · exact ⟨pres2_of_hframe hframe_cm, fun _ _ => od_of_hframe hframe_cm⟩
  rcases List.mem_cons.mp hp with rfl | hp
  · exact ⟨pres2_of_hframe hframe_cpi, fun _ _ => od_of_hframe hframe_cpi⟩
  rcases List.mem_cons.mp hp with rfl | hp
  · exact ⟨pres2_db, fun _ _ => od_db⟩
  rcases List.mem_cons.mp hp with rfl | hp
  · exact ⟨pres2_ds, fun hne _ => absurd rfl hne⟩
  rcases List.mem_cons.mp hp with rfl | hp
  · exact ⟨pres2_dw, fun _ _ => od_dw⟩
  rcases List.mem_cons.mp hp with rfl | hp
  · exact ⟨pres2_end_directive, fun _ _ => od_of_addrkeep addrkeep_end_directive⟩
  rcases List.mem_cons.mp hp with rfl | hp
  · exact ⟨pres2_equ, fun _ _ => od_of_addrkeep addrkeep_equ⟩
  rcases List.mem_cons.mp hp with rfl | hp
  · exact ⟨pres2_name, fun _ _ => od_of_addrkeep addrkeep_name⟩
  rcases List.mem_cons.mp hp with rfl | hp
  · exact ⟨pres2_org, fun _ hne => absurd rfl hne⟩
  rcases List.mem_cons.mp hp with rfl | hp
  · exact ⟨pres2_title, fun _ _ => od_of_addrkeep addrkeep_title⟩
  rcases List.mem_cons.mp hp with rfl | hp
  · exact ⟨pres2_of_hframe hframe_sim, fun _ _ => od_of_hframe hframe_sim⟩
  rcases List.mem_cons.mp hp with rfl | hp
  · exact ⟨pres2_of_hframe hframe_rim, fun _ _ => od_of_hframe hframe_rim⟩
  exact absurd hp (List.not_mem_nil p)

/-- The `handlerOf`-lookup form of `handler_table_spec`. -/
theorem handler_dispatch_spec : ∀ (n : String) (hd : Handler), handlerOf n = some hd →
    Pres2 hd ∧ (n ≠ "ds" → n ≠ "org" → OperandDetermined hd) := by
  intro n hd hf
  exact handler_table_spec (n, hd) (mapFind_mem _ _ _ hf)

/-- `parse` only rewrites the scratch parse fields. -/
theorem parse_frame (st : AsmState) (l : String) :
    (parse st l).symbol_table = st.symbol_table ∧ (parse st l).source_pass = st.source_pass := by
  unfold parse
  try simp only []
  repeat' split
  all_goals exact ⟨rfl, rfl⟩

/-- `process_instruction` preserves the pass and, in pass 2, the symbol
table. -/
theorem process_instruction_pres2 {fuel : Nat} {st st2 : AsmState}
    (hp : st.source_pass = 2) (h : process_instruction fuel st = Except.ok st2) :
    st2.symbol_table = st.symbol_table ∧ st2.source_pass = 2 := by
  unfold process_instruction at h
  split at h
  · cases h
    exact ⟨rfl, hp⟩
  · split at h
    · rename_i hdl heq
      have hs := handler_dispatch_spec st.mnemonic hdl heq
      have q := hs.1 fuel st st2 h
      exact ⟨q.2 hp, q.1.trans hp⟩
    · split at h
      · have p := pass_action_spec h
        exact ⟨p.2.2.2.2 (by rw [hp]; decide), p.2.1.trans hp⟩
      · exact Except.noConfusion h

/-- Pass-2 symbol-table preservation of the recursive line processor and
the macro body loop. -/
theorem expand_pbl_pres2 : ∀ fuel : Nat,
    (∀ st line ln st2, st.source_pass = 2 →
       expand_and_process_line fuel st line ln = Except.ok st2 →
       st2.symbol_table = st.symbol_table ∧ st2.source_pass = 2) ∧
    (∀ st bls pa lm ln st2, st.source_pass = 2 →
       process_body_lines fuel st bls pa lm ln = Except.ok st2 →
       st2.symbol_table = st.symbol_table ∧ st2.source_pass = 2) := by
  intro fuel
  induction fuel with
  | zero =>
    constructor
    · intro st line ln st2 hp h
      rw [expand_and_process_line] at h
      exact Except.noConfusion h
    · intro st bls pa lm ln st2 hp h
      rw [process_body_lines] at h
      exact Except.noConfusion h
  | succ n ih =>
    obtain ⟨ihE, ihP⟩ := ih
    constructor
    · intro st line ln st2 hp h
      rw [expand_and_process_line] at h
      try simp only [] at h
      split at h
      · cases h
        exact ⟨rfl, hp⟩
      · split at h
        · obtain ⟨x, h1, h⟩ := bindOkInv h
          obtain ⟨cr, s1⟩ := x
          try simp only [] at h
          cases h
          have f1 : s1.symbol_table = st.symbol_table ∧ s1.source_pass = st.source_pass := by
            split at h1
            · have hf := evaluate_conditional_frame h1
              exact ⟨hf.1, hf.2.1⟩
            · cases h1
              exact ⟨rfl, rfl⟩
          exact ⟨f1.1, f1.2.trans hp⟩
        · split at h
          · split at h
            · exact Except.noConfusion h
            · cases h
              exact ⟨rfl, hp⟩
          · split at h
            · cases h
              exact ⟨rfl, hp⟩
            · split at h
              · cases h
                exact ⟨rfl, hp⟩
              · split at h
                · try simp only [] at h
                  split at h
                  · exact Except.noConfusion h
                  · have hctr : ({ st with macro_expansion_counter :=
                        st.macro_expansion_counter + 1 } : AsmState).source_pass = 2 := hp
                    have hres := ihP _ _ _ _ _ _ hctr h
                    exact ⟨hres.1, hres.2⟩
                · have hpf := parse_frame { st with lineno := ln } line
                  have hq : (parse { st with lineno := ln } line).source_pass = 2 :=
                    hpf.2.trans hp
                  have q := process_instruction_pres2 hq h
                  exact ⟨q.1.trans hpf.1, q.2⟩
    · intro st bls pa lm ln st2 hp h
      match bls with
      | [] =>
        rw [process_body_lines] at h
        cases h
        exact ⟨rfl, hp⟩
      | b :: rest =>
        rw [process_body_lines] at h
        obtain ⟨b1, h1, h⟩ := bindOkInv h
        try simp only [] at h
        obtain ⟨b2, h2, h⟩ := bindOkInv h
        try simp only [] at h
        obtain ⟨s1, h3, h⟩ := bindOkInv h
        try simp only [] at h
        have q1 := ihE _ _ _ _ hp h3
        have q2 := ihP _ _ _ _ _ _ q1.2 h
        exact ⟨q2.1.trans q1.1, q2.2⟩

/-- Pass-2 symbol-table preservation of the whole pass loop. -/
theorem doPassAux_pres2 : ∀ (lines : List String) (fuel : Nat) (st : AsmState) (i : Nat)
    (d : Bool) (tr : List Nat) (st2 : AsmState) (tr2 : List Nat),
    st.source_pass = 2 → doPassAux fuel st lines i d tr = Except.ok (st2, tr2) →
    st2.symbol_table = st.symbol_table ∧ st2.source_pass = 2 := by
  intro lines
  induction lines with
  | nil =>
    intro fuel st i d tr st2 tr2 hp h
    rw [doPassAux] at h
    cases h
    exact ⟨rfl, hp⟩
  | cons l ls ih =>
    intro fuel st i d tr st2 tr2 hp h
    rw [doPassAux] at h
    split at h
    · cases h
      exact ⟨rfl, hp⟩
    · try simp only [] at h
      have hl : ({ st with lineno := i } : AsmState).source_pass = 2 := hp
      repeat' split at h
      all_goals first
        | exact ih fuel { st with lineno := i } (i + 1) _ _ _ _ hl h
        | (obtain ⟨s1, h1, h⟩ := bindOkInv h
           try simp only [] at h
           have e1 := (expand_pbl_pres2 fuel).1 _ _ _ _ hl h1
           have q := ih _ _ _ _ _ _ _ e1.2 h
           exact ⟨q.1.trans e1.1, q.2⟩)

/-! ### Round-trip facts for `get_number` -/

/-- The digit character of a value below 16 (uppercase letters, as an
assembler listing would print them). -/
def digitChar16 (d : Nat) : Char :=
  if d = 0 then '0' else if d = 1 then '1' else if d = 2 then '2' else if d = 3 then '3'
  else if d = 4 then '4' else if d = 5 then '5' else if d = 6 then '6' else if d = 7 then '7'
  else if d = 8 then '8' else if d = 9 then '9' else if d = 10 then 'A' else if d = 11 then 'B'
  else if d = 12 then 'C' else if d = 13 then 'D' else if d = 14 then 'E' else 'F'

/-- The usual most-significant-digit-first rendering of `n` in base `b`. -/
def renderNum (b : Nat) (n : Nat) : List Char :=
  if n = 0 then ['0'] else ((Nat.digits b n).map digitChar16).reverse

theorem digitChar16_props {d : Nat} (h : d < 16) :
    isSpaceC (digitChar16 d) = false ∧ digitChar16 d ≠ '+' ∧ digitChar16 d ≠ '-' ∧
    (digitChar16 d = '0' → d = 0) := by
  interval_cases d <;> exact ⟨by decide, by decide, by decide, by decide⟩

theorem digitValC_digitChar16 {d : Nat} (h : d < 16) : digitValC (digitChar16 d) = some d := by
  interval_cases d <;> decide

theorem digitInBase_digitChar16 {b d : Nat} (hd : d < b) (hb : b ≤ 16) :
    digitInBase b (digitChar16 d) = some d := by
  unfold digitInBase
  rw [digitValC_digitChar16 (lt_of_lt_of_le hd hb)]
  simp [hd]

theorem dropWhile_nonspace {L : List Char} (h : ∀ c ∈ L, isSpaceC c = false) :
    L.dropWhile isSpaceC = L := by
  cases L with
  | nil => rfl
  | cons c cs =>
    rw [List.dropWhile_cons_of_neg]
    simp [h c (List.mem_cons_self c cs)]

theorem trimL_nonspace {L : List Char} (h : ∀ c ∈ L, isSpaceC c = false) : trimL L = L := by
  unfold trimL ltrimL rtrimL
  rw [dropWhile_nonspace h, dropWhile_nonspace, List.reverse_reverse]
  intro c hc
  exact h c (List.mem_reverse.mp hc)

theorem strip0x_keep {b : Nat} {c : Char} {cs : List Char} (h : c ≠ '0' ∨ cs = []) :
    strip0x b (c :: cs) = c :: cs := by
  unfold strip0x
  split
  · rcases cs with _ | ⟨x, rest⟩
    · rfl
    · simp only []
      split
      · rename_i hcond
        rw [Bool.and_eq_true, Bool.and_eq_true] at hcond
        rcases h with h | h
        · exact absurd (beq_iff_eq.mp hcond.1.1) h
        · exact List.noConfusion h
      · rfl
  · rfl

theorem digitChar16_ne_x {d : Nat} (h : d < 16) :
    digitChar16 d ≠ 'x' ∧ digitChar16 d ≠ 'X' := by
  interval_cases d <;> exact ⟨by decide, by decide⟩

theorem strip0x_keep2 {b : Nat} {c x : Char} {rest : List Char}
    (hx : x ≠ 'x' ∧ x ≠ 'X') : strip0x b (c :: x :: rest) = c :: x :: rest := by
  unfold strip0x
  split
  · simp only []
    split
    · rename_i hcond
      rw [Bool.and_eq_true, Bool.and_eq_true] at hcond
      rcases Bool.or_eq_true_iff.mp hcond.1.2 with h | h
      · exact absurd (beq_iff_eq.mp h) hx.1
      · exact absurd (beq_iff_eq.mp h) hx.2
    · rfl
  · rfl

theorem parseDigits_render {b : Nat} (hb : b ≤ 16) :
    ∀ (L : List Nat) (acc : Nat) (seen : Bool), (∀ d ∈ L, d < b) →
    parseDigitsAux b (L.map digitChar16) acc seen =
      (L.foldl (fun a d => a * b + d) acc, seen || !L.isEmpty) := by
  intro L
  induction L with
  | nil =>
    intro acc seen h
    simp [parseDigitsAux]
  | cons d L ih =>
    intro acc seen h
    rw [List.map_cons]
    rw [parseDigitsAux]
    rw [digitInBase_digitChar16 (h d (List.mem_cons_self d L)) hb]
    simp only []
    rw [ih (acc * b + d) true (fun x hx => h x (List.mem_cons_of_mem d hx))]
    simp

theorem ofDigits_foldr (b : Nat) : ∀ L : List Nat,
    L.foldr (fun d a => a * b + d) 0 = Nat.ofDigits b L := by
  intro L
  induction L with
  | nil => simp [Nat.ofDigits]
  | cons d L ih =>
    rw [List.foldr_cons, ih, Nat.ofDigits_cons]
    ring

/-- Digit-list evaluation: parsing the rendered digits of `n` most
significant first recovers `n`. -/
theorem parse_digits_of_n {b n : Nat} (hb2 : 2 ≤ b) (hb16 : b ≤ 16) (hn : n ≠ 0) :
    parseDigitsAux b ((Nat.digits b n).reverse.map digitChar16) 0 false = (n, true) := by
  have hdig : ∀ d ∈ (Nat.digits b n).reverse, d < b := by
    intro d hd
    exact Nat.digits_lt_base (by omega) (List.mem_reverse.mp hd)
  rw [parseDigits_render hb16 _ 0 false hdig]
  have h1 : (Nat.digits b n).reverse.foldl (fun a d => a * b + d) 0 = n := by
    rw [List.foldl_reverse]
    have := ofDigits_foldr b (Nat.digits b n)
    rw [show (fun (x : Nat) (y : Nat) => y * b + x) = (fun d a => a * b + d) from rfl]
    rw [this, Nat.ofDigits_digits]
  rw [h1]
  have h2 : (Nat.digits b n).reverse ≠ [] := by
    simp [Nat.digits_ne_nil_iff_ne_zero, hn]
  simp [h2]

/-- Every character of a rendering is a digit character of the base. -/
theorem renderNum_mem {b n : Nat} (hb2 : 2 ≤ b) (hb16 : b ≤ 16) :
    ∀ c ∈ renderNum b n, ∃ d, d < b ∧ d < 16 ∧ c = digitChar16 d := by
  intro c hc
  unfold renderNum at hc
  split at hc
  · simp at hc
    subst hc
    exact ⟨0, by omega, by omega, rfl⟩
  · rw [List.mem_reverse] at hc
    obtain ⟨d, hd, rfl⟩ := List.mem_map.mp hc
    have hdb : d < b := Nat.digits_lt_base (by omega) hd
    exact ⟨d, hdb, by omega, rfl⟩

theorem renderNum_ne_nil {b n : Nat} : renderNum b n ≠ [] := by
  unfold renderNum
  split
  · simp
  · simp [Nat.digits_ne_nil_iff_ne_zero, ‹¬n = 0›]

/-- `std::stoul` on a rendering recovers the value. -/
theorem stoulOpt_render {b n : Nat} (hb2 : 2 ≤ b) (hb16 : b ≤ 16)
    (hn : n ≤ 18446744073709551615) : stoulOpt (renderNum b n) b = some n := by
  by_cases h0 : n = 0
  · subst h0
    unfold renderNum stoulOpt
    rw [if_pos rfl]
    rw [dropWhile_nonspace (by intro c hc; simp at hc; subst hc; decide)]
    have hd0 : digitInBase b '0' = some 0 := by
      unfold digitInBase
      rw [show digitValC '0' = some 0 from by decide]
      have hb0 : 0 < b := by omega
      simp [hb0]
    simp only []
    rw [if_neg (by decide : ¬(('0' : Char) = '+'))]
    rw [strip0x_keep (Or.inr rfl)]
    rw [show parseDigitsAux b ['0'] 0 false =
      (match digitInBase b '0' with
       | some v => parseDigitsAux b [] (0 * b + v) true
       | none => (0, false)) from by rw [parseDigitsAux]]
    rw [hd0]
    simp [parseDigitsAux]
  · unfold renderNum stoulOpt
    rw [if_neg h0]
    have hmem : ∀ c ∈ ((Nat.digits b n).map digitChar16).reverse, ∃ d, d < b ∧ d < 16 ∧ c = digitChar16 d := by
      intro c hc
      have : c ∈ renderNum b n := by
        unfold renderNum
        rw [if_neg h0]
        exact hc
      exact renderNum_mem hb2 hb16 c this
    rcases hrev : ((Nat.digits b n).map digitChar16).reverse with _ | ⟨c0, cs⟩
    · exfalso
      have := renderNum_ne_nil (b := b) (n := n)
      unfold renderNum at this
      rw [if_neg h0] at this
      exact this hrev
    · have hc0 : ∃ d, d < b ∧ d < 16 ∧ c0 = digitChar16 d := by
        apply hmem
        rw [hrev]
        exact List.mem_cons_self _ _
      obtain ⟨d0, hd0b, hd016, hc0eq⟩ := hc0
      have hprops := digitChar16_props hd016
      have hns : ∀ c ∈ c0 :: cs, isSpaceC c = false := by
        intro c hc
        obtain ⟨d, hdb, hd16, hceq⟩ := hmem c (by rw [hrev]; exact hc)
        subst hceq
        exact (digitChar16_props hd16).1
      rw [dropWhile_nonspace hns]
      simp only []
      rw [if_neg (show ¬(c0 = '+') from by rw [hc0eq]; exact hprops.2.1)]
      have hstrip : strip0x b (c0 :: cs) = c0 :: cs := by
        rcases hcs : cs with _ | ⟨x1, rest1⟩
        · exact strip0x_keep (Or.inr rfl)
        · have hx1 : ∃ d, d < b ∧ d < 16 ∧ x1 = digitChar16 d := by
            apply hmem
            rw [hrev, hcs]
            exact List.mem_cons_of_mem _ (List.mem_cons_self _ _)
          obtain ⟨d1, hd1b, hd116, hx1eq⟩ := hx1
          subst hx1eq
          exact strip0x_keep2 (digitChar16_ne_x hd116)
      rw [hstrip]
      rw [show (c0 :: cs) = ((Nat.digits b n).map digitChar16).reverse from hrev.symm]
      rw [← List.map_reverse]
      rw [parse_digits_of_n hb2 hb16 h0]
      simp [hn]

theorem toInt32_small {n : Nat} (h : n ≤ 65535) : toInt32 n = (n : Int) := by
  unfold toInt32
  rw [Nat.mod_eq_of_lt (by omega)]
  rw [if_pos (by omega)]

theorem getLastD_of_concat {l : List Char} {c d : Char} : (l ++ [c]).getLastD d = c := by
  induction l generalizing d with
  | nil => rfl
  | cons x xs ih =>
    rw [List.cons_append, List.getLastD_cons]
    exact ih

theorem digitChar16_dec_props {d : Nat} (h : d < 10) :
    tolowerC (digitChar16 d) ≠ 'h' ∧ tolowerC (digitChar16 d) ≠ 'q' ∧
    tolowerC (digitChar16 d) ≠ 'b' := by
  interval_cases d <;> exact ⟨by decide, by decide, by decide⟩

theorem getLastD_mem_of_ne_nil {d : Char} : ∀ (l : List Char), l ≠ [] → l.getLastD d ∈ l := by
  intro l
  induction l generalizing d with
  | nil => intro h; exact absurd rfl h
  | cons x xs ih =>
    intro _
    rw [List.getLastD_cons]
    rcases hxs : xs with _ | ⟨y, ys⟩
    · simp
    · rw [← hxs]
      exact List.mem_cons_of_mem _ (ih (by rw [hxs]; exact List.cons_ne_nil y ys))

/-- `get_number` round-trips a rendering carrying a base-selecting
suffix letter. -/
theorem get_number_render_suffix {lineno n b : Nat} {suf : Char}
    (hb2 : 2 ≤ b) (hb16 : b ≤ 16) (hn : n ≤ 65535)
    (hspace : isSpaceC suf = false)
    (hbase : (if tolowerC suf = 'h' then (16 : Nat) else if tolowerC suf = 'q' then 8
              else if tolowerC suf = 'b' then 2 else 10) = b)
    (hdrop : tolowerC suf = 'h' ∨ tolowerC suf = 'q' ∨ tolowerC suf = 'b') :
    get_number lineno (String.mk (renderNum b n ++ [suf])) = Except.ok (n : Int) := by
  unfold get_number
  have hchars : ∀ c ∈ renderNum b n ++ [suf], isSpaceC c = false := by
    intro c hc
    rcases List.mem_append.mp hc with hc | hc
    · obtain ⟨d, hdb, hd16, hceq⟩ := renderNum_mem hb2 hb16 c hc
      subst hceq
      exact (digitChar16_props hd16).1
    · simp at hc
      subst hc
      exact hspace
  rw [show trimL (String.mk (renderNum b n ++ [suf])).data = renderNum b n ++ [suf] from
    trimL_nonspace hchars]
  rcases hr : renderNum b n with _ | ⟨c0, r0⟩
  · exact absurd hr renderNum_ne_nil
  · have hc0 : ∃ d, d < b ∧ d < 16 ∧ c0 = digitChar16 d := by
      apply renderNum_mem hb2 hb16
      rw [hr]
      exact List.mem_cons_self _ _
    obtain ⟨d0, hd0b, hd016, hc0eq⟩ := hc0
    try simp only [List.cons_append]
    try simp only []
    rw [if_neg (show ¬(c0 = '-') from by
      rw [hc0eq]; exact (digitChar16_props hd016).2.2.1)]
    have hgl : (c0 :: (r0 ++ [suf])).getLastD ' ' = suf := by
      rw [List.getLastD_cons]
      rcases r0 with _ | ⟨y, ys⟩
      · rfl
      · exact getLastD_of_concat
    simp only [hgl, hbase]
    rw [if_pos hdrop]
    rw [show (c0 :: (r0 ++ [suf])).dropLast = c0 :: r0 from by
      rw [show c0 :: (r0 ++ [suf]) = (c0 :: r0) ++ [suf] from rfl]
      exact List.dropLast_concat]
    rw [show (c0 :: r0) = renderNum b n from hr.symm]
    rw [stoulOpt_render hb2 hb16 (by omega)]
    try simp only [toInt32_small hn]
    try rfl

/-- `get_number` round-trips a decimal rendering with no suffix. -/
theorem get_number_render_dec {lineno n : Nat} (hn : n ≤ 65535) :
    get_number lineno (String.mk (renderNum 10 n)) = Except.ok (n : Int) := by
  unfold get_number
  have hchars : ∀ c ∈ renderNum 10 n, isSpaceC c = false := by
    intro c hc
    obtain ⟨d, hdb, hd16, hceq⟩ := renderNum_mem (by omega) (by omega) c hc
    subst hceq
    exact (digitChar16_props hd16).1
  rw [show trimL (String.mk (renderNum 10 n)).data = renderNum 10 n from
    trimL_nonspace hchars]
  rcases hr : renderNum 10 n with _ | ⟨c0, r0⟩
  · exact absurd hr renderNum_ne_nil
  · have hc0 : ∃ d, d < 10 ∧ d < 16 ∧ c0 = digitChar16 d := by
      apply renderNum_mem (by omega) (by omega)
      rw [hr]
      exact List.mem_cons_self _ _
    obtain ⟨d0, hd0b, hd016, hc0eq⟩ := hc0
    have hlm : (c0 :: r0).getLastD ' ' ∈ c0 :: r0 :=
      getLastD_mem_of_ne_nil _ (List.cons_ne_nil c0 r0)
    have hlast : ∃ d, d < 10 ∧ (c0 :: r0).getLastD ' ' = digitChar16 d := by
      obtain ⟨d, hdb, hd16, hceq⟩ := renderNum_mem (b := 10) (by omega) (by omega)
        ((c0 :: r0).getLastD ' ') (by rw [hr]; exact hlm)
      exact ⟨d, hdb, hceq⟩
    obtain ⟨dl, hdl10, hleq⟩ := hlast
    have hdec := digitChar16_dec_props hdl10
    simp only []
    rw [if_neg (show ¬(c0 = '-') from by
      rw [hc0eq]; exact (digitChar16_props hd016).2.2.1)]
    simp only [hleq]
    rw [if_neg hdec.1, if_neg hdec.2.1, if_neg hdec.2.2]
    rw [if_neg (show ¬(tolowerC (digitChar16 dl) = 'h' ∨ tolowerC (digitChar16 dl) = 'q' ∨
        tolowerC (digitChar16 dl) = 'b') from by
      rintro (h | h | h)
      · exact hdec.1 h
      · exact hdec.2.1 h
      · exact hdec.2.2 h)]
    rw [show (c0 :: r0) = renderNum 10 n from hr.symm]
    rw [stoulOpt_render (by omega) (by omega) (by omega)]
    try simp only [toInt32_small hn]
    try rfl

theorem numBase_pos (t : List Char) : 0 < numBase t := by
  unfold numBase
  simp only []
  repeat' split
  all_goals decide

/-- `std::stoul` rejects a list whose head is not a digit of the base
(and is not whitespace, a plus sign, or a `0x` prefix). -/
theorem stoulOpt_none {b : Nat} {c : Char} {cs : List Char} (hb : 0 < b)
    (hs : isSpaceC c = false) (hp : c ≠ '+') (hd : digitInBase b c = none) :
    stoulOpt (c :: cs) b = none := by
  unfold stoulOpt
  rw [List.dropWhile_cons_of_neg (by simp [hs])]
  simp only []
  rw [if_neg hp]
  have hc0 : c ≠ '0' := by
    intro h
    subst h
    unfold digitInBase at hd
    rw [show digitValC '0' = some 0 from by decide] at hd
    simp [hb] at hd
  rw [strip0x_keep (Or.inl hc0)]
  rw [show parseDigitsAux b (c :: cs) 0 false = (match digitInBase b c with
      | some v => parseDigitsAux b cs (0 * b + v) true
      | none => (0, false)) from by rw [parseDigitsAux]]
  rw [hd]
  try rfl

/-- A literal whose digit body starts with a character that is not a
valid digit of the selected base is rejected with the fatal
`invalid number format` diagnostic. -/
theorem get_number_invalid {lineno : Nat} {input : String}
    (h0 : trimL input.data ≠ [])
    (h1 : (trimL input.data).headD ' ' ≠ '-')
    (hb : numBody (trimL input.data) ≠ [])
    (hs : isSpaceC ((numBody (trimL input.data)).headD ' ') = false)
    (hp : (numBody (trimL input.data)).headD ' ' ≠ '+')
    (hd : digitInBase (numBase (trimL input.data)) ((numBody (trimL input.data)).headD ' ') = none) :
    get_number lineno input = Except.error (AsmErr.reported lineno
      ("invalid number format: " ++ String.mk (numBody (trimL input.data)))) := by
  have hpos := numBase_pos (trimL input.data)
  unfold get_number
  unfold numBase at hd hpos
  unfold numBody at hb hs hp hd ⊢
  simp only [] at hb hs hp hd hpos
  rcases hT : trimL input.data with _ | ⟨c, rest⟩
  · exact absurd hT h0
  · rw [hT] at h1 hb hs hp hd hpos
    simp only [List.headD_cons] at h1 hb hs hp hd
    simp only []
    rw [if_neg h1]
    rcases hbody : (if tolowerC ((c :: rest).getLastD ' ') = 'h' ∨
        tolowerC ((c :: rest).getLastD ' ') = 'q' ∨
        tolowerC ((c :: rest).getLastD ' ') = 'b' then
        (c :: rest).dropLast else c :: rest) with _ | ⟨b0, brest⟩
    · rw [hbody] at hb
      exact absurd rfl hb
    · rw [hbody] at hs hp hd
      try rw [hbody]
      simp only [List.headD_cons] at hs hp hd
      rw [stoulOpt_none hpos hs hp hd]

/-! ### Additional concrete programs and states for the final claims -/

/-- A program whose `DB` operand divides by zero in pass 2. -/
def progZ : List String := ["      DB 1/0"]

/-- The body lines of the `DELAY` macro of scenarioE, as stored by the
macro pre-pass. -/
def delayBody : List String :=
  ["      LOCAL LOOP", "      MVI B,COUNT", "LOOP: DCR B", "      JNZ LOOP"]

/-- Searching for the empty pattern hits at position 0 on every text,
exactly as `std::string::find` does. -/
theorem findSub_nil_pat : ∀ rest : List Char, findSub [] rest = some 0
  | [] => rfl
  | _ :: _ => rfl

/-- The replacement loop never terminates on an empty pattern: it always
finds the pattern at position 0 again, so it exhausts any fuel (the C++
loop runs forever, growing the line). -/
theorem replaceLoop_empty_pat : ∀ (fuel : Nat) (done rest repl : List Char),
    replaceLoop fuel done rest [] repl = Except.error AsmErr.fuel := by
  intro fuel
  induction fuel with
  | zero => intro done rest repl; rfl
  | succ n ih =>
    intro done rest repl
    rw [replaceLoop, findSub_nil_pat]
    exact ih _ _ _

/-- Result of the macro pre-pass on progZ. -/
def preZ : AsmState :=
  { lineno := 0, address := 0, source_pass := 1, assembly_finished := false, macro_expansion_counter := 0, output := [], symbol_table := [], macros := [], if_stack := [], cross_reference_data := [], label := "", mnemonic := "", operand1 := "", operand2 := "", comment := "" }

/-- Checkpoint state 0 of pass run Zp1. -/
def stZp1_0 : AsmState :=
  { lineno := 0, address := 0, source_pass := 1, assembly_finished := false, macro_expansion_counter := 0, output := [], symbol_table := [], macros := [], if_stack := [], cross_reference_data := [], label := "", mnemonic := "", operand1 := "", operand2 := "", comment := "" }

/-- Checkpoint state 1 of pass run Zp1. -/
def stZp1_1 : AsmState :=
  { lineno := 0, address := 1, source_pass := 1, assembly_finished := false, macro_expansion_counter := 0, output := [], symbol_table := [], macros := [], if_stack := [], cross_reference_data := [], label := "", mnemonic := "db", operand1 := "1/0", operand2 := "", comment := "" }

/-- Line-entry state for line 0 of pass run Zp1. -/
def stZp1_0L : AsmState :=
  { lineno := 0, address := 0, source_pass := 1, assembly_finished := false, macro_expansion_counter := 0, output := [], symbol_table := [], macros := [], if_stack := [], cross_reference_data := [], label := "", mnemonic := "", operand1 := "", operand2 := "", comment := "" }

/-- Processing of line 0 of pass run Zp1. -/
theorem lnZp1_0 : expand_and_process_line 30 stZp1_0L "      DB 1/0" 0 = Except.ok stZp1_1 := by rfl

/-- Per-line evaluation chain of pass run Zp1. -/
theorem chainZp1 :
    doPassAux 30 stZp1_0 progZ 0 false [] = Except.ok (stZp1_1, [1]) :=
  calc doPassAux 30 stZp1_0 progZ 0 false [] = doPassAux 30 stZp1_1 [] 1 false [1] := dpa_step_ok (by rfl) (by decide) (by decide) (by rfl) lnZp1_0 (by rfl)
    _ = Except.ok (stZp1_1, [1]) := by rfl

/-- Pass 1 of progZ as a `do_pass` run. -/
theorem dpZ1 : do_pass 30 { preZ with source_pass := 1 } progZ = Except.ok (stZp1_1, [1]) := by
  unfold do_pass
  rw [show ({ ({ preZ with source_pass := 1 } : AsmState) with if_stack := [] } : AsmState) = stZp1_0 from by rfl]
  rw [chainZp1]
  try rfl

/-- Checkpoint state 0 of pass run Zp2. -/
def stZp2_0 : AsmState :=
  { lineno := 0, address := 0, source_pass := 2, assembly_finished := false, macro_expansion_counter := 0, output := [], symbol_table := [], macros := [], if_stack := [], cross_reference_data := [], label := "", mnemonic := "db", operand1 := "1/0", operand2 := "", comment := "" }

/-- Line-entry state for line 0 of pass run Zp2. -/
def stZp2_0L : AsmState :=
  { lineno := 0, address := 0, source_pass := 2, assembly_finished := false, macro_expansion_counter := 0, output := [], symbol_table := [], macros := [], if_stack := [], cross_reference_data := [], label := "", mnemonic := "db", operand1 := "1/0", operand2 := "", comment := "" }

/-- Processing of line 0 of pass run Zp2 reports a fatal error. -/
theorem lnZp2_0 : expand_and_process_line 30 stZp2_0L "      DB 1/0" 0 = Except.error (M80.AsmErr.divByZero) := by rfl

/-- Per-line evaluation chain of pass run Zp2. -/
theorem chainZp2 :
    doPassAux 30 stZp2_0 progZ 0 false [] = Except.error (M80.AsmErr.divByZero) :=
  dpa_step_err (by rfl) (by decide) (by decide) (by rfl) lnZp2_0

/-- Pass 2 of progZ aborts. -/
theorem dpZ2 : do_pass 30 { stZp1_1 with source_pass := 2, address := 0, output := [], assembly_finished := false, macro_expansion_counter := 0 } progZ = Except.error (M80.AsmErr.divByZero) := by
  unfold do_pass
  rw [show ({ ({ stZp1_1 with source_pass := 2, address := 0, output := [], assembly_finished := false, macro_expansion_counter := 0 } : AsmState) with if_stack := [] } : AsmState) = stZp2_0 from by rfl]
  rw [chainZp2]
  try rfl

/-- The whole assembly of progZ aborts in pass 2. -/
theorem runZ : assembleT 30 initState progZ = Except.error (M80.AsmErr.divByZero) := by
  unfold assembleT
  rw [show preprocess_macros (reset_state initState) progZ = Except.ok preZ from by rfl]
  dsimp only
  rw [dpZ1]
  dsimp only
  rw [dpZ2]
  try rfl

/-- `assemble` on progZ aborts. -/
theorem asmZ : assemble 30 initState progZ = Except.error (M80.AsmErr.divByZero) := by
  unfold assemble
  rw [runZ]
  try rfl
/-- A pass-1 state about to run the `jmp` handler. -/
def stC2w1 : AsmState :=
  { lineno := 0, address := 7, source_pass := 1, assembly_finished := false, macro_expansion_counter := 0, output := [], symbol_table := [], macros := [], if_stack := [], cross_reference_data := [], label := "", mnemonic := "jmp", operand1 := "9", operand2 := "", comment := "" }

/-- A pass-2 state with a symbol table, same operand fields as stC2w1. -/
def stC2w2 : AsmState :=
  { lineno := 0, address := 7, source_pass := 2, assembly_finished := false, macro_expansion_counter := 0, output := [], symbol_table := [("x", 3)], macros := [], if_stack := [], cross_reference_data := [], label := "", mnemonic := "jmp", operand1 := "9", operand2 := "", comment := "" }

/-- The state the `jmp` handler returns from stC2w1. -/
def stC2r1 : AsmState :=
  { lineno := 0, address := 10, source_pass := 1, assembly_finished := false, macro_expansion_counter := 0, output := [], symbol_table := [], macros := [], if_stack := [], cross_reference_data := [], label := "", mnemonic := "jmp", operand1 := "9", operand2 := "", comment := "" }

/-- The state the `jmp` handler returns from stC2w2. -/
def stC2r2 : AsmState :=
  { lineno := 0, address := 10, source_pass := 2, assembly_finished := false, macro_expansion_counter := 0, output := [195, 9, 0], symbol_table := [("x", 3)], macros := [], if_stack := [], cross_reference_data := [], label := "", mnemonic := "jmp", operand1 := "9", operand2 := "", comment := "" }

end M80

open M80

/-! ## The ten claims -/

/-- C1: Scenario A assembles successfully, but its output buffer is not
the ten listed bytes: in pass 2 the `ORG 100H` directive pads the output
with 256 zero bytes, so the buffer holds 266 bytes; consequently
`RESULT` sits at address 0x0109 — not 0x0108 — and `STA RESULT` encodes
as `32 09 01`.  This theorem records the amended output and symbol
value. -/
theorem c1_theorem :
    assemble 30 initState scenarioA = Except.ok stAp2_8 ∧
    stAp2_8.output =
      List.replicate 256 0 ++ [0x3E, 0x05, 0x06, 0x0A, 0x80, 0x32, 0x09, 0x01, 0x76, 0x00] ∧
    mapFind stAp2_8.symbol_table "result" = some 0x0109 :=
  ⟨asmA, by decide, by rfl⟩

/-- C1 counterexample: the Scenario A output is 266 bytes long, differs
from the claimed ten bytes `3E 05 06 0A 80 32 08 01 76 00`, and the
symbol table does not map `result` to 0x0108 (it maps it to 0x0109). -/
theorem c1_counterexample :
    assemble 30 initState scenarioA = Except.ok stAp2_8 ∧
    stAp2_8.output.length = 266 ∧
    (stAp2_8.output == [0x3E, 0x05, 0x06, 0x0A, 0x80, 0x32, 0x08, 0x01, 0x76, 0x00]) = false ∧
    mapFind stAp2_8.symbol_table "result" = some 0x0109 ∧
    (mapFind stAp2_8.symbol_table "result" == some 0x0108) = false :=
  ⟨asmA, by rfl, by rfl, by rfl, by rfl⟩

/-- C2: amended statement.  The pass-1/pass-2 location-counter agreement
does not hold for every program (see the counterexample with `DS` on a
forward reference), but it does hold handler-by-handler for every
mnemonic other than the expression-sized directives `ds` and `org`:
whenever two runs of the same handler start from states that agree on
the address and the operand fields, the resulting addresses agree,
whatever the pass and the symbol table contents. -/
theorem c2_theorem :
    ∀ (n : String) (hd : Handler), handlerOf n = some hd →
      n ≠ "ds" → n ≠ "org" → OperandDetermined hd :=
  fun n hd hf hds horg => (handler_dispatch_spec n hd hf).2 hds horg

/-- C2 witness: the amended per-handler statement applied to `jmp` at two
concrete states from different passes (the pass-2 state also carries a
symbol table); both runs move the address from 7 to 10. -/
theorem c2_theorem_witness : stC2r1.address = stC2r2.address :=
  c2_theorem "jmp" jmp (by rfl) (by decide) (by decide) 30 30 stC2w1 stC2w2 stC2r1 stC2r2
    (by rfl) (by rfl) (by rfl) (by rfl) (by rfl) (by rfl)

/-- C2 counterexample: `DS FOO` before `FOO EQU 5` assembles without a
fatal error, yet the pass-1 location-counter trace is `[0, 0]` while the
pass-2 trace is `[5, 5]` — in pass 1 the forward reference evaluates to
0, in pass 2 to 5. -/
theorem c2_counterexample :
    assembleT 30 initState progX = Except.ok (stXp2_2, [0, 0], [5, 5]) ∧
    (([0, 0] : List Nat) == [5, 5]) = false :=
  ⟨runX, by rfl⟩

/-- C3: the claimed `LOW`/`HIGH` operators do not work on defined labels
either: the tokenizer has no such operators at expression depth, so
`DB LOW VAL, HIGH VAL` parses `low` as an ordinary symbol lookup, which
is undefined; pass 1 yields 0 silently and pass 2 aborts assembly with a
reported undefined-label error on line 3 (1-indexed) instead of emitting
`34 12`. -/
theorem c3_theorem :
    assemble 30 initState scenarioD =
      Except.error (AsmErr.reported 2 "undefined label in expression: low") ∧
    exitsWithCode1 (AsmErr.reported 2 "undefined label in expression: low") = true ∧
    renderErr (AsmErr.reported 2 "undefined label in expression: low") =
      "asm80> line 3: undefined label in expression: low" :=
  ⟨asmD, by rfl, by rfl⟩

/-- C4: the conditional evaluator searches for the lowercase operator
words only, with a case-sensitive substring find, so the uppercase `EQ`
in Scenario F is never found; both `IF` conditions fall into the
whole-expression path, both evaluate nonzero, and both guarded `MVI`
lines assemble: the output is `3E FF 3E 00 76`, not the claimed
`3E FF 76`. -/
theorem c4_theorem :
    findCondOp condOps " DEBUG EQ 1" = none ∧
    findCondOp condOps " DEBUG EQ 0" = none ∧
    assemble 30 initState scenarioF = Except.ok stFp2_9 ∧
    stFp2_9.output = [0x3E, 0xFF, 0x3E, 0x00, 0x76] ∧
    (stFp2_9.output == [0x3E, 0xFF, 0x76]) = false :=
  ⟨by rfl, by rfl, asmF, by rfl, by rfl⟩

/-- A pass-1 state about to run `equ` with its label already present in
the symbol table. -/
def stC5dup : AsmState :=
  { lineno := 1, address := 0, source_pass := 1, assembly_finished := false, macro_expansion_counter := 0, output := [], symbol_table := [("x", 3)], macros := [], if_stack := [], cross_reference_data := [], label := "x", mnemonic := "equ", operand1 := "1", operand2 := "", comment := "" }

/-- C5: labels are inserted at most once and only in pass 1.
Conjunct 1: `add_label` on a label already present is the fatal
duplicate-label error.  Conjunct 2: `equ` in pass 1 on a label already
present (once its operand expression has evaluated) is the same fatal
duplicate-label error, so an EQU re-insertion is fatal too.
Conjunct 3: `pass_action` outside pass 1 leaves the symbol table
unchanged.  Conjunct 4: every mnemonic handler leaves the symbol table
unchanged when started in pass 2 (this covers `equ` and re-executed
label lines).  Conjunct 5: a whole pass-2 run of the line loop leaves
the symbol table unchanged. -/
theorem c5_theorem :
    (∀ st : AsmState, mapContains st.symbol_table st.label = true →
       add_label st = Except.error (AsmErr.reported st.lineno
         ("duplicate label: \"" ++ st.label ++ "\""))) ∧
    (∀ (fuel : Nat) (st : AsmState) (v : Int) (st1 : AsmState),
       st.label ≠ "" → st.operand1 ≠ "" → st.operand2 = "" →
       evaluate_expression fuel st st.operand1 = Except.ok (v, st1) →
       st1.source_pass = 1 →
       mapContains st1.symbol_table st1.label = true →
       equ fuel st = Except.error (AsmErr.reported st1.lineno
         ("duplicate label: \"" ++ st1.label ++ "\""))) ∧
    (∀ (st : AsmState) (sz : Nat) (bs : List Nat) (b : Bool) (st2 : AsmState),
       pass_action st sz bs b = Except.ok st2 → st.source_pass ≠ 1 →
       st2.symbol_table = st.symbol_table) ∧
    (∀ (n : String) (hd : Handler), handlerOf n = some hd →
       ∀ (fuel : Nat) (st st2 : AsmState), hd fuel st = Except.ok st2 →
         st.source_pass = 2 → st2.symbol_table = st.symbol_table) ∧
    (∀ (lines : List String) (fuel : Nat) (st : AsmState) (i : Nat) (d : Bool)
       (tr : List Nat) (st2 : AsmState) (tr2 : List Nat),
       st.source_pass = 2 → doPassAux fuel st lines i d tr = Except.ok (st2, tr2) →
       st2.symbol_table = st.symbol_table) := by
  refine ⟨?_, ?_, ?_, ?_, ?_⟩
  · intro st hdup
    unfold add_label
    rw [if_pos hdup]
  · intro fuel st v st1 hlbl ho1 ho2 heval hp1 hdup
    unfold equ
    try simp only []
    rw [if_neg hlbl]
    rw [show check_operands st (st.operand1 ≠ "" ∧ st.operand2 = "") "equ" = Except.ok () from by
      unfold check_operands
      rw [if_pos (And.intro ho1 ho2)]]
    rw [exceptBindOk, heval, exceptBindOk]
    try simp only []
    rw [if_pos hp1, if_pos hdup]
  · intro st sz bs b st2 h hne
    exact (pass_action_spec h).2.2.2.2 hne
  · intro n hd hf fuel st st2 h hp
    exact ((handler_dispatch_spec n hd hf).1 fuel st st2 h).2 hp
  · intro lines fuel st i d tr st2 tr2 hp h
    exact (doPassAux_pres2 lines fuel st i d tr st2 tr2 hp h).1

/-- C5 witness: the pass-2 run of Scenario A (the concrete line loop run
behind `asmA`) ends with the symbol table it started with, and a pass-1
`x EQU 1` on the state whose table already holds `x` is the fatal
duplicate-label error. -/
theorem c5_theorem_witness :
    stAp2_8.symbol_table = stAp2_0.symbol_table ∧
    equ 30 stC5dup = Except.error (AsmErr.reported 1 "duplicate label: \"x\"") :=
  ⟨c5_theorem.2.2.2.2 scenarioA 30 stAp2_0 0 false [] stAp2_8
     [256, 258, 260, 261, 264, 265, 266, 266] (by rfl) chainAp2,
   c5_theorem.2.1 30 stC5dup 1 stC5dup (by decide) (by decide) (by rfl)
     (by rfl) (by rfl) (by rfl)⟩

/-- C6: the number-parsing round trip.  For every `n ≤ 0xFFFF` and every
line number, `get_number` returns `n` on the uppercase-hex rendering of
`n` with suffix `H` or `h`, the octal rendering with `Q` or `q`, the
binary rendering with `B` or `b`, and the decimal rendering with no
suffix — the suffix letter is recognised case-insensitively as the final
character. -/
theorem c6_theorem : ∀ n : Nat, n ≤ 65535 → ∀ lineno : Nat,
    get_number lineno (String.mk (renderNum 16 n ++ ['H'])) = Except.ok (n : Int) ∧
    get_number lineno (String.mk (renderNum 16 n ++ ['h'])) = Except.ok (n : Int) ∧
    get_number lineno (String.mk (renderNum 8 n ++ ['Q'])) = Except.ok (n : Int) ∧
    get_number lineno (String.mk (renderNum 8 n ++ ['q'])) = Except.ok (n : Int) ∧
    get_number lineno (String.mk (renderNum 2 n ++ ['B'])) = Except.ok (n : Int) ∧
    get_number lineno (String.mk (renderNum 2 n ++ ['b'])) = Except.ok (n : Int) ∧
    get_number lineno (String.mk (renderNum 10 n)) = Except.ok (n : Int) := by
  intro n hn lineno
  refine ⟨?_, ?_, ?_, ?_, ?_, ?_, ?_⟩
  · exact get_number_render_suffix (by decide) (by decide) hn (by decide) (by decide) (by decide)
  · exact get_number_render_suffix (by decide) (by decide) hn (by decide) (by decide) (by decide)
  · exact get_number_render_suffix (by decide) (by decide) hn (by decide) (by decide) (by decide)
  · exact get_number_render_suffix (by decide) (by decide) hn (by decide) (by decide) (by decide)
  · exact get_number_render_suffix (by decide) (by decide) hn (by decide) (by decide) (by decide)
  · exact get_number_render_suffix (by decide) (by decide) hn (by decide) (by decide) (by decide)
  · exact get_number_render_dec hn

/-- C6 witness: the round trip at n = 43981 (hex rendering `ABCD`, so the
first input is the string `ABCDH`) and line number 7. -/
theorem c6_theorem_witness :
    (43981 : Nat) ≤ 65535 ∧
    String.mk (renderNum 16 43981 ++ ['H']) = "ABCDH" ∧
    (get_number 7 (String.mk (renderNum 16 43981 ++ ['H'])) = Except.ok ((43981 : Nat) : Int) ∧
     get_number 7 (String.mk (renderNum 16 43981 ++ ['h'])) = Except.ok ((43981 : Nat) : Int) ∧
     get_number 7 (String.mk (renderNum 8 43981 ++ ['Q'])) = Except.ok ((43981 : Nat) : Int) ∧
     get_number 7 (String.mk (renderNum 8 43981 ++ ['q'])) = Except.ok ((43981 : Nat) : Int) ∧
     get_number 7 (String.mk (renderNum 2 43981 ++ ['B'])) = Except.ok ((43981 : Nat) : Int) ∧
     get_number 7 (String.mk (renderNum 2 43981 ++ ['b'])) = Except.ok ((43981 : Nat) : Int) ∧
     get_number 7 (String.mk (renderNum 10 43981)) = Except.ok ((43981 : Nat) : Int)) :=
  ⟨by decide,
   by
     have hd : Nat.digits 16 43981 = [13, 12, 11, 10] := by norm_num
     simp only [renderNum, hd]
     decide,
   c6_theorem 43981 (by decide) 7⟩

/-- C7: amended error behaviour for malformed literals.  A literal whose
digit body starts with a character that is not a digit of the selected
base is a fatal error reported as `line <1-indexed>: invalid number
format: <body>` with exit code 1.  But this does not cover every
malformed literal: see the counterexample for a leading `-` case that
aborts through an uncaught `std::invalid_argument` instead, and for
trailing garbage that is silently accepted. -/
theorem c7_theorem (lineno : Nat) (input : String)
    (h0 : trimL input.data ≠ [])
    (h1 : (trimL input.data).headD ' ' ≠ '-')
    (hb : numBody (trimL input.data) ≠ [])
    (hs : isSpaceC ((numBody (trimL input.data)).headD ' ') = false)
    (hp : (numBody (trimL input.data)).headD ' ' ≠ '+')
    (hd : digitInBase (numBase (trimL input.data)) ((numBody (trimL input.data)).headD ' ') = none) :
    get_number lineno input = Except.error (AsmErr.reported lineno
      ("invalid number format: " ++ String.mk (numBody (trimL input.data)))) ∧
    exitsWithCode1 (AsmErr.reported lineno
      ("invalid number format: " ++ String.mk (numBody (trimL input.data)))) = true ∧
    renderErr (AsmErr.reported lineno
      ("invalid number format: " ++ String.mk (numBody (trimL input.data)))) =
      "asm80> line " ++ toString (lineno + 1) ++ ": " ++
        ("invalid number format: " ++ String.mk (numBody (trimL input.data))) :=
  ⟨get_number_invalid h0 h1 hb hs hp hd, rfl, rfl⟩

/-- C7 witness: the amended statement at line 4 on the input `G5H`,
whose hex digit body is `G5`. -/
theorem c7_theorem_witness :
    String.mk (numBody (trimL ("G5H" : String).data)) = "G5" ∧
    (get_number 4 "G5H" = Except.error (AsmErr.reported 4
        ("invalid number format: " ++ String.mk (numBody (trimL ("G5H" : String).data)))) ∧
     exitsWithCode1 (AsmErr.reported 4
        ("invalid number format: " ++ String.mk (numBody (trimL ("G5H" : String).data)))) = true ∧
     renderErr (AsmErr.reported 4
        ("invalid number format: " ++ String.mk (numBody (trimL ("G5H" : String).data)))) =
       "asm80> line " ++ toString (4 + 1) ++ ": " ++
         ("invalid number format: " ++ String.mk (numBody (trimL ("G5H" : String).data)))) :=
  ⟨by rfl, c7_theorem 4 "G5H" (by decide) (by decide) (by decide) (by rfl) (by decide) (by rfl)⟩

/-- C7 counterexample: not every malformed numeric literal is reported
with exit code 1.  `5G7` is malformed but accepted as 5 (the C++
`std::stoul` stops at the first bad character), and `-Z`, a leading
minus with a non-numeric remainder, throws `std::invalid_argument` from
`std::stoi` outside the try block, which terminates the process without
any `line N:` diagnostic and not with exit code 1. -/
theorem c7_counterexample :
    get_number 0 "5G7" = Except.ok 5 ∧
    get_number 0 "-Z" = Except.error (AsmErr.uncaught "std::invalid_argument (stoi)") ∧
    exitsWithCode1 (AsmErr.uncaught "std::invalid_argument (stoi)") = false :=
  ⟨by rfl, by rfl, by rfl⟩

/-- C8: amended macro hygiene.  The expansion counter increments once per
invocation (the two `DELAY` invocations of Scenario E take it 0 to 1 to
2); a label declared on a `LOCAL` line is renamed `originalname_N` via
`localName`, and for the Scenario E body the two invocations define
`loop_1` and `loop_2`, which differ only in the counter suffix and do
not collide.  But the renaming only covers labels inside the second
whitespace-delimited token of the `LOCAL` line — see the counterexample
for `LOCAL A, B`. -/
theorem c8_theorem :
    (∀ (lbl : String) (n : Nat), localName lbl n = lbl ++ "_" ++ toString n) ∧
    (∀ k : Nat, buildLocalMap delayBody k = [("LOOP", "LOOP_" ++ Nat.repr k)]) ∧
    (∀ k : Nat, substituteAll 30 ("LOOP: DCR B".data) [("LOOP", "LOOP_" ++ Nat.repr k)] =
       Except.ok (("LOOP_" ++ Nat.repr k).data ++ (": DCR B".data))) ∧
    (expand_and_process_line 30 stEp1_7L "      DELAY 5" 7 = Except.ok stEp1_8 ∧
     expand_and_process_line 30 stEp1_8L "      DELAY 3" 8 = Except.ok stEp1_9 ∧
     stEp1_7L.macro_expansion_counter = 0 ∧ stEp1_8.macro_expansion_counter = 1 ∧
     stEp1_9.macro_expansion_counter = 2) ∧
    stEp1_9.symbol_table = [("loop_1", 2), ("loop_2", 8)] ∧
    (("LOOP_1" : String) == "LOOP_2") = false := by
  refine ⟨fun lbl n => rfl, fun k => rfl, fun k => rfl,
    ⟨lnEp1_7, lnEp1_8, rfl, rfl, rfl⟩, rfl, rfl⟩

/-- C8 witness: the local-label map and the body substitution of the
Scenario E macro body at counter value 1. -/
theorem c8_theorem_witness :
    buildLocalMap delayBody 1 = [("LOOP", "LOOP_" ++ Nat.repr 1)] ∧
    substituteAll 30 ("LOOP: DCR B".data) [("LOOP", "LOOP_" ++ Nat.repr 1)] =
      Except.ok (("LOOP_" ++ Nat.repr 1).data ++ (": DCR B".data)) :=
  ⟨c8_theorem.2.1 1, c8_theorem.2.2.1 1⟩

/-- C8 counterexample: on the line `LOCAL A, B` the `>>`-style extraction
takes only the second whitespace token `A,`, so the comma split yields
`A` and the empty string: `B` is never renamed, the empty name enters
the substitution map, and the replacement loop on the empty pattern
never terminates (every fuel is exhausted — the C++ assembler hangs). -/
theorem c8_counterexample :
    buildLocalMap ["      LOCAL A, B"] 1 = [("", "_1"), ("A", "A_1")] ∧
    mapFind (buildLocalMap ["      LOCAL A, B"] 1) "B" = none ∧
    (∀ fuel : Nat, substituteAll fuel ("B: NOP".data) (buildLocalMap ["      LOCAL A, B"] 1) =
       Except.error AsmErr.fuel) := by
  refine ⟨by rfl, by rfl, ?_⟩
  intro fuel
  show (replaceLoop fuel [] ("B: NOP".data) [] ("_1".data) >>= fun line =>
    substituteAll fuel line [("A", "A_1")]) = Except.error AsmErr.fuel
  rw [replaceLoop_empty_pat]
  rfl

/-- C9: the expression evaluator has an unguarded integer division: a
`/` whose right-hand side evaluates to 0 is neither checked nor turned
into a reported assembly error.  Assembling `DB 1/0` survives pass 1 and
dies in pass 2 with the division-by-zero event (the C++ binary gets
SIGFPE from `lhs / 0`), which is not a `line N:` diagnostic with exit
code 1. -/
theorem c9_theorem :
    assembleT 30 initState progZ = Except.error AsmErr.divByZero ∧
    assemble 30 initState progZ = Except.error AsmErr.divByZero ∧
    exitsWithCode1 AsmErr.divByZero = false ∧
    renderErr AsmErr.divByZero = "floating point exception" :=
  ⟨runZ, asmZ, by rfl, by rfl⟩

/-- C10: `reset_state` clears the output buffer, the symbol table, the
macro table, the counters and the pass bookkeeping, but leaves the
cross-reference map untouched; running `assemble` twice on one state
therefore accumulates cross-reference entries: after one run on progR
the label `l` has entries `[-1, 2]`, after a second run on the returned
state it has `[-1, 2] ++ [-1, 2]`, while the rest of the result matches
a fresh run. -/
theorem c10_theorem :
    (∀ st : AsmState,
       (reset_state st).cross_reference_data = st.cross_reference_data ∧
       (reset_state st).if_stack = st.if_stack ∧
       (reset_state st).output = [] ∧
       (reset_state st).symbol_table = [] ∧
       (reset_state st).macros = [] ∧
       (reset_state st).lineno = 0 ∧
       (reset_state st).address = 0 ∧
       (reset_state st).source_pass = 1 ∧
       (reset_state st).assembly_finished = false ∧
       (reset_state st).macro_expansion_counter = 0) ∧
    assemble 30 initState progR = Except.ok stR1p2_2 ∧
    assemble 30 stR1p2_2 progR = Except.ok stR2p2_2 ∧
    initState.cross_reference_data = [] ∧
    stR1p2_2.cross_reference_data = [("l", [-1, 2])] ∧
    stR2p2_2.cross_reference_data = [("l", [-1, 2] ++ [-1, 2])] ∧
    stR2p2_2.output = stR1p2_2.output ∧
    stR2p2_2.symbol_table = stR1p2_2.symbol_table :=
  ⟨fun st => ⟨rfl, rfl, rfl, rfl, rfl, rfl, rfl, rfl, rfl, rfl⟩,
   asmR1, asmR2, rfl, rfl, by rfl, by rfl, by rfl⟩

/-- C10 witness: the `reset_state` frame applied to the state returned by
the first run on progR. -/
theorem c10_theorem_witness :
    (reset_state stR1p2_2).cross_reference_data = stR1p2_2.cross_reference_data ∧
    (reset_state stR1p2_2).symbol_table = [] :=
  ⟨(c10_theorem.1 stR1p2_2).1, (c10_theorem.1 stR1p2_2).2.2.2.1⟩
